import Mathlib

/-!
# aws-event-sources: subscription handling and adapter convergence

A shallow embedding of

* `pkg/reconciler/awssnssource/subscription.go` (`ensureSubscribed`,
  `ensureUnsubscribed`, `newSNSClient`, `awsCredentials` and the error
  classifiers), and
* `pkg/reconciler/common/reconcile.go` (`ReconcileSource`, `resolveSinkURL`,
  `reconcileAdapter`, `getOrCreateAdapter`, `syncAdapterDeployment`,
  `syncAdapterService`, `findAdapter`).

Go functions that talk to the outside world (the lister, the Kubernetes
clients, the sink resolver, the SNS API) are arguments of the embedding; every
call the code issues is appended to a trace, so that "no call is issued" and
"exactly one call is issued" are statements about that trace.  A Go `error`
value is a term of `Err`; a nil error is `none` (or `Except.ok`).
-/

namespace AwsEventSources

/-! ## Go error values -/

/-- Type of a Kubernetes event: `corev1.EventTypeNormal`, `corev1.EventTypeWarning`. -/
inductive EventType where
  | Normal
  | Warning
  deriving DecidableEq, Repr

/-- Reason constants of the events the two packages emit.  The constants are
declared outside the embedded files; only their names are used. -/
inductive EventReason where
  | ReasonSubscribed
  | ReasonFailedSubscribe
  | ReasonUnsubscribed
  | ReasonFailedUnsubscribe
  | ReasonBadSinkURI
  | ReasonAdapterCreate
  | ReasonFailedAdapterCreate
  | ReasonAdapterUpdate
  | ReasonFailedAdapterUpdate
  deriving DecidableEq, Repr

/-- An AWS SDK error (`awserr.Error`).  `origErr` is the text of `OrigErr()`,
when there is one: the code only ever prints it.  `request` is present for an
`awserr.RequestFailure` and holds the HTTP status code and the per-request
identifier. -/
structure AWSError where
  code : String
  message : String
  origErr : Option String
  request : Option (Nat × String)
  deriving DecidableEq, Repr

/-- Go error values as the embedded code produces and inspects them.

* `plain`: an error with no `Unwrap`, `As` or classification interface
  (`errors.New`, a network error, a context deadline);
* `status`: a Kubernetes `*apierrors.StatusError` with its `Status().Reason`
  and message;
* `aws`: an `awserr.Error`;
* `wrapped`: the result of `fmt.Errorf(pfx + "%w", inner)`;
* `event`: a `*reconciler.ReconcilerEvent` built by `reconciler.NewEvent`
  (format and arguments are kept apart, as in the Go struct);
* `permanent`: the result of `controller.NewPermanentError(inner)`. -/
inductive Err where
  | plain (msg : String)
  | status (reason : String) (msg : String)
  | aws (e : AWSError)
  | wrapped (pfx : String) (inner : Err)
  | event (etype : EventType) (reason : EventReason) (format : String) (args : List String)
  | permanent (inner : Err)
  deriving DecidableEq, Repr

/-- Value of `metav1.StatusReasonNotFound`. -/
def StatusReasonNotFound : String := "NotFound"

/-- Value of `sns.ErrCodeNotFoundException`. -/
def ErrCodeNotFoundException : String := "NotFound"

/-- Value of `sns.ErrCodeAuthorizationErrorException`. -/
def ErrCodeAuthorizationErrorException : String := "AuthorizationError"

/-- Go string quoting as `%q` prints it, for strings that need no escaping. -/
def goQuote (s : String) : String := "\"" ++ s ++ "\""

/-- Rendering of a format whose verbs are `%s` and `%q`, the only verbs the
embedded code uses, against already stringified arguments. -/
def sprintfAux : List Char → List String → String
  | [], _ => ""
  | '%' :: 's' :: rest, a :: as => a ++ sprintfAux rest as
  | '%' :: 'q' :: rest, a :: as => goQuote a ++ sprintfAux rest as
  | c :: rest, as => String.singleton c ++ sprintfAux rest as

/-- Model of `fmt.Sprintf` restricted to `%s` and `%q`. -/
def sprintf (format : String) (args : List String) : String :=
  sprintfAux format.data args

/-- The `awserr.SprintError(code, message, extra, origErr)` function of the AWS SDK. -/
def SprintError (code message extra : String) (origErr : Option String) : String :=
  let msg := code ++ ": " ++ message
  let msg := if extra ≠ "" then msg ++ "\n\t" ++ extra else msg
  match origErr with
  | some o => msg ++ "\ncaused by: " ++ o
  | none => msg

/-- The `Error()` text of an AWS error: a request failure appends the status
code and the request identifier as the extra line. -/
def AWSError.Error (e : AWSError) : String :=
  match e.request with
  | some (statusCode, requestID) =>
      SprintError e.code e.message
        ("status code: " ++ toString statusCode ++ ", request id: " ++ requestID) e.origErr
  | none => SprintError e.code e.message "" e.origErr

/-- The `Error()` method of each kind of error value. -/
def Err.Error : Err → String
  | .plain msg => msg
  | .status _ msg => msg
  | .aws e => e.Error
  | .wrapped pfx inner => pfx ++ inner.Error
  | .event _ _ format args => sprintf format args
  | .permanent inner => inner.Error

/-- Result of `errors.As(err, &awsErr)` with `awsErr` of interface type
`awserr.Error`: the first AWS error of the `Unwrap` chain.  Wrappers made by
`fmt.Errorf("%w")` and `NewPermanentError` unwrap; a `ReconcilerEvent` whose
format has no `%w` verb wraps nothing, and `StatusError` and AWS errors have no
`Unwrap` method. -/
def asAWSError : Err → Option AWSError
  | .aws e => some e
  | .wrapped _ inner => asAWSError inner
  | .permanent inner => asAWSError inner
  | _ => none

/-- Result of `errors.As(err, &k8sErr)` with `k8sErr` of interface type
`apierrors.APIStatus`: the `Status().Reason` of the first status error of the
chain. -/
def asAPIStatus : Err → Option String
  | .status reason _ => some reason
  | .wrapped _ inner => asAPIStatus inner
  | .permanent inner => asAPIStatus inner
  | _ => none

/-- Result of `errors.As(err, &ev)` with `ev` a `*reconciler.ReconcilerEvent`:
the event an error carries, as type and reason. -/
def asEvent : Err → Option (EventType × EventReason)
  | .event etype reason _ _ => some (etype, reason)
  | .wrapped _ inner => asEvent inner
  | .permanent inner => asEvent inner
  | _ => none

/-- The `controller.IsPermanentError` test: `errors.As` against `permanentError`. -/
def IsPermanentError : Err → Bool
  | .permanent _ => true
  | .wrapped _ inner => IsPermanentError inner
  | _ => false

/-- The `apierrors.IsNotFound` test: the reason of the status error is NotFound. -/
def apiIsNotFound (err : Err) : Bool :=
  match asAPIStatus err with
  | some reason => reason == StatusReasonNotFound
  | none => false

/-- The `isNotFound` function of subscription.go, on a non-nil error (on a nil
error both `errors.As` calls fail and the Go function returns false). -/
def isNotFound (err : Err) : Bool :=
  match asAPIStatus err with
  | some reason => reason == StatusReasonNotFound
  | none =>
    match asAWSError err with
    | some awsErr => awsErr.code == ErrCodeNotFoundException
    | none => false

/-- The `isDenied` function of subscription.go, on a non-nil error. -/
def isDenied (err : Err) : Bool :=
  match asAWSError err with
  | some awsErr => awsErr.code == ErrCodeAuthorizationErrorException
  | none => false

/-- The `isAWSError` function of subscription.go, on a non-nil error. -/
def isAWSError (err : Err) : Bool :=
  (asAWSError err).isSome

/-- The `toErrMsg` function of subscription.go. -/
def toErrMsg (err : Err) : String :=
  match asAWSError err with
  | some awsErr => SprintError awsErr.code awsErr.message "" awsErr.origErr
  | none => err.Error

/-! ## Kubernetes and Knative objects -/

/-- A Go `map[string]string` as an association list; a lookup takes the first
binding of the key. -/
abbrev StrMap := List (String × String)

/-- Map lookup `m[k]` with the comma-ok result. -/
def mapGet (m : StrMap) (k : String) : Option String := List.lookup k m

/-- Map assignment `m[k] = v`. -/
def mapSet (m : StrMap) (k v : String) : StrMap :=
  (k, v) :: m.filter (fun p => p.1 != k)

/-- A URL (`apis.URL`), reduced to scheme, host and path. -/
structure URL where
  Scheme : String
  Host : String
  Path : String
  deriving DecidableEq, Repr

/-- The `String()` method of a URL with scheme, host and path only. -/
def URL.String (u : URL) : String := u.Scheme ++ "://" ++ u.Host ++ u.Path

/-- An object reference (`duckv1.KReference`). -/
structure KReference where
  Kind : String
  Namespace : String
  Name : String
  APIVersion : String
  deriving DecidableEq, Repr

/-- A sink destination (`duckv1.Destination`): an optional object reference and
an optional URI. -/
structure Destination where
  Ref : Option KReference
  URI : Option URL
  deriving DecidableEq, Repr

/-- An owner reference (`metav1.OwnerReference`); `Controller` is a `*bool`. -/
structure OwnerReference where
  APIVersion : String
  Kind : String
  Name : String
  UID : String
  Controller : Option Bool
  deriving DecidableEq, Repr

/-- The fields of `metav1.ObjectMeta` the embedded code reads or writes. -/
structure ObjectMeta where
  Name : String
  Namespace : String
  UID : String
  ResourceVersion : String
  Labels : StrMap
  Annotations : StrMap
  OwnerReferences : List OwnerReference
  deriving DecidableEq, Repr

/-- An API object with metadata, spec and status. -/
structure Obj (σ τ : Type) where
  ObjectMeta : ObjectMeta
  Spec : σ
  Status : τ
  deriving DecidableEq, Repr

/-- The part of `appsv1.DeploymentSpec` an adapter builder fills in. -/
structure DeploymentSpec where
  Replicas : Nat
  Image : String
  Env : StrMap
  deriving DecidableEq, Repr

/-- The part of `appsv1.DeploymentStatus` that reports availability. -/
structure DeploymentStatus where
  AvailableReplicas : Nat
  Available : Bool
  deriving DecidableEq, Repr

/-- The part of `servingv1.ServiceSpec` an adapter builder fills in. -/
structure ServiceSpec where
  Image : String
  Env : StrMap
  deriving DecidableEq, Repr

/-- The part of `servingv1.ServiceStatus` the code reads: whether the Ready
condition is true, and the public URL. -/
structure ServiceStatus where
  Ready : Bool
  URL : Option URL
  deriving DecidableEq, Repr

/-- An `appsv1.Deployment`. -/
abbrev Deployment := Obj DeploymentSpec DeploymentStatus

/-- A Knative `servingv1.Service`. -/
abbrev Service := Obj ServiceSpec ServiceStatus

/-- The `IsReady` method of a Knative Service. -/
def Service.IsReady (s : Service) : Bool := s.Status.Ready

/-- The `metav1.GetControllerOfNoCopy` function: the first owner reference
whose `Controller` flag is set and true. -/
def GetControllerOfNoCopy (m : ObjectMeta) : Option OwnerReference :=
  m.OwnerReferences.find? (fun ref => ref.Controller == some true)

/-- The `metav1.IsControlledBy` function: the controller reference of the
object carries the UID of the owner. -/
def IsControlledBy (obj owner : ObjectMeta) : Bool :=
  match GetControllerOfNoCopy obj with
  | some ref => ref.UID == owner.UID
  | none => false

/-- The `metav1.SetMetaDataAnnotation` function. -/
def SetMetaDataAnnotation (m : ObjectMeta) (ann value : String) : ObjectMeta :=
  { m with Annotations := mapSet m.Annotations ann value }

/-- Value of `serving.CreatorAnnotation` (Knative Serving). -/
def CreatorAnnotation : String := "serving.knative.dev/creator"

/-- Value of `serving.UpdaterAnnotation` (Knative Serving). -/
def UpdaterAnnotation : String := "serving.knative.dev/lastModifier"

/-- List of annotations set on Knative Serving objects by the Knative Serving
admission webhook. -/
def knativeServingAnnotations : List String :=
  [ CreatorAnnotation, UpdaterAnnotation]

/-! ## Sources and their status -/

/-- Condition types of a source status.  The constants are declared outside the
embedded files; only their names are used. -/
inductive ConditionType where
  | ConditionReady
  | ConditionSinkProvided
  | ConditionDeployed
  | AWSSNSConditionSubscribed
  deriving DecidableEq, Repr

/-- Reasons of a source status condition.  The constants are declared outside
the embedded files; only their names are used. -/
inductive ConditionReason where
  | ReasonSinkNotFound
  | AWSSNSReasonNoURL
  | AWSSNSReasonNoClient
  | AWSSNSReasonRejected
  | AWSSNSReasonFailedSync
  deriving DecidableEq, Repr

/-- Status of a condition (`corev1.ConditionStatus`). -/
inductive ConditionStatus where
  | True
  | False
  | Unknown
  deriving DecidableEq, Repr

/-- A status condition; a true condition has no reason. -/
structure Condition where
  Status : ConditionStatus
  Reason : Option ConditionReason
  Message : String
  deriving DecidableEq, Repr

/-- The status shared by all sources (`v1alpha1.EventSourceStatus`). -/
structure EventSourceStatus where
  SinkURI : Option URL
  CloudEventAttributes : List (String × String)
  Conditions : List (ConditionType × Condition)
  deriving DecidableEq, Repr

/-- Condition of the given type, if it was ever set. -/
def EventSourceStatus.GetCondition (s : EventSourceStatus) (t : ConditionType) :
    Option Condition :=
  List.lookup t s.Conditions

/-- Replace the condition of type `t`. -/
def EventSourceStatus.SetCondition (s : EventSourceStatus) (t : ConditionType)
    (c : Condition) : EventSourceStatus :=
  { s with Conditions := (t, c) :: s.Conditions.filter (fun p => p.1 != t) }

/-- Modelled from the spec: the `MarkNoSink` method of the status manager, which
is declared outside the embedded files; "mark status no sink" is read as: the
sink URI is dropped and the sink condition is false. -/
def EventSourceStatus.MarkNoSink (s : EventSourceStatus) : EventSourceStatus :=
  { s with SinkURI := none }.SetCondition .ConditionSinkProvided
    ⟨.False, some .ReasonSinkNotFound, "The sink does not exist or its URL is not set"⟩

/-- Modelled from the spec: the `MarkSink` method of the status manager, which is
declared outside the embedded files; the resolved address is stored and the sink
condition is true. -/
def EventSourceStatus.MarkSink (s : EventSourceStatus) (uri : URL) : EventSourceStatus :=
  { s with SinkURI := some uri }.SetCondition .ConditionSinkProvided ⟨.True, none, ""⟩

/-- A source as the generic reconcilers see it (`v1alpha1.EventSource`). -/
structure EventSource where
  ObjectMeta : ObjectMeta
  Kind : String
  Sink : Destination
  EventTypes : List String
  Status : EventSourceStatus
  deriving DecidableEq, Repr

/-! ## Calls issued to collaborators -/

/-- Input of the SNS Subscribe call (`sns.SubscribeInput`); attribute values are
`*string`. -/
structure SubscribeInput where
  Endpoint : String
  Protocol : String
  TopicArn : String
  Attributes : List (String × Option String)
  ReturnSubscriptionArn : Bool
  deriving DecidableEq, Repr

/-- Output of the SNS Subscribe call (`sns.SubscribeOutput`). -/
structure SubscribeOutput where
  SubscriptionArn : Option String
  deriving DecidableEq, Repr

/-- One interaction of the code with a collaborator, in the order issued:
the sink resolver, the adapter builder, the workload lister and client, the
secret client, the SNS API, and the event recorder (`event.Normal`,
`event.Warn`). -/
inductive Call (W : Type) where
  | resolveSink (dest : Destination)
  | build (sinkURI : URL)
  | list (ns : String) (sel : StrMap)
  | create (ns : String) (obj : W)
  | update (ns : String) (obj : W)
  | getSecret (name : String)
  | subscribe (input : SubscribeInput)
  | unsubscribe (subscriptionArn : String)
  | recordEvent (etype : EventType) (reason : EventReason) (msg : String)
  deriving DecidableEq, Repr

/-- Whether a call writes or lists workloads. -/
def Call.isWorkloadCall {W : Type} : Call W → Bool
  | .list _ _ => true
  | .create _ _ => true
  | .update _ _ => true
  | _ => false

/-- Whether a call is an update of a workload. -/
def Call.isUpdate {W : Type} : Call W → Bool
  | .update _ _ => true
  | _ => false

/-- Whether a call records an event. -/
def Call.isEvent {W : Type} : Call W → Bool
  | .recordEvent _ _ _ => true
  | _ => false

/-- Whether a call is a secret lookup. -/
def Call.isGetSecret {W : Type} : Call W → Bool
  | .getSecret _ => true
  | _ => false

/-- Whether a call is an SNS Subscribe call. -/
def Call.isSubscribe {W : Type} : Call W → Bool
  | .subscribe _ => true
  | _ => false

/-- Whether a call is an SNS Unsubscribe call. -/
def Call.isUnsubscribe {W : Type} : Call W → Bool
  | .unsubscribe _ => true
  | _ => false

/-- Whether a call is an invocation of the adapter builder. -/
def Call.isBuild {W : Type} : Call W → Bool
  | .build _ => true
  | _ => false

/-! ## The generic reconcilers of reconcile.go -/

/-- The typed client of a workload kind in one namespace. -/
structure WorkloadClient (W : Type) where
  Create : W → Except Err W
  Update : W → Except Err W

/-- The reconciler struct (`GenericDeploymentReconciler`,
`GenericServiceReconciler`): sink resolver, lister and client getters.  The
pod client of the Deployment variant is only handed to the availability
propagation, see `Package`. -/
structure GenericReconciler (W : Type) where
  SinkResolver : Destination → EventSource → Except Err URL
  Lister : String → StrMap → Except Err (List W)
  Client : String → WorkloadClient W

/-- Reconciler of sources whose adapter is a Deployment. -/
abbrev GenericDeploymentReconciler := GenericReconciler Deployment

/-- Reconciler of sources whose adapter is a Knative Service. -/
abbrev GenericServiceReconciler := GenericReconciler Service

/-- Functions the embedded files call but which are declared in other files of
the repository; they are arguments of the embedding.

* `AdapterName`, `AsEventSource`, `CreateCloudEventAttributes`: naming helpers;
* `SemanticDeepEqual`: `semantic.Semantic.DeepEqual`;
* `PropagateAvailability`: `PropagateDeploymentAvailability` or
  `PropagateServiceAvailability` of the status manager, called with the current
  adapter or with nil. -/
structure Package (W : Type) where
  AdapterName : EventSource → String
  AsEventSource : EventSource → String
  CreateCloudEventAttributes : String → List String → List (String × String)
  SemanticDeepEqual : W → W → Bool
  PropagateAvailability : EventSourceStatus → Option W → EventSourceStatus

/-- Modelled from the spec: the label `AppNameLabel` of the adapter selector,
declared outside the embedded files (the immutable "app name" label). -/
def AppNameLabel : String := "app.kubernetes.io/name"

/-- Modelled from the spec: the label `AppInstanceLabel` of the adapter selector,
declared outside the embedded files (the immutable "instance name" label). -/
def AppInstanceLabel : String := "app.kubernetes.io/instance"

/-- The state a reconciliation pass threads along: the source object reached
through the context, and the calls issued so far. -/
structure Run (W : Type) where
  src : EventSource
  trace : List (Call W)

/-- Append calls to the trace. -/
def Run.calls {W : Type} (st : Run W) (cs : List (Call W)) : Run W :=
  { st with trace := st.trace ++ cs }

/-- The `newNotFoundForSelector` function: a NotFound status error whose message
names the resource and the selector. -/
def newNotFoundForSelector (gr : String) (sel : StrMap) : Err :=
  .status StatusReasonNotFound
    (gr ++ " not found for selector " ++ ",".intercalate (sel.map (fun kv => kv.1 ++ "=" ++ kv.2)))

/-- The `findAdapter` function (both branches of its type switch list by the
same selector and differ in the resource name `gr`): the first listed object
controlled by the source, or a NotFound error.  Returns the calls issued. -/
def findAdapter {σ τ : Type} (r : GenericReconciler (Obj σ τ)) (p : Package (Obj σ τ))
    (gr : String) (src : EventSource) :
    Except Err (Obj σ τ) × List (Call (Obj σ τ)) :=
  let sel : StrMap := [(AppNameLabel, p.AdapterName src), (AppInstanceLabel, src.ObjectMeta.Name)]
  match r.Lister src.ObjectMeta.Namespace sel with
  | .error err => (.error err, [.list src.ObjectMeta.Namespace sel])
  | .ok objs =>
    match objs.find? (fun obj => IsControlledBy obj.ObjectMeta src.ObjectMeta) with
    | some obj => (.ok obj, [.list src.ObjectMeta.Namespace sel])
    | none => (.error (newNotFoundForSelector gr sel), [.list src.ObjectMeta.Namespace sel])

/-- The two workload kinds, with the names the messages and the NotFound error
use for them. -/
inductive WorkloadKind where
  | Deployment
  | Service
  deriving DecidableEq, Repr

/-- Name of the kind in event messages. -/
def WorkloadKind.name : WorkloadKind → String
  | .Deployment => "Deployment"
  | .Service => "Service"

/-- Group resource of the kind: `appsv1.Resource("deployment")`,
`servingv1.Resource("service")`. -/
def WorkloadKind.gr : WorkloadKind → String
  | .Deployment => "deployment.apps"
  | .Service => "service.serving.knative.dev"

/-- The `resolveSinkURL` method (identical for both kinds).  The copy `sink` of
the destination shares the reference pointer with the source, so the defaulted
namespace is seen by both. -/
def resolveSinkURL {W : Type} (r : GenericReconciler W) (st : Run W) :
    Except Err URL × Run W :=
  let src := st.src
  let sinkRef : Option KReference :=
    match src.Sink.Ref with
    | some ref =>
      if ref.Namespace == "" then some { ref with Namespace := src.ObjectMeta.Namespace }
      else some ref
    | none => none
  let src := { src with Sink := { src.Sink with Ref := sinkRef } }
  let sink := src.Sink
  (r.SinkResolver sink src, { src := src, trace := st.trace ++ [.resolveSink sink] })

/-- The `getOrCreateAdapter` method (identical for both kinds up to the kind
name in messages). -/
def getOrCreateAdapter {σ τ : Type} (r : GenericReconciler (Obj σ τ)) (p : Package (Obj σ τ))
    (kind : WorkloadKind) (desiredAdapter : Obj σ τ) (st : Run (Obj σ τ)) :
    Except Err (Obj σ τ) × Run (Obj σ τ) :=
  let src := st.src
  match findAdapter r p kind.gr src with
  | (.error err, cs) =>
    let st := st.calls cs
    if apiIsNotFound err then
      let st := st.calls [.create src.ObjectMeta.Namespace desiredAdapter]
      match (r.Client src.ObjectMeta.Namespace).Create desiredAdapter with
      | .error err =>
        (.error (.event .Warning .ReasonFailedAdapterCreate
          ("Failed to create adapter " ++ kind.name ++ " %q: %s")
          [desiredAdapter.ObjectMeta.Name, err.Error]), st)
      | .ok adapter =>
        (.ok adapter, st.calls [.recordEvent .Normal .ReasonAdapterCreate
          (sprintf ("Created adapter " ++ kind.name ++ " %q") [adapter.ObjectMeta.Name])])
    else
      (.error (.wrapped ("failed to get adapter " ++ kind.name ++ " from cache: ") err), st)
  | (.ok adapter, cs) => (.ok adapter, st.calls cs)

/-- The `syncAdapterDeployment` method. -/
def syncAdapterDeployment (r : GenericDeploymentReconciler) (p : Package Deployment)
    (currentAdapter desiredAdapter : Deployment) (st : Run Deployment) :
    Except Err Deployment × Run Deployment :=
  if p.SemanticDeepEqual desiredAdapter currentAdapter then
    (.ok currentAdapter, st)
  else
    let desiredAdapter : Deployment := { desiredAdapter with
      ObjectMeta := { desiredAdapter.ObjectMeta with
        ResourceVersion := currentAdapter.ObjectMeta.ResourceVersion } }
    let desiredAdapter : Deployment := { desiredAdapter with Status := currentAdapter.Status }
    let st := st.calls [.update currentAdapter.ObjectMeta.Namespace desiredAdapter]
    match (r.Client currentAdapter.ObjectMeta.Namespace).Update desiredAdapter with
    | .error err =>
      (.error (.event .Warning .ReasonFailedAdapterUpdate
        "Failed to update adapter Deployment %q: %s"
        [desiredAdapter.ObjectMeta.Name, err.Error]), st)
    | .ok adapter =>
      (.ok adapter, st.calls [.recordEvent .Normal .ReasonAdapterUpdate
        (sprintf "Updated adapter Deployment %q" [adapter.ObjectMeta.Name])])

/-- The loop of `syncAdapterService` over `knativeServingAnnotations`: an
annotation present on the current object is set on the desired one. -/
def preserveAnnotations (current : ObjectMeta) (anns : List String) (desired : ObjectMeta) :
    ObjectMeta :=
  anns.foldl (fun m ann =>
    match mapGet current.Annotations ann with
    | some val => SetMetaDataAnnotation m ann val
    | none => m) desired

/-- The `syncAdapterService` method. -/
def syncAdapterService (r : GenericServiceReconciler) (p : Package Service)
    (currentAdapter desiredAdapter : Service) (st : Run Service) :
    Except Err Service × Run Service :=
  if p.SemanticDeepEqual desiredAdapter currentAdapter then
    (.ok currentAdapter, st)
  else
    let desiredAdapter : Service := { desiredAdapter with
      ObjectMeta := { desiredAdapter.ObjectMeta with
        ResourceVersion := currentAdapter.ObjectMeta.ResourceVersion } }
    let desiredAdapter : Service := { desiredAdapter with
      ObjectMeta := preserveAnnotations currentAdapter.ObjectMeta knativeServingAnnotations
        desiredAdapter.ObjectMeta }
    let desiredAdapter : Service := { desiredAdapter with Status := currentAdapter.Status }
    let st := st.calls [.update currentAdapter.ObjectMeta.Namespace desiredAdapter]
    match (r.Client currentAdapter.ObjectMeta.Namespace).Update desiredAdapter with
    | .error err =>
      (.error (.event .Warning .ReasonFailedAdapterUpdate
        "Failed to update adapter Service %q: %s"
        [desiredAdapter.ObjectMeta.Name, err.Error]), st)
    | .ok adapter =>
      (.ok adapter, st.calls [.recordEvent .Normal .ReasonAdapterUpdate
        (sprintf "Updated adapter Service %q" [adapter.ObjectMeta.Name])])

/-- The synchronisation method of each kind. -/
abbrev SyncFn (W : Type) :=
  GenericReconciler W → Package W → W → W → Run W → Except Err W × Run W

/-- Store a new status on the source of a run. -/
def Run.setStatus {W : Type} (st : Run W) (s : EventSourceStatus) : Run W :=
  { st with src := { st.src with Status := s } }

/-- The `reconcileAdapter` method (identical for both kinds up to the
synchronisation method and the kind name in messages). -/
def reconcileAdapter {σ τ : Type} (r : GenericReconciler (Obj σ τ)) (p : Package (Obj σ τ))
    (kind : WorkloadKind) (sync : SyncFn (Obj σ τ)) (desiredAdapter : Obj σ τ)
    (st : Run (Obj σ τ)) : Option Err × Run (Obj σ τ) :=
  match getOrCreateAdapter r p kind desiredAdapter st with
  | (.error err, st) =>
    (some err, st.setStatus (p.PropagateAvailability st.src.Status none))
  | (.ok currentAdapter, st) =>
    match sync r p currentAdapter desiredAdapter st with
    | (.error err, st) =>
      (some (.wrapped ("failed to synchronize adapter " ++ kind.name ++ ": ") err), st)
    | (.ok currentAdapter, st) =>
      (none, st.setStatus (p.PropagateAvailability st.src.Status (some currentAdapter)))

/-- The first statement of `ReconcileSource`: the event attributes derived from
the source and its event types are stored in the status. -/
def setCloudEventAttributes {W : Type} (p : Package W) (st : Run W) : Run W :=
  st.setStatus { st.src.Status with
    CloudEventAttributes :=
      p.CreateCloudEventAttributes (p.AsEventSource st.src) st.src.EventTypes }

/-- The `ReconcileSource` method (identical for both kinds up to the
synchronisation method). -/
def ReconcileSource {σ τ : Type} (r : GenericReconciler (Obj σ τ)) (p : Package (Obj σ τ))
    (kind : WorkloadKind) (sync : SyncFn (Obj σ τ)) (adb : URL → Obj σ τ)
    (st : Run (Obj σ τ)) : Option Err × Run (Obj σ τ) :=
  let st := setCloudEventAttributes p st
  match resolveSinkURL r st with
  | (.error err, st) =>
    (some (.permanent (.event .Warning .ReasonBadSinkURI
      "Could not resolve sink URI: %s" [err.Error])),
     st.setStatus st.src.Status.MarkNoSink)
  | (.ok sinkURI, st) =>
    let st := st.setStatus (st.src.Status.MarkSink sinkURI)
    let st := st.calls [.build sinkURI]
    match reconcileAdapter r p kind sync (adb sinkURI) st with
    | (some err, st) => (some (.wrapped "failed to reconcile adapter: " err), st)
    | (none, st) => (none, st)

/-- The `ReconcileSource` method of the Deployment reconciler. -/
def GenericDeploymentReconciler.ReconcileSource (r : GenericDeploymentReconciler)
    (p : Package Deployment) (adb : URL → Deployment) (st : Run Deployment) :
    Option Err × Run Deployment :=
  AwsEventSources.ReconcileSource r p .Deployment syncAdapterDeployment adb st

/-- The `ReconcileSource` method of the Service reconciler. -/
def GenericServiceReconciler.ReconcileSource (r : GenericServiceReconciler)
    (p : Package Service) (adb : URL → Service) (st : Run Service) :
    Option Err × Run Service :=
  AwsEventSources.ReconcileSource r p .Service syncAdapterService adb st

/-- The `FindAdapter` method of the Service reconciler. -/
def GenericServiceReconciler.FindAdapter (r : GenericServiceReconciler) (p : Package Service)
    (src : EventSource) : Except Err Service × List (Call Service) :=
  findAdapter r p WorkloadKind.Service.gr src

/-- The `FindAdapter` method of the Deployment reconciler. -/
def GenericDeploymentReconciler.FindAdapter (r : GenericDeploymentReconciler)
    (p : Package Deployment) (src : EventSource) :
    Except Err Deployment × List (Call Deployment) :=
  findAdapter r p WorkloadKind.Deployment.gr src

/-! ## The SNS source and subscription.go -/

/-- A reference to a key of a Secret (`corev1.SecretKeySelector`). -/
structure SecretKeySelector where
  Name : String
  Key : String
  deriving DecidableEq, Repr

/-- A value given inline or through a Secret (`v1alpha1.ValueFromField`). -/
structure ValueFromField where
  Value : String
  ValueFromSecret : Option SecretKeySelector
  deriving DecidableEq, Repr

/-- The credential specification of a source (`v1alpha1.AWSSecurityCredentials`). -/
structure AWSSecurityCredentials where
  AccessKeyID : ValueFromField
  SecretAccessKey : ValueFromField
  deriving DecidableEq, Repr

/-- An Amazon Resource Name. -/
structure ARN where
  Partition : String
  Service : String
  Region : String
  AccountID : String
  Resource : String
  deriving DecidableEq, Repr

/-- The `String()` method of an ARN. -/
def ARN.String (a : ARN) : String :=
  "arn:" ++ a.Partition ++ ":" ++ a.Service ++ ":" ++ a.Region ++ ":" ++ a.AccountID ++ ":"
    ++ a.Resource

/-- The spec of an SNS source (`v1alpha1.AWSSNSSourceSpec`). -/
structure AWSSNSSourceSpec where
  Sink : Destination
  ARN : ARN
  SubscriptionAttributes : List (String × Option String)
  Credentials : AWSSecurityCredentials
  deriving DecidableEq, Repr

/-- The status of an SNS source (`v1alpha1.AWSSNSSourceStatus`): the common
status and the `*string` subscription ARN. -/
structure AWSSNSSourceStatus where
  EventSourceStatus : EventSourceStatus
  SubscriptionARN : Option String
  deriving DecidableEq, Repr

/-- Modelled from the spec: the `MarkSubscribed` method of the SNS status, which
is declared outside the embedded files; the Subscribed condition becomes true. -/
def AWSSNSSourceStatus.MarkSubscribed (s : AWSSNSSourceStatus) : AWSSNSSourceStatus :=
  { s with EventSourceStatus :=
      s.EventSourceStatus.SetCondition .AWSSNSConditionSubscribed ⟨.True, none, ""⟩ }

/-- Modelled from the spec: the `MarkNotSubscribed` method of the SNS status,
which is declared outside the embedded files; the Subscribed condition becomes
false with the given reason and message. -/
def AWSSNSSourceStatus.MarkNotSubscribed (s : AWSSNSSourceStatus) (reason : ConditionReason)
    (msg : String) : AWSSNSSourceStatus :=
  { s with EventSourceStatus :=
      s.EventSourceStatus.SetCondition .AWSSNSConditionSubscribed ⟨.False, some reason, msg⟩ }

/-- The Subscribed condition of an SNS status. -/
def AWSSNSSourceStatus.Subscribed (s : AWSSNSSourceStatus) : Option Condition :=
  s.EventSourceStatus.GetCondition .AWSSNSConditionSubscribed

/-- An SNS source (`v1alpha1.AWSSNSSource`). -/
structure AWSSNSSource where
  ObjectMeta : ObjectMeta
  Spec : AWSSNSSourceSpec
  Status : AWSSNSSourceStatus
  deriving DecidableEq, Repr

/-- The SNS source seen through the `v1alpha1.EventSource` interface. -/
def AWSSNSSource.asEventSource (src : AWSSNSSource) : EventSource :=
  { ObjectMeta := src.ObjectMeta
    Kind := "AWSSNSSource"
    Sink := src.Spec.Sink
    EventTypes := []
    Status := src.Status.EventSourceStatus }

/-- A Secret (`corev1.Secret`), reduced to its data. -/
structure Secret where
  Data : StrMap
  deriving DecidableEq, Repr

/-- Resolved credentials (`credentials.Value`). -/
structure CredentialsValue where
  AccessKeyID : String
  SecretAccessKey : String
  deriving DecidableEq, Repr

/-- An SNS client (`*sns.SNS`): the region and the static credentials of its
session. -/
structure SNSClient where
  Region : String
  Credentials : CredentialsValue
  deriving DecidableEq, Repr

/-- The SNS API as reached through a client: the Subscribe call, and the
Unsubscribe call, of which only the error is inspected. -/
structure SNSAPI where
  SubscribeWithContext : SNSClient → SubscribeInput → Except Err SubscribeOutput
  UnsubscribeWithContext : SNSClient → String → Option Err

/-- The SNS reconciler: the generic Service reconciler and the getter of the
namespaced Secret client, reduced to its `Get` method. -/
structure Reconciler where
  base : GenericServiceReconciler
  secretsCli : String → String → Except Err Secret

/-- The state of a pass over an SNS source. -/
structure SNSRun where
  src : AWSSNSSource
  trace : List (Call Service)

/-- The `string(secr.Data[key])` conversion: an absent key reads as the empty string. -/
def Secret.value (secr : Secret) (key : String) : String :=
  (mapGet secr.Data key).getD ""

/-- The `awsCredentials` function.  Returns the lookups issued. -/
def awsCredentials (cli : String → Except Err Secret) (creds : AWSSecurityCredentials) :
    Except Err CredentialsValue × List (Call Service) :=
  let accessKeyID := creds.AccessKeyID.Value
  let secretAccessKey := creds.SecretAccessKey.Value
  let first : Except Err (String × List (String × Secret)) × List (Call Service) :=
    match creds.AccessKeyID.ValueFromSecret with
    | some vfs =>
      match cli vfs.Name with
      | .error err => (.error err, [.getSecret vfs.Name])
      | .ok secr => (.ok (secr.value vfs.Key, [(vfs.Name, secr)]), [.getSecret vfs.Name])
    | none => (.ok (accessKeyID, []), [])
  match first with
  | (.error err, cs) => (.error err, cs)
  | (.ok (accessKeyID, secretCache), cs) =>
    match creds.SecretAccessKey.ValueFromSecret with
    | some vfs =>
      match List.lookup vfs.Name secretCache with
      | some secr => (.ok ⟨accessKeyID, secr.value vfs.Key⟩, cs)
      | none =>
        match cli vfs.Name with
        | .error err => (.error err, cs ++ [.getSecret vfs.Name])
        | .ok secr => (.ok ⟨accessKeyID, secr.value vfs.Key⟩, cs ++ [.getSecret vfs.Name])
    | none => (.ok ⟨accessKeyID, secretAccessKey⟩, cs)

/-- The `newSNSClient` function.  Returns the lookups issued. -/
def newSNSClient (cli : String → Except Err Secret) (region : String)
    (creds : AWSSecurityCredentials) : Except Err SNSClient × List (Call Service) :=
  match awsCredentials cli creds with
  | (.error err, cs) => (.error (.wrapped "reading AWS security credentials: " err), cs)
  | (.ok credsValue, cs) => (.ok ⟨region, credsValue⟩, cs)

/-- The `susbscribeErrorEvent` function. -/
def susbscribeErrorEvent (url : URL) (topicARN : String) (origErr : Err) : Err :=
  .event .Warning .ReasonFailedSubscribe
    "Error subscribing endpoint %q to SNS topic %q: %s" [url.String, topicARN, toErrMsg origErr]

/-- Store a new status on the source of an SNS pass. -/
def SNSRun.setStatus (st : SNSRun) (s : AWSSNSSourceStatus) : SNSRun :=
  { st with src := { st.src with Status := s } }

/-- Append calls to the trace of an SNS pass. -/
def SNSRun.calls (st : SNSRun) (cs : List (Call Service)) : SNSRun :=
  { st with trace := st.trace ++ cs }

/-- The `sns.SubscribeInput` literal that `ensureSubscribed` passes to the
Subscribe call. -/
def subscribeInput (spec : AWSSNSSourceSpec) (url : URL) : SubscribeInput :=
  { Endpoint := url.String
    Protocol := url.Scheme
    TopicArn := spec.ARN.String
    Attributes := spec.SubscriptionAttributes
    ReturnSubscriptionArn := true }

/-- The `ensureSubscribed` method.  `skip` is the result of `skip.Skip(ctx)`. -/
def ensureSubscribed (r : Reconciler) (p : Package Service) (api : SNSAPI) (skip : Bool)
    (st : SNSRun) : Option Err × SNSRun :=
  if skip then (none, st)
  else
    let src := st.src
    match r.base.FindAdapter p src.asEventSource with
    | (.error err, cs) =>
      if isNotFound err then (none, st.calls cs)
      else (some (.wrapped "finding receive adapter: " err), st.calls cs)
    | (.ok adapter, cs) =>
      let st := st.calls cs
      match adapter.IsReady, adapter.Status.URL with
      | true, some url =>
        let spec := src.Spec
        match newSNSClient (r.secretsCli src.ObjectMeta.Namespace) spec.ARN.Region
            spec.Credentials with
        | (.error err, cs) =>
          let st := st.calls cs
          (some (.wrapped "" (.event .Warning .ReasonFailedSubscribe
              "Error creating SNS client: %s" [err.Error])),
           st.setStatus (st.src.Status.MarkNotSubscribed .AWSSNSReasonNoClient
              "Cannot obtain SNS client"))
        | (.ok snsClient, cs) =>
          let st := st.calls cs
          let input := subscribeInput spec url
          let st := st.calls [.subscribe input]
          match api.SubscribeWithContext snsClient input with
          | .error err =>
            if isAWSError err then
              (some (.permanent (susbscribeErrorEvent url spec.ARN.String err)),
               st.setStatus (st.src.Status.MarkNotSubscribed .AWSSNSReasonRejected
                 "Subscription request rejected"))
            else
              (some (.wrapped "" (susbscribeErrorEvent url spec.ARN.String err)),
               st.setStatus (st.src.Status.MarkNotSubscribed .AWSSNSReasonFailedSync
                 "Cannot subscribe event source endpoint"))
          | .ok resp =>
            let st := st.setStatus st.src.Status.MarkSubscribed
            let st := st.setStatus { st.src.Status with SubscriptionARN := resp.SubscriptionArn }
            (some (.event .Normal .ReasonSubscribed
              "Subscribed to SNS topic %q" [spec.ARN.String]), st)
      | _, _ =>
        (none, st.setStatus (st.src.Status.MarkNotSubscribed .AWSSNSReasonNoURL
          "The receive adapter did not report its public URL yet"))

/-- The `ensureUnsubscribed` method. -/
def ensureUnsubscribed (r : Reconciler) (api : SNSAPI) (st : SNSRun) : Option Err × SNSRun :=
  let src := st.src
  match src.Status.SubscriptionARN with
  | none => (none, st)
  | some subsARN =>
    let spec := src.Spec
    match newSNSClient (r.secretsCli src.ObjectMeta.Namespace) spec.ARN.Region
        spec.Credentials with
    | (.error err, cs) =>
      let st := st.calls cs
      if isNotFound err then
        (none, st.calls [.recordEvent .Warning .ReasonFailedUnsubscribe
          (sprintf "Secret missing while finalizing subscription %q. Ignoring: %s"
            [subsARN, err.Error])])
      else
        (some (.wrapped "" (.event .Warning .ReasonFailedUnsubscribe
          "Error creating SNS client: %s" [err.Error])), st)
    | (.ok snsClient, cs) =>
      let st := st.calls cs
      let st := st.calls [.unsubscribe subsARN]
      match api.UnsubscribeWithContext snsClient subsARN with
      | some err =>
        if isNotFound err then
          (some (.event .Normal .ReasonUnsubscribed
            "Subscription %q already absent, skipping finalization" [subsARN]), st)
        else if isDenied err then
          (none, st.calls [.recordEvent .Warning .ReasonFailedUnsubscribe
            (sprintf "Authorization error finalizing subscription %q. Ignoring: %s"
              [subsARN, toErrMsg err])])
        else
          (some (.wrapped "" (.event .Warning .ReasonFailedUnsubscribe
            "Error finalizing event source %q: %s" [subsARN, toErrMsg err])), st)
      | none =>
        (some (.event .Normal .ReasonUnsubscribed
          "Subscription %q was successfully deleted" [subsARN]), st)

/-! ## A concrete cluster, used to evaluate the definitions -/

/-- Modelled from the spec: `semantic.Semantic.DeepEqual`, declared outside the
embedded files: structural equality of two workloads modulo status,
concurrency token and the creator/updater provenance annotations. -/
def specSemanticDeepEqual {σ τ : Type} [DecidableEq σ] (a b : Obj σ τ) : Bool :=
  let strip (m : ObjectMeta) : ObjectMeta :=
    { m with
      ResourceVersion := ""
      Annotations := m.Annotations.filter (fun kv => !knativeServingAnnotations.contains kv.1) }
  decide (a.Spec = b.Spec) && decide (strip a.ObjectMeta = strip b.ObjectMeta)

/-- Address of the example adapter. -/
def exampleURL : URL := ⟨"https", "adapter.example", "/"⟩

/-- An SNS source with inline credentials and no stored subscription. -/
def exampleSource : AWSSNSSource :=
  { ObjectMeta := ⟨"sns", "default", "uid-1", "7", [], [], []⟩
    Spec :=
      { Sink := ⟨some ⟨"Service", "", "sink", "v1"⟩, none⟩
        ARN := ⟨"aws", "sns", "us-west-2", "123456789012", "topic"⟩
        SubscriptionAttributes := [("RawMessageDelivery", some "true")]
        Credentials := ⟨⟨"AKIA", none⟩, ⟨"s3cr3t", none⟩⟩ }
    Status := ⟨⟨none, [], []⟩, none⟩ }

/-- The example source with a stored subscription. -/
def subscribedSource : AWSSNSSource :=
  { exampleSource with Status := ⟨⟨none, [], []⟩, some "arn:aws:sns:us-west-2:123456789012:topic:1"⟩ }

/-- The example source with credentials read from the Secret `aws-creds`, and a
stored subscription. -/
def secretSource : AWSSNSSource :=
  { subscribedSource with
    Spec := { subscribedSource.Spec with
      Credentials := ⟨⟨"", some ⟨"aws-creds", "keyId"⟩⟩, ⟨"", some ⟨"aws-creds", "secret"⟩⟩⟩ } }

/-- A ready adapter Service controlled by the example source. -/
def exampleAdapter : Service :=
  { ObjectMeta := ⟨"sns-adapter", "default", "uid-2", "41",
      [(AppNameLabel, "awssnssource"), (AppInstanceLabel, "sns")],
      [( CreatorAnnotation, "alice")],
      [⟨"sources.triggermesh.io/v1alpha1", "AWSSNSSource", "sns", "uid-1", some true⟩]⟩
    Spec := ⟨"registry/image:tag", []⟩
    Status := ⟨true, some exampleURL⟩ }

/-- The package-level helpers of the example. -/
def examplePackage (W : Type) (eq : W → W → Bool) : Package W :=
  { AdapterName := fun _ => "awssnssource"
    AsEventSource := fun src => src.ObjectMeta.Namespace ++ "/" ++ src.ObjectMeta.Name
    CreateCloudEventAttributes := fun source types => types.map (fun t => (t, source))
    SemanticDeepEqual := eq
    PropagateAvailability := fun s _ => s }

/-- A Service reconciler whose lister holds the example adapter, whose sink
resolves, and whose client accepts every write. -/
def exampleBase : GenericServiceReconciler :=
  { SinkResolver := fun _ _ => .ok ⟨"http", "sink.default.svc", "/"⟩
    Lister := fun _ _ => .ok [exampleAdapter]
    Client := fun _ => ⟨fun w => .ok w, fun w => .ok w⟩ }

/-- An SNS reconciler over `exampleBase` in a namespace without Secrets. -/
def exampleReconciler : Reconciler :=
  { base := exampleBase
    secretsCli := fun _ name => .error (.status StatusReasonNotFound
      ("secrets \"" ++ name ++ "\" not found")) }

/-- An SNS API that answers every call with the given error. -/
def failingAPI (err : Err) : SNSAPI :=
  { SubscribeWithContext := fun _ _ => .error err
    UnsubscribeWithContext := fun _ _ => some err }

/-- An SNS API that accepts every call. -/
def acceptingAPI : SNSAPI :=
  { SubscribeWithContext := fun _ input => .ok ⟨some (input.TopicArn ++ ":1")⟩
    UnsubscribeWithContext := fun _ _ => none }

/-- An AWS request failure reporting an invalid parameter. -/
def invalidParameter : Err :=
  .aws ⟨"InvalidParameter", "Invalid parameter: Endpoint", none, some (400, "req-1")⟩

/-- An AWS request failure reporting an internal service error, one of the
documented errors of the Subscribe call (`sns.ErrCodeInternalErrorException`,
HTTP status 500). -/
def internalError : Err :=
  .aws ⟨"InternalError", "An internal service error occurred", none, some (500, "req-2")⟩

/-- A network error that is not an AWS error. -/
def connectionReset : Err := .plain "read tcp: connection reset by peer"

/-- An AWS request failure reporting that the subscription does not exist. -/
def subscriptionNotFound : Err :=
  .aws ⟨"NotFound", "Subscription does not exist", none, some (404, "req-3")⟩

/-- A Deployment adapter controlled by the example source, annotated by its
creator. -/
def exampleDeployment : Deployment :=
  { ObjectMeta := ⟨"sns-adapter", "default", "uid-3", "41",
      [(AppNameLabel, "awssnssource"), (AppInstanceLabel, "sns")],
      [( CreatorAnnotation, "alice")],
      [⟨"sources.triggermesh.io/v1alpha1", "AWSSNSSource", "sns", "uid-1", some true⟩]⟩
    Spec := ⟨1, "registry/image:old", []⟩
    Status := ⟨1, true⟩ }

/-- The Deployment a builder produces for the example source. -/
def desiredDeployment (_sinkURI : URL) : Deployment :=
  { ObjectMeta := ⟨"sns-adapter", "default", "", "",
      [(AppNameLabel, "awssnssource"), (AppInstanceLabel, "sns")], [],
      [⟨"sources.triggermesh.io/v1alpha1", "AWSSNSSource", "sns", "uid-1", some true⟩]⟩
    Spec := ⟨1, "registry/image:tag", []⟩
    Status := ⟨0, false⟩ }

/-- The Service a builder produces for the example source. -/
def desiredService (_sinkURI : URL) : Service :=
  { ObjectMeta := ⟨"sns-adapter", "default", "", "",
      [(AppNameLabel, "awssnssource"), (AppInstanceLabel, "sns")], [("team", "events")],
      [⟨"sources.triggermesh.io/v1alpha1", "AWSSNSSource", "sns", "uid-1", some true⟩]⟩
    Spec := ⟨"registry/image:new", []⟩
    Status := ⟨false, none⟩ }

/-- A reconciler whose sink resolver knows no sink, whose lister holds the given
workloads and whose client accepts every write. -/
def noSinkReconciler (W : Type) (objs : List W) : GenericReconciler W :=
  { SinkResolver := fun _ _ => .error (.plain "sink not found")
    Lister := fun _ _ => .ok objs
    Client := fun _ => ⟨fun w => .ok w, fun w => .ok w⟩ }

/-- A Deployment reconciler whose lister holds the example Deployment, whose
sink resolves, and whose client accepts every write. -/
def exampleDeploymentBase : GenericDeploymentReconciler :=
  { SinkResolver := fun _ _ => .ok ⟨"http", "sink.default.svc", "/"⟩
    Lister := fun _ _ => .ok [exampleDeployment]
    Client := fun _ => ⟨fun w => .ok w, fun w => .ok w⟩ }

/-- The example Deployment as a builder would produce it: no concurrency token,
no provenance annotation, an empty status. -/
def rebuiltDeployment : Deployment :=
  { exampleDeployment with
    ObjectMeta := { exampleDeployment.ObjectMeta with ResourceVersion := "", Annotations := [] }
    Status := ⟨0, false⟩ }

/-- The example adapter Service as a builder would produce it: no concurrency
token, no provenance annotation, an empty status. -/
def rebuiltService : Service :=
  { exampleAdapter with
    ObjectMeta := { exampleAdapter.ObjectMeta with ResourceVersion := "", Annotations := [] }
    Status := ⟨false, none⟩ }

/-- Whether a call is a creation of a workload. -/
def Call.isCreate {W : Type} : Call W → Bool
  | .create _ _ => true
  | _ => false

/-- Whether a call lists workloads. -/
def Call.isList {W : Type} : Call W → Bool
  | .list _ _ => true
  | _ => false

/-- The label selector `findAdapter` builds from the adapter name and the name
of the source. -/
def adapterSelector {W : Type} (p : Package W) (src : EventSource) : StrMap :=
  [(AppNameLabel, p.AdapterName src), (AppInstanceLabel, src.ObjectMeta.Name)]

/-- A Service with the labels of the example adapter that another object
controls. -/
def foreignAdapter : Service :=
  { exampleAdapter with
    ObjectMeta := { exampleAdapter.ObjectMeta with
      Name := "other-adapter"
      UID := "uid-8"
      OwnerReferences :=
        [⟨"sources.triggermesh.io/v1alpha1", "AWSSNSSource", "other", "uid-9", some true⟩] } }

/-- A Service reconciler whose lister holds the given Services, whose sink
resolves, and whose client accepts every write. -/
def listingBase (objs : List Service) : GenericServiceReconciler :=
  { exampleBase with Lister := fun _ _ => .ok objs }

/-- The state `ReconcileSource` hands to `reconcileAdapter` once the sink is
resolved: the sink is marked on the status and the builder has been invoked. -/
def sinkResolved {W : Type} (st : Run W) (sinkURI : URL) : Run W :=
  (st.setStatus (st.src.Status.MarkSink sinkURI)).calls [.build sinkURI]

/-- The three outcomes of a synchronisation method, for a relation `rel` between
the desired workload and the object of the update call: nothing is done when
the workloads are semantically equal; otherwise one update call is issued, which
either fails (a warning event that is not a permanent error is returned) or
succeeds (the updated workload is returned and an event is recorded). -/
def SyncOutcomes {σ τ : Type} (r : GenericReconciler (Obj σ τ)) (p : Package (Obj σ τ))
    (sync : SyncFn (Obj σ τ)) (rel : Obj σ τ → Obj σ τ → Prop) : Prop :=
  ∀ (c d : Obj σ τ) (s : Run (Obj σ τ)),
    (p.SemanticDeepEqual d c = true ∧ sync r p c d s = (.ok c, s)) ∨
    (p.SemanticDeepEqual d c = false ∧ ∃ obj, rel d obj ∧
      ((∃ e ev, (r.Client c.ObjectMeta.Namespace).Update obj = .error e ∧
          asEvent ev = some (.Warning, .ReasonFailedAdapterUpdate) ∧
          IsPermanentError ev = false ∧
          sync r p c d s = (.error ev, s.calls [.update c.ObjectMeta.Namespace obj])) ∨
       (∃ a msg, (r.Client c.ObjectMeta.Namespace).Update obj = .ok a ∧
          sync r p c d s = (.ok a, s.calls [.update c.ObjectMeta.Namespace obj,
            .recordEvent .Normal .ReasonAdapterUpdate msg]))))

/-- What is stated of the outcome `out` of a pass of `ReconcileSource` whose sink
resolved to `u` in state `st₁`: after the builder, the pass issued at most one
list, one create and one update call (no call is repeated); a failed lookup
(other than NotFound) makes it return an error that is permanent exactly when
the error of the lister is; a rejected create or update call makes it return
an error that carries the matching warning event and is not permanent; and an
error it returns is permanent only when the lister failed with a permanent
error. -/
def RetryableFailures {W : Type} (r : GenericReconciler W) (st₁ : Run W) (u : URL)
    (out : Option Err × Run W) : Prop :=
  ∃ cs, out.2.trace = st₁.trace ++ .build u :: cs ∧
    (cs.filter Call.isList).length ≤ 1 ∧
    (cs.filter Call.isCreate).length ≤ 1 ∧
    (cs.filter Call.isUpdate).length ≤ 1 ∧
    (∀ ns sel e, .list ns sel ∈ cs → r.Lister ns sel = .error e → apiIsNotFound e = false →
      ∃ e', out.1 = some e' ∧ IsPermanentError e' = IsPermanentError e) ∧
    (∀ ns obj e, .create ns obj ∈ cs → (r.Client ns).Create obj = .error e →
      ∃ e', out.1 = some e' ∧ asEvent e' = some (.Warning, .ReasonFailedAdapterCreate) ∧
        IsPermanentError e' = false) ∧
    (∀ ns obj e, .update ns obj ∈ cs → (r.Client ns).Update obj = .error e →
      ∃ e', out.1 = some e' ∧ asEvent e' = some (.Warning, .ReasonFailedAdapterUpdate) ∧
        IsPermanentError e' = false) ∧
    (∀ e, out.1 = some e → IsPermanentError e = true →
      ∃ ns sel e₀, .list ns sel ∈ cs ∧ r.Lister ns sel = .error e₀ ∧
        apiIsNotFound e₀ = false ∧ IsPermanentError e₀ = true)

/-- A Service reconciler with an empty lister whose client rejects every write. -/
def rejectingBase : GenericServiceReconciler :=
  { exampleBase with
    Lister := fun _ _ => .ok []
    Client := fun _ =>
      ⟨fun _ => .error (.status "ServerTimeout" "the server was unable to return a response"),
       fun _ => .error (.status "Conflict" "the object has been modified")⟩ }

/-- Address the example sink resolves to. -/
def exampleSinkURL : URL := ⟨"http", "sink.default.svc", "/"⟩

/-- A Secret client that holds the Secret `aws-creds` only. -/
def credsCli : String → Except Err Secret := fun name =>
  if name == "aws-creds" then .ok ⟨[("keyId", "AKIA"), ("secret", "s3cr3t")]⟩
  else .error (.status StatusReasonNotFound ("secrets \"" ++ name ++ "\" not found"))

/-- A credential specification whose two fields reference keys of the Secret
`aws-creds`, next to inline literals that are not used. -/
def sharedSecretCreds : AWSSecurityCredentials :=
  ⟨⟨"inline-id", some ⟨"aws-creds", "keyId"⟩⟩, ⟨"inline-key", some ⟨"aws-creds", "secret"⟩⟩⟩

/-- The example source as a pass that subscribed it left it: marked Subscribed,
with the subscription identifier stored. -/
def markedSource : AWSSNSSource :=
  { exampleSource with
    Status := { exampleSource.Status.MarkSubscribed with
      SubscriptionARN := some "arn:aws:sns:us-west-2:123456789012:topic:1" } }

/-- An adapter Service controlled by the example source that is not ready and
reports no URL. -/
def pendingAdapter : Service :=
  { exampleAdapter with Status := ⟨false, none⟩ }

/-- What is stated of `resolveSinkURL` on state `st`: a sink reference with an
empty namespace reaches the resolver with the namespace of the source, and the
source keeps that reference; a reference with a namespace, and a sink without
reference, reach the resolver as they are and the source is left as it was. -/
def SinkNamespaceDefaulting {W : Type} (r : GenericReconciler W) (st : Run W) : Prop :=
  (∀ ref, st.src.Sink.Ref = some ref → ref.Namespace = "" →
    (resolveSinkURL r st).2.trace = st.trace ++ [.resolveSink
      { st.src.Sink with Ref := some { ref with Namespace := st.src.ObjectMeta.Namespace } }] ∧
    (resolveSinkURL r st).2.src = { st.src with
      Sink := { st.src.Sink with
        Ref := some { ref with Namespace := st.src.ObjectMeta.Namespace } } } ∧
    (resolveSinkURL r st).1 = r.SinkResolver
      { st.src.Sink with Ref := some { ref with Namespace := st.src.ObjectMeta.Namespace } }
      { st.src with
        Sink := { st.src.Sink with
          Ref := some { ref with Namespace := st.src.ObjectMeta.Namespace } } }) ∧
  (∀ ref, st.src.Sink.Ref = some ref → ref.Namespace ≠ "" →
    (resolveSinkURL r st).2.trace = st.trace ++ [.resolveSink st.src.Sink] ∧
    (resolveSinkURL r st).2.src = st.src ∧
    (resolveSinkURL r st).1 = r.SinkResolver st.src.Sink st.src) ∧
  (st.src.Sink.Ref = none →
    (resolveSinkURL r st).2.trace = st.trace ++ [.resolveSink st.src.Sink] ∧
    (resolveSinkURL r st).2.src = st.src ∧
    (resolveSinkURL r st).1 = r.SinkResolver st.src.Sink st.src)

/-- The state `st` with the stored subscription identifier replaced: a source
that differs from that of `st` in `Status.SubscriptionARN` only. -/
def withStoredARN (st : SNSRun) (stored : Option String) : SNSRun :=
  { st with src := { st.src with Status := { st.src.Status with SubscriptionARN := stored } } }

/-- An AWS request failure reporting that the caller is not authorized
(`sns.ErrCodeAuthorizationErrorException`, HTTP status 403). -/
def authorizationDenied : Err :=
  .aws ⟨"AuthorizationError", "User is not authorized to perform: SNS:Unsubscribe", none,
    some (403, "req-4")⟩

/-- A Service reconciler whose sink resolves and whose lister fails with an error
built by `controller.NewPermanentError`. -/
def permanentListerBase : GenericServiceReconciler :=
  { exampleBase with
    Lister := fun _ _ => .error (.permanent (.plain "informer cache is closed")) }

/-- A Deployment reconciler whose sink resolves and whose lister fails with an
error built by `controller.NewPermanentError`. -/
def permanentListerDeploymentBase : GenericDeploymentReconciler :=
  { exampleDeploymentBase with
    Lister := fun _ _ => .error (.permanent (.plain "informer cache is closed")) }

/-- Modelled from the spec: two workloads that differ at most in the fields the
API server manages: UID, concurrency token, status, and the creator/updater
provenance annotations. -/
def sameUpToServerFields {σ τ : Type} [DecidableEq σ] (a b : Obj σ τ) : Bool :=
  specSemanticDeepEqual
    { a with ObjectMeta := { a.ObjectMeta with UID := "" } }
    { b with ObjectMeta := { b.ObjectMeta with UID := "" } }

/-- Modelled from the spec: the effect of one call of a pass on the cluster
object store, seen as the list of the workloads the lister returns for the
source.  An accepted create adds the object the API answers; an accepted
update replaces the stored object of that name by the object the API answers;
a rejected write, and any other call, leaves the store as it is. -/
def storeStep {σ τ : Type} (client : String → WorkloadClient (Obj σ τ))
    (objs : List (Obj σ τ)) : Call (Obj σ τ) → List (Obj σ τ)
  | .create ns obj =>
    match (client ns).Create obj with
    | .ok a => objs ++ [a]
    | .error _ => objs
  | .update ns obj =>
    match (client ns).Update obj with
    | .ok a => objs.map (fun o => if o.ObjectMeta.Name = obj.ObjectMeta.Name then a else o)
    | .error _ => objs
  | _ => objs

/-- Modelled from the spec: the store after the calls of a pass, in the order
issued ("the store holding exactly what the first pass wrote"). -/
def storeAfter {σ τ : Type} (client : String → WorkloadClient (Obj σ τ))
    (objs : List (Obj σ τ)) (trace : List (Call (Obj σ τ))) : List (Obj σ τ) :=
  trace.foldl (storeStep client) objs

/-- The source as the lookup of a pass started on `src` sees it, once the sink
resolved to `u`: event attributes stored, sink namespace defaulted, sink
address marked. -/
def sourceAtLookup {W : Type} (r : GenericReconciler W) (p : Package W) (src : EventSource)
    (u : URL) : EventSource :=
  (sinkResolved (resolveSinkURL r (setCloudEventAttributes p ⟨src, []⟩)).2 u).src

/-- Modelled from the spec: the premise of the idempotence property, "calling
`ReconcileSource` twice in succession with no external state change".  The
first pass runs on `src` with reconciler `r` over a store holding `objs`, and
its outcome is `first`; the second runs on `src₂` with reconciler `r₂`.

* the sink resolves to the same address `u` in both passes;
* the second pass runs on the same object: `src₂` has the metadata of `src`;
* the lister of each pass reflects the store: `objs` in the first pass, and in
  the second what the store holds after the calls of the first;
* the first pass returned no error;
* the API answers an accepted write with the object it was sent, up to the
  fields the server manages, and the semantic equality ignores those fields;
* the builder produces a workload that the source controls, under the name the
  stored adapter of the source has. -/
def SuccessivePasses {σ τ : Type} [DecidableEq σ] (r r₂ : GenericReconciler (Obj σ τ))
    (p : Package (Obj σ τ)) (adb : URL → Obj σ τ) (src src₂ : EventSource) (u : URL)
    (objs : List (Obj σ τ)) (first : Option Err × Run (Obj σ τ)) : Prop :=
  (resolveSinkURL r (setCloudEventAttributes p ⟨src, []⟩)).1 = .ok u ∧
  (resolveSinkURL r₂ (setCloudEventAttributes p ⟨src₂, []⟩)).1 = .ok u ∧
  src₂.ObjectMeta = src.ObjectMeta ∧
  r.Lister src.ObjectMeta.Namespace (adapterSelector p (sourceAtLookup r p src u)) = .ok objs ∧
  r₂.Lister src₂.ObjectMeta.Namespace (adapterSelector p (sourceAtLookup r₂ p src₂ u)) =
    .ok (storeAfter r.Client objs first.2.trace) ∧
  first.1 = none ∧
  (∀ ns obj a, (r.Client ns).Create obj = .ok a → sameUpToServerFields obj a = true) ∧
  (∀ ns obj a, (r.Client ns).Update obj = .ok a → sameUpToServerFields obj a = true) ∧
  (∀ a b : Obj σ τ, sameUpToServerFields a b = true → p.SemanticDeepEqual a b = true) ∧
  IsControlledBy (adb u).ObjectMeta src.ObjectMeta = true ∧
  (∀ o ∈ objs, IsControlledBy o.ObjectMeta src.ObjectMeta = true →
    o.ObjectMeta.Name = (adb u).ObjectMeta.Name)

/-- A workload client that stores what it is sent and assigns the UID and a new
concurrency token, as the API server does. -/
def assigningClient (W : Type) (assign : W → W) : String → WorkloadClient W :=
  fun _ => ⟨fun w => .ok (assign w), fun w => .ok (assign w)⟩

/-- The server-assigned metadata of the example: a UID and a new token. -/
def assignMeta {σ τ : Type} (w : Obj σ τ) : Obj σ τ :=
  { w with ObjectMeta := { w.ObjectMeta with UID := "uid-7", ResourceVersion := "42" } }

/-- A Deployment reconciler over a store holding the given Deployments: the
lister returns them, the sink resolves, and the client stores what it is sent
with server-assigned metadata. -/
def storeDeploymentBase (objs : List Deployment) : GenericDeploymentReconciler :=
  { SinkResolver := fun _ _ => .ok exampleSinkURL
    Lister := fun _ _ => .ok objs
    Client := assigningClient Deployment assignMeta }

/-- A Service reconciler over a store holding the given Services: the lister
returns them, the sink resolves, and the client stores what it is sent with
server-assigned metadata. -/
def storeServiceBase (objs : List Service) : GenericServiceReconciler :=
  { SinkResolver := fun _ _ => .ok exampleSinkURL
    Lister := fun _ _ => .ok objs
    Client := assigningClient Service assignMeta }

/-! ## The SNS adapter of adapter.go -/

namespace awssnssource

/-- A decoded JSON value, as `json.Unmarshal` stores it in an `interface{}`:
nil, bool, float64 (kept as the text of the number), string, slice or map. -/
inductive JSONValue where
  | null
  | bool (b : Bool)
  | number (text : String)
  | string (s : String)
  | array (items : List JSONValue)
  | object (fields : List (String × JSONValue))

/-- The map a request body is decoded into (`map[string]interface{}`). -/
abbrev JSONObject := List (String × JSONValue)

/-- The type assertion `v.(string)` on the result of a map lookup: it succeeds on
a string only; a missing key and a JSON null both give the nil interface, on
which it fails, as on any value of another type. -/
def assertString : Option JSONValue → Option String
  | some (.string s) => some s
  | _ => none

/-- A CloudEvent as the handler fills it in; `CEType` is the `type` attribute. -/
structure CloudEvent where
  SpecVersion : String
  CEType : String
  Source : String
  ID : String
  Subject : Option String
  DataContentType : Option String
  Data : Option String
  deriving DecidableEq, Repr

/-- What the handler does to the outside: the call to the SNS confirmation
endpoint, the event sent, the HTTP error written to the response. -/
inductive Effect where
  | confirmSubscription (topicArn token : String)
  | send (event : CloudEvent)
  | httpError (msg : String) (code : Nat)
  deriving DecidableEq, Repr

/-- The adapter struct: the SNS client reduced to `ConfirmSubscription`, the
CloudEvents client reduced to `Send` (`none` when the result is an ACK), and
the ARN of the topic. -/
structure adapter where
  ConfirmSubscription : String → String → Except Err Unit
  Send : CloudEvent → Option Err
  arn : ARN

/-- Functions the handler calls that are not part of the embedded file:
`json.Unmarshal` into a map, the event type helper `v1alpha1.AWSEventType`
with the constant `AWSSNSGenericEventType`, and the error `event.SetData`
returns for a body. -/
structure Library where
  Unmarshal : String → Except Err JSONObject
  AWSEventType : String → String → String
  AWSSNSGenericEventType : String
  SetDataError : String → Option Err

/-- The outcome of one request: whether a type assertion failed (a runtime
panic), and what was done until then. -/
structure Handled where
  panicked : Bool
  effects : List Effect
  deriving DecidableEq, Repr

/-- The `handleNotification` method.  `readAll` is the result of reading the
request body. -/
def handleNotification (a : adapter) (lib : Library) (readAll : Except Err String) : Handled :=
  match readAll with
  | .error err => ⟨false, [.httpError ("Failed to read request body: " ++ err.Error) 500]⟩
  | .ok body =>
    match lib.Unmarshal body with
    | .error err => ⟨false, [.httpError ("Failed to parse notification: " ++ err.Error) 400]⟩
    | .ok data =>
      match assertString (List.lookup "Type" data) with
      | none => ⟨true, []⟩
      | some typ =>
        if typ = "SubscriptionConfirmation" then
          match assertString (List.lookup "TopicArn" data) with
          | none => ⟨true, []⟩
          | some topicArn =>
            match assertString (List.lookup "Token" data) with
            | none => ⟨true, []⟩
            | some token =>
              match a.ConfirmSubscription topicArn token with
              | .error err =>
                ⟨false, [.confirmSubscription topicArn token,
                  .httpError ("Unable to confirm SNS subscription: " ++ err.Error) 500]⟩
              | .ok _ => ⟨false, [.confirmSubscription topicArn token]⟩
        else if typ = "Notification" then
          match assertString (List.lookup "MessageId" data) with
          | none => ⟨true, []⟩
          | some messageId =>
            let event : CloudEvent :=
              { SpecVersion := "1.0"
                CEType := lib.AWSEventType a.arn.Service lib.AWSSNSGenericEventType
                Source := a.arn.String
                ID := messageId
                Subject := none
                DataContentType := none
                Data := none }
            let withSubject : Option CloudEvent :=
              match List.lookup "Subject" data with
              | some subjectAttr =>
                match assertString (some subjectAttr) with
                | some subject => some { event with Subject := some subject }
                | none => none
              | none => some event
            match withSubject with
            | none => ⟨true, []⟩
            | some event =>
              match lib.SetDataError body with
              | some err =>
                ⟨false, [.httpError ("Failed to set event data: " ++ err.Error) 500]⟩
              | none =>
                let event := { event with
                  DataContentType := some "application/json", Data := some body }
                match a.Send event with
                | some result =>
                  ⟨false, [.send event,
                    .httpError ("Failed to send CloudEvent: " ++ result.Error) 500]⟩
                | none => ⟨false, [.send event]⟩
        else ⟨false, []⟩

/-- An adapter whose clients accept every call. -/
def exampleSNSAdapter : adapter :=
  { ConfirmSubscription := fun _ _ => .ok ()
    Send := fun _ => none
    arn := ⟨"aws", "sns", "us-west-2", "123456789012", "topic"⟩ }

/-- A decoder that knows three request bodies, and the event type helper. -/
def exampleLibrary : Library :=
  { Unmarshal := fun body =>
      if body == "notification" then
        .ok [("Type", .string "Notification"), ("MessageId", .string "m-1"),
          ("Subject", .string "hello"), ("Message", .string "world")]
      else if body == "confirmation" then
        .ok [("Type", .string "SubscriptionConfirmation"), ("TopicArn", .string "arn:t"),
          ("Token", .string "tok")]
      else if body == "null-subject" then
        .ok [("Type", .string "Notification"), ("MessageId", .string "m-2"),
          ("Subject", .null)]
      else .error (.plain "invalid character")
    AWSEventType := fun service eventType => "com.amazon." ++ service ++ "." ++ eventType
    AWSSNSGenericEventType := "notification"
    SetDataError := fun _ => none }

end awssnssource

/-! ## Lemmas on conditions, maps and error chains -/

theorem getCondition_setCondition (s : EventSourceStatus) (t : ConditionType) (c : Condition) :
    (s.SetCondition t c).GetCondition t = some c := by
  simp [EventSourceStatus.SetCondition, EventSourceStatus.GetCondition, List.lookup]

theorem subscribed_markNotSubscribed (s : AWSSNSSourceStatus) (reason : ConditionReason)
    (msg : String) :
    (s.MarkNotSubscribed reason msg).Subscribed = some ⟨.False, some reason, msg⟩ := by
  simp [AWSSNSSourceStatus.MarkNotSubscribed, AWSSNSSourceStatus.Subscribed,
    getCondition_setCondition]

theorem subscribed_markSubscribed (s : AWSSNSSourceStatus) :
    s.MarkSubscribed.Subscribed = some ⟨.True, none, ""⟩ := by
  simp [AWSSNSSourceStatus.MarkSubscribed, AWSSNSSourceStatus.Subscribed,
    getCondition_setCondition]

/-- Unfolding of `ensureSubscribed` once the adapter is ready with a URL and the
client is built: what remains is the Subscribe call and its classification. -/
theorem ensureSubscribed_ready (r : Reconciler) (p : Package Service) (api : SNSAPI)
    (st : SNSRun) (adapter : Service) (url : URL) (client : SNSClient)
    (cs₁ cs₂ : List (Call Service))
    (hfind : r.base.FindAdapter p st.src.asEventSource = (.ok adapter, cs₁))
    (hready : adapter.IsReady = true) (hurl : adapter.Status.URL = some url)
    (hcli : newSNSClient (r.secretsCli st.src.ObjectMeta.Namespace) st.src.Spec.ARN.Region
      st.src.Spec.Credentials = (.ok client, cs₂)) :
    ensureSubscribed r p api false st =
      let st₃ := ((st.calls cs₁).calls cs₂).calls [.subscribe (subscribeInput st.src.Spec url)]
      match api.SubscribeWithContext client (subscribeInput st.src.Spec url) with
      | .error err =>
        if isAWSError err then
          (some (.permanent (susbscribeErrorEvent url st.src.Spec.ARN.String err)),
           st₃.setStatus (st₃.src.Status.MarkNotSubscribed .AWSSNSReasonRejected
             "Subscription request rejected"))
        else
          (some (.wrapped "" (susbscribeErrorEvent url st.src.Spec.ARN.String err)),
           st₃.setStatus (st₃.src.Status.MarkNotSubscribed .AWSSNSReasonFailedSync
             "Cannot subscribe event source endpoint"))
      | .ok resp =>
        (some (.event .Normal .ReasonSubscribed "Subscribed to SNS topic %q"
          [st.src.Spec.ARN.String]),
         (st₃.setStatus st₃.src.Status.MarkSubscribed).setStatus
           { st₃.src.Status.MarkSubscribed with SubscriptionARN := resp.SubscriptionArn }) := by
  simp only [ensureSubscribed, hfind, hready, hurl, SNSRun.calls, SNSRun.setStatus, hcli]
  rfl

/-- An error chain that holds an AWS error holds no Kubernetes status error:
neither kind of error unwraps further. -/
theorem asAPIStatus_eq_none_of_asAWSError (err : Err) (a : AWSError)
    (h : asAWSError err = some a) : asAPIStatus err = none := by
  induction err with
  | plain msg => rfl
  | status reason msg => simp [asAWSError] at h
  | aws e => rfl
  | wrapped pfx inner ih => exact ih (by simpa [asAWSError] using h)
  | event etype reason format args => rfl
  | permanent inner ih => exact ih (by simpa [asAWSError] using h)

/-- An authorization-denied error is not classified as not-found. -/
theorem isNotFound_eq_false_of_isDenied (err : Err) (h : isDenied err = true) :
    isNotFound err = false := by
  unfold isDenied at h
  cases ha : asAWSError err with
  | none => simp [ha] at h
  | some a =>
    simp only [ha, beq_iff_eq] at h
    simp only [isNotFound, asAPIStatus_eq_none_of_asAWSError err a ha, ha, h]
    decide

/-- The wrapper that `newSNSClient` adds does not change the classification. -/
theorem isNotFound_wrapped (pfx : String) (err : Err) :
    isNotFound (.wrapped pfx err) = isNotFound err := rfl

/-- A Kubernetes NotFound is classified as not-found by `isNotFound`. -/
theorem isNotFound_of_apiIsNotFound (err : Err) (h : apiIsNotFound err = true) :
    isNotFound err = true := by
  unfold apiIsNotFound at h
  unfold isNotFound
  cases hs : asAPIStatus err with
  | none => simp [hs] at h
  | some reason => simpa [hs] using h

/-- Every call `awsCredentials` issues is a secret lookup. -/
theorem awsCredentials_calls (cli : String → Except Err Secret) (creds : AWSSecurityCredentials) :
    ∀ c ∈ (awsCredentials cli creds).2, c.isGetSecret = true := by
  unfold awsCredentials
  intro c hc
  cases h₁ : creds.AccessKeyID.ValueFromSecret with
  | none =>
    simp only [h₁] at hc
    cases h₂ : creds.SecretAccessKey.ValueFromSecret with
    | none => simp [h₂] at hc
    | some vfs₂ =>
      simp only [h₂, List.lookup] at hc
      cases h₃ : cli vfs₂.Name <;> simp [h₃] at hc <;> simp [hc, Call.isGetSecret]
  | some vfs₁ =>
    simp only [h₁] at hc
    cases h₀ : cli vfs₁.Name with
    | error e => simp [h₀] at hc; simp [hc, Call.isGetSecret]
    | ok secr =>
      simp only [h₀] at hc
      cases h₂ : creds.SecretAccessKey.ValueFromSecret with
      | none => simp [h₂] at hc; simp [hc, Call.isGetSecret]
      | some vfs₂ =>
        simp only [h₂] at hc
        cases h₄ : List.lookup vfs₂.Name [(vfs₁.Name, secr)] with
        | some s => simp [h₄] at hc; simp [hc, Call.isGetSecret]
        | none =>
          simp only [h₄] at hc
          cases h₃ : cli vfs₂.Name <;> simp [h₃] at hc <;>
            rcases hc with hc | hc <;> simp [hc, Call.isGetSecret]

/-! ## Subscribing -/

/-- C1: in a pass where the adapter is ready with a known URL and the SNS client
is built, a Subscribe call failing with a structured AWS API error makes
`ensureSubscribed` return a permanent error that carries a warning-type event,
and leaves the status marked NotSubscribed with reason Rejected. -/
theorem ensureSubscribed_aws_error_permanent (r : Reconciler) (p : Package Service)
    (api : SNSAPI) (st : SNSRun) (adapter : Service) (url : URL) (client : SNSClient)
    (cs₁ cs₂ : List (Call Service)) (err : Err)
    (hfind : r.base.FindAdapter p st.src.asEventSource = (.ok adapter, cs₁))
    (hready : adapter.IsReady = true) (hurl : adapter.Status.URL = some url)
    (hcli : newSNSClient (r.secretsCli st.src.ObjectMeta.Namespace) st.src.Spec.ARN.Region
      st.src.Spec.Credentials = (.ok client, cs₂))
    (hsub : api.SubscribeWithContext client (subscribeInput st.src.Spec url) = .error err)
    (haws : isAWSError err = true) :
    ∃ e, (ensureSubscribed r p api false st).1 = some e ∧
      IsPermanentError e = true ∧
      asEvent e = some (.Warning, .ReasonFailedSubscribe) ∧
      (ensureSubscribed r p api false st).2.src.Status.Subscribed =
        some ⟨.False, some .AWSSNSReasonRejected, "Subscription request rejected"⟩ := by
  rw [ensureSubscribed_ready r p api st adapter url client cs₁ cs₂ hfind hready hurl hcli]
  simp only [hsub, haws, if_true]
  exact ⟨_, rfl, rfl, rfl, subscribed_markNotSubscribed _ _ _⟩

/-- C1 at the example cluster, with the SNS API rejecting an invalid parameter. -/
theorem ensureSubscribed_aws_error_permanent_witness :
    ∃ e, (ensureSubscribed exampleReconciler (examplePackage Service specSemanticDeepEqual)
        (failingAPI invalidParameter) false ⟨exampleSource, []⟩).1 = some e ∧
      IsPermanentError e = true ∧
      asEvent e = some (.Warning, .ReasonFailedSubscribe) ∧
      (ensureSubscribed exampleReconciler (examplePackage Service specSemanticDeepEqual)
        (failingAPI invalidParameter) false ⟨exampleSource, []⟩).2.src.Status.Subscribed =
        some ⟨.False, some .AWSSNSReasonRejected, "Subscription request rejected"⟩ :=
  ensureSubscribed_aws_error_permanent exampleReconciler
    (examplePackage Service specSemanticDeepEqual) (failingAPI invalidParameter)
    ⟨exampleSource, []⟩ exampleAdapter exampleURL
    ⟨"us-west-2", ⟨"AKIA", "s3cr3t"⟩⟩
    [.list "default" [(AppNameLabel, "awssnssource"), (AppInstanceLabel, "sns")]] []
    invalidParameter rfl rfl rfl rfl rfl rfl

/-- C2, as stated, fails: a transient service fault that the service reports as
a structured AWS error is not a validation, authorization or malformed-request
rejection, yet `ensureSubscribed` returns a permanent error and marks the status
with reason Rejected instead of FailedSync. -/
theorem ensureSubscribed_internal_error_permanent :
    (asAWSError internalError).map (fun e => e.code) = some "InternalError" ∧
    (ensureSubscribed exampleReconciler (examplePackage Service specSemanticDeepEqual)
        (failingAPI internalError) false ⟨exampleSource, []⟩).1.map IsPermanentError = some true ∧
    (ensureSubscribed exampleReconciler (examplePackage Service specSemanticDeepEqual)
        (failingAPI internalError) false ⟨exampleSource, []⟩).2.src.Status.Subscribed =
      some ⟨.False, some .AWSSNSReasonRejected, "Subscription request rejected"⟩ :=
  ⟨rfl, rfl, rfl⟩

/-- C2, amended: in a pass where the adapter is ready with a known URL and the
SNS client is built, a Subscribe failure that is not a structured AWS API error
makes `ensureSubscribed` return an error that is not permanent (it carries a
warning-type event) and leaves the status marked NotSubscribed with reason
FailedSync. -/
theorem ensureSubscribed_other_error_retryable (r : Reconciler) (p : Package Service)
    (api : SNSAPI) (st : SNSRun) (adapter : Service) (url : URL) (client : SNSClient)
    (cs₁ cs₂ : List (Call Service)) (err : Err)
    (hfind : r.base.FindAdapter p st.src.asEventSource = (.ok adapter, cs₁))
    (hready : adapter.IsReady = true) (hurl : adapter.Status.URL = some url)
    (hcli : newSNSClient (r.secretsCli st.src.ObjectMeta.Namespace) st.src.Spec.ARN.Region
      st.src.Spec.Credentials = (.ok client, cs₂))
    (hsub : api.SubscribeWithContext client (subscribeInput st.src.Spec url) = .error err)
    (haws : isAWSError err = false) :
    ∃ e, (ensureSubscribed r p api false st).1 = some e ∧
      IsPermanentError e = false ∧
      asEvent e = some (.Warning, .ReasonFailedSubscribe) ∧
      (ensureSubscribed r p api false st).2.src.Status.Subscribed =
        some ⟨.False, some .AWSSNSReasonFailedSync,
          "Cannot subscribe event source endpoint"⟩ := by
  rw [ensureSubscribed_ready r p api st adapter url client cs₁ cs₂ hfind hready hurl hcli]
  simp only [hsub, haws]
  exact ⟨_, rfl, rfl, rfl, subscribed_markNotSubscribed _ _ _⟩

/-- C2 amended, at the example cluster, with the Subscribe call failing on a
reset connection. -/
theorem ensureSubscribed_other_error_retryable_witness :
    ∃ e, (ensureSubscribed exampleReconciler (examplePackage Service specSemanticDeepEqual)
        (failingAPI connectionReset) false ⟨exampleSource, []⟩).1 = some e ∧
      IsPermanentError e = false ∧
      asEvent e = some (.Warning, .ReasonFailedSubscribe) ∧
      (ensureSubscribed exampleReconciler (examplePackage Service specSemanticDeepEqual)
        (failingAPI connectionReset) false ⟨exampleSource, []⟩).2.src.Status.Subscribed =
        some ⟨.False, some .AWSSNSReasonFailedSync,
          "Cannot subscribe event source endpoint"⟩ :=
  ensureSubscribed_other_error_retryable exampleReconciler
    (examplePackage Service specSemanticDeepEqual) (failingAPI connectionReset)
    ⟨exampleSource, []⟩ exampleAdapter exampleURL
    ⟨"us-west-2", ⟨"AKIA", "s3cr3t"⟩⟩
    [.list "default" [(AppNameLabel, "awssnssource"), (AppInstanceLabel, "sns")]] []
    connectionReset rfl rfl rfl rfl rfl rfl

/-- C3: in a pass where the Subscribe call succeeds, `ensureSubscribed` leaves
the status marked Subscribed with its SubscriptionARN equal to the ARN the
service returned, and returns a normal-type event that is not a permanent
error. -/
theorem ensureSubscribed_success (r : Reconciler) (p : Package Service)
    (api : SNSAPI) (st : SNSRun) (adapter : Service) (url : URL) (client : SNSClient)
    (cs₁ cs₂ : List (Call Service)) (resp : SubscribeOutput)
    (hfind : r.base.FindAdapter p st.src.asEventSource = (.ok adapter, cs₁))
    (hready : adapter.IsReady = true) (hurl : adapter.Status.URL = some url)
    (hcli : newSNSClient (r.secretsCli st.src.ObjectMeta.Namespace) st.src.Spec.ARN.Region
      st.src.Spec.Credentials = (.ok client, cs₂))
    (hsub : api.SubscribeWithContext client (subscribeInput st.src.Spec url) = .ok resp) :
    ∃ e, (ensureSubscribed r p api false st).1 = some e ∧
      asEvent e = some (.Normal, .ReasonSubscribed) ∧
      IsPermanentError e = false ∧
      (ensureSubscribed r p api false st).2.src.Status.Subscribed = some ⟨.True, none, ""⟩ ∧
      (ensureSubscribed r p api false st).2.src.Status.SubscriptionARN =
        resp.SubscriptionArn := by
  rw [ensureSubscribed_ready r p api st adapter url client cs₁ cs₂ hfind hready hurl hcli]
  simp only [hsub]
  exact ⟨_, rfl, rfl, rfl, subscribed_markSubscribed _, rfl⟩

/-- C3 at the example cluster, with the SNS API accepting the subscription. -/
theorem ensureSubscribed_success_witness :
    ∃ e, (ensureSubscribed exampleReconciler (examplePackage Service specSemanticDeepEqual)
        acceptingAPI false ⟨exampleSource, []⟩).1 = some e ∧
      asEvent e = some (.Normal, .ReasonSubscribed) ∧
      IsPermanentError e = false ∧
      (ensureSubscribed exampleReconciler (examplePackage Service specSemanticDeepEqual)
        acceptingAPI false ⟨exampleSource, []⟩).2.src.Status.Subscribed =
        some ⟨.True, none, ""⟩ ∧
      (ensureSubscribed exampleReconciler (examplePackage Service specSemanticDeepEqual)
        acceptingAPI false ⟨exampleSource, []⟩).2.src.Status.SubscriptionARN =
        (⟨some ("arn:aws:sns:us-west-2:123456789012:topic" ++ ":1")⟩ :
          SubscribeOutput).SubscriptionArn :=
  ensureSubscribed_success exampleReconciler
    (examplePackage Service specSemanticDeepEqual) acceptingAPI
    ⟨exampleSource, []⟩ exampleAdapter exampleURL
    ⟨"us-west-2", ⟨"AKIA", "s3cr3t"⟩⟩
    [.list "default" [(AppNameLabel, "awssnssource"), (AppInstanceLabel, "sns")]] []
    ⟨some ("arn:aws:sns:us-west-2:123456789012:topic" ++ ":1")⟩
    rfl rfl rfl rfl rfl

/-! ## Unsubscribing -/

/-- Unfolding of `ensureUnsubscribed` once a subscription is stored and the
client is built: what remains is the Unsubscribe call and its classification. -/
theorem ensureUnsubscribed_client (r : Reconciler) (api : SNSAPI) (st : SNSRun)
    (subsARN : String) (client : SNSClient) (cs : List (Call Service))
    (harn : st.src.Status.SubscriptionARN = some subsARN)
    (hcli : newSNSClient (r.secretsCli st.src.ObjectMeta.Namespace) st.src.Spec.ARN.Region
      st.src.Spec.Credentials = (.ok client, cs)) :
    ensureUnsubscribed r api st =
      let st₂ := (st.calls cs).calls [.unsubscribe subsARN]
      match api.UnsubscribeWithContext client subsARN with
      | some err =>
        if isNotFound err then
          (some (.event .Normal .ReasonUnsubscribed
            "Subscription %q already absent, skipping finalization" [subsARN]), st₂)
        else if isDenied err then
          (none, st₂.calls [.recordEvent .Warning .ReasonFailedUnsubscribe
            (sprintf "Authorization error finalizing subscription %q. Ignoring: %s"
              [subsARN, toErrMsg err])])
        else
          (some (.wrapped "" (.event .Warning .ReasonFailedUnsubscribe
            "Error finalizing event source %q: %s" [subsARN, toErrMsg err])), st₂)
      | none =>
        (some (.event .Normal .ReasonUnsubscribed
          "Subscription %q was successfully deleted" [subsARN]), st₂) := by
  simp only [ensureUnsubscribed, harn, hcli]

/-- C4: on a source whose status holds no subscription identifier,
`ensureUnsubscribed` returns nil and issues no call at all: no secret lookup,
no Unsubscribe call and no event; the source is left as it was. -/
theorem ensureUnsubscribed_no_subscription (r : Reconciler) (api : SNSAPI) (st : SNSRun)
    (harn : st.src.Status.SubscriptionARN = none) :
    (ensureUnsubscribed r api st).1 = none ∧
    (ensureUnsubscribed r api st).2.trace = st.trace ∧
    (ensureUnsubscribed r api st).2.src = st.src := by
  simp [ensureUnsubscribed, harn]

/-- C4 at the example source, which has no stored subscription. -/
theorem ensureUnsubscribed_no_subscription_witness :
    (ensureUnsubscribed exampleReconciler acceptingAPI ⟨exampleSource, []⟩).1 = none ∧
    (ensureUnsubscribed exampleReconciler acceptingAPI ⟨exampleSource, []⟩).2.trace = [] ∧
    (ensureUnsubscribed exampleReconciler acceptingAPI ⟨exampleSource, []⟩).2.src =
      exampleSource :=
  ensureUnsubscribed_no_subscription exampleReconciler acceptingAPI ⟨exampleSource, []⟩ rfl

/-- The `isNotFound` classifier read off the error chain: the first status
error of the chain has reason NotFound, or the chain holds no status error and
its first AWS error has code NotFound. -/
theorem isNotFound_iff (err : Err) :
    isNotFound err = true ↔
      asAPIStatus err = some "NotFound" ∨
      (asAPIStatus err = none ∧ ∃ awsErr, asAWSError err = some awsErr ∧ awsErr.code = "NotFound") := by
  simp only [isNotFound, StatusReasonNotFound, ErrCodeNotFoundException]
  cases hs : asAPIStatus err with
  | some reason => simp
  | none =>
    cases ha : asAWSError err with
    | none => simp
    | some awsErr => simp

/-- The `isDenied` classifier read off the error chain: the first AWS error of
the chain has code AuthorizationError. -/
theorem isDenied_iff (err : Err) :
    isDenied err = true ↔ ∃ awsErr, asAWSError err = some awsErr ∧ awsErr.code = "AuthorizationError" := by
  simp only [isDenied, ErrCodeAuthorizationErrorException]
  cases ha : asAWSError err with
  | none => simp
  | some awsErr => simp

/-- C5: with a stored subscription identifier and a client built,
`ensureUnsubscribed` returns a failure (a non-permanent error carrying a
warning-type event) if and only if the Unsubscribe call fails with an error that
is neither not-found nor authorization-denied; a not-found answer and a
successful call return a normal-type event; an authorization-denied answer
returns nil after a warning event was recorded.  Not-found means that the
first Kubernetes status error of the error chain has reason NotFound or, in a
chain without status error, that its first AWS error has code NotFound;
authorization-denied means that the first AWS error of the chain has code
AuthorizationError. -/
theorem ensureUnsubscribed_classification (r : Reconciler) (api : SNSAPI) (st : SNSRun)
    (subsARN : String) (client : SNSClient) (cs : List (Call Service))
    (harn : st.src.Status.SubscriptionARN = some subsARN)
    (hcli : newSNSClient (r.secretsCli st.src.ObjectMeta.Namespace) st.src.Spec.ARN.Region
      st.src.Spec.Credentials = (.ok client, cs)) :
    ((∃ e, (ensureUnsubscribed r api st).1 = some e ∧
          asEvent e = some (.Warning, .ReasonFailedUnsubscribe) ∧
          IsPermanentError e = false) ↔
      ∃ err, api.UnsubscribeWithContext client subsARN = some err ∧
          ¬ (asAPIStatus err = some "NotFound" ∨
            (asAPIStatus err = none ∧
              ∃ awsErr, asAWSError err = some awsErr ∧ awsErr.code = "NotFound")) ∧
          ¬ (∃ awsErr, asAWSError err = some awsErr ∧ awsErr.code = "AuthorizationError")) ∧
    ((api.UnsubscribeWithContext client subsARN = none ∨
        ∃ err, api.UnsubscribeWithContext client subsARN = some err ∧
          (asAPIStatus err = some "NotFound" ∨
            (asAPIStatus err = none ∧
              ∃ awsErr, asAWSError err = some awsErr ∧ awsErr.code = "NotFound"))) →
      (∃ e, (ensureUnsubscribed r api st).1 = some e ∧
        asEvent e = some (.Normal, .ReasonUnsubscribed)) ∧
      (ensureUnsubscribed r api st).2.trace = st.trace ++ cs ++ [.unsubscribe subsARN]) ∧
    (∀ err awsErr, api.UnsubscribeWithContext client subsARN = some err →
      asAWSError err = some awsErr → awsErr.code = "AuthorizationError" →
      (ensureUnsubscribed r api st).1 = none ∧
      (ensureUnsubscribed r api st).2.trace =
        st.trace ++ cs ++ [.unsubscribe subsARN,
          .recordEvent .Warning .ReasonFailedUnsubscribe
            (sprintf "Authorization error finalizing subscription %q. Ignoring: %s"
              [subsARN, SprintError awsErr.code awsErr.message "" awsErr.origErr])]) := by
  rw [ensureUnsubscribed_client r api st subsARN client cs harn hcli]
  cases hu : api.UnsubscribeWithContext client subsARN with
  | none => simp [asEvent, SNSRun.calls]
  | some err =>
    simp only
    have hnfi := isNotFound_iff err
    have hdi := isDenied_iff err
    cases hnf : isNotFound err with
    | true =>
      have hd : isDenied err = false := by
        cases hd : isDenied err with
        | false => rfl
        | true => simp [isNotFound_eq_false_of_isDenied err hd] at hnf
      have hN := hnfi.mp hnf
      have hD : ¬ ∃ awsErr, asAWSError err = some awsErr ∧ awsErr.code = "AuthorizationError" :=
        fun h => by
          have := hdi.mpr h
          rw [hd] at this
          cases this
      simp only [if_true]
      refine ⟨?_, ?_, ?_⟩
      · constructor
        · rintro ⟨e, he, hev, _⟩
          simp at he
          rw [← he] at hev
          simp [asEvent] at hev
        · rintro ⟨err', herr', hN', _⟩
          cases herr'
          exact absurd hN hN'
      · intro _
        simp [asEvent, SNSRun.calls]
      · intro err' awsErr herr' ha hcode
        cases herr'
        exact absurd ⟨awsErr, ha, hcode⟩ hD
    | false =>
      have hN : ¬ (asAPIStatus err = some "NotFound" ∨
            (asAPIStatus err = none ∧
              ∃ awsErr, asAWSError err = some awsErr ∧ awsErr.code = "NotFound")) :=
        fun h => by
          have := hnfi.mpr h
          rw [hnf] at this
          cases this
      cases hd : isDenied err with
      | true =>
        have hD := hdi.mp hd
        simp only [Bool.false_eq_true, if_false, if_true]
        refine ⟨?_, ?_, ?_⟩
        · constructor
          · rintro ⟨e, he, _⟩
            simp at he
          · rintro ⟨err', herr', _, hD'⟩
            cases herr'
            exact absurd hD hD'
        · rintro (h | ⟨err', herr', hN'⟩)
          · cases h
          · cases herr'
            exact absurd hN' hN
        · intro err' awsErr herr' ha hcode
          cases herr'
          simp [SNSRun.calls, toErrMsg, ha]
      | false =>
        have hD : ¬ ∃ awsErr, asAWSError err = some awsErr ∧ awsErr.code = "AuthorizationError" :=
          fun h => by
            have := hdi.mpr h
            rw [hd] at this
            cases this
        simp only [Bool.false_eq_true, if_false]
        refine ⟨?_, ?_, ?_⟩
        · constructor
          · intro _
            exact ⟨err, rfl, hN, hD⟩
          · intro _
            exact ⟨_, rfl, by simp [asEvent], by simp [IsPermanentError]⟩
        · rintro (h | ⟨err', herr', hN'⟩)
          · cases h
          · cases herr'
            exact absurd hN' hN
        · intro err' awsErr herr' ha hcode
          cases herr'
          exact absurd ⟨awsErr, ha, hcode⟩ hD

/-- C5 at the example source holding a subscription, with inline credentials:
an SNS API that answers AuthorizationError makes the finalization succeed after
a warning event; one that fails on a reset connection makes it fail; one that
answers NotFound makes it return a normal-type event. -/
theorem ensureUnsubscribed_classification_witness :
    ((ensureUnsubscribed exampleReconciler (failingAPI authorizationDenied)
        ⟨subscribedSource, []⟩).1 = none ∧
      (ensureUnsubscribed exampleReconciler (failingAPI authorizationDenied)
        ⟨subscribedSource, []⟩).2.trace =
        [.unsubscribe "arn:aws:sns:us-west-2:123456789012:topic:1",
          .recordEvent .Warning .ReasonFailedUnsubscribe
            (sprintf "Authorization error finalizing subscription %q. Ignoring: %s"
              ["arn:aws:sns:us-west-2:123456789012:topic:1",
               "AuthorizationError: User is not authorized to perform: SNS:Unsubscribe"])]) ∧
    (∃ e, (ensureUnsubscribed exampleReconciler (failingAPI connectionReset)
          ⟨subscribedSource, []⟩).1 = some e ∧
        asEvent e = some (.Warning, .ReasonFailedUnsubscribe) ∧
        IsPermanentError e = false) ∧
    (∃ e, (ensureUnsubscribed exampleReconciler (failingAPI subscriptionNotFound)
          ⟨subscribedSource, []⟩).1 = some e ∧
        asEvent e = some (.Normal, .ReasonUnsubscribed)) :=
  ⟨(ensureUnsubscribed_classification exampleReconciler (failingAPI authorizationDenied)
      ⟨subscribedSource, []⟩ "arn:aws:sns:us-west-2:123456789012:topic:1"
      ⟨"us-west-2", ⟨"AKIA", "s3cr3t"⟩⟩ [] rfl rfl).2.2 authorizationDenied
      ⟨"AuthorizationError", "User is not authorized to perform: SNS:Unsubscribe", none,
        some (403, "req-4")⟩ rfl rfl rfl,
   (ensureUnsubscribed_classification exampleReconciler (failingAPI connectionReset)
      ⟨subscribedSource, []⟩ "arn:aws:sns:us-west-2:123456789012:topic:1"
      ⟨"us-west-2", ⟨"AKIA", "s3cr3t"⟩⟩ [] rfl rfl).1.mpr
      ⟨connectionReset, rfl, (by decide), (by decide)⟩,
   ((ensureUnsubscribed_classification exampleReconciler (failingAPI subscriptionNotFound)
      ⟨subscribedSource, []⟩ "arn:aws:sns:us-west-2:123456789012:topic:1"
      ⟨"us-west-2", ⟨"AKIA", "s3cr3t"⟩⟩ [] rfl rfl).2.1
      (Or.inr ⟨subscriptionNotFound, rfl, Or.inr ⟨rfl, _, rfl, rfl⟩⟩)).1⟩

/-- C6, as stated, fails: after the service answers the deregistration call
with not-found, `ensureUnsubscribed` returns a normal-type event, but the source
status still holds the subscription identifier it held before. -/
theorem ensureUnsubscribed_notFound_keeps_identifier :
    (ensureUnsubscribed exampleReconciler (failingAPI subscriptionNotFound)
        ⟨subscribedSource, []⟩).1.bind asEvent = some (.Normal, .ReasonUnsubscribed) ∧
    (ensureUnsubscribed exampleReconciler (failingAPI subscriptionNotFound)
        ⟨subscribedSource, []⟩).2.src.Status.SubscriptionARN =
      some "arn:aws:sns:us-west-2:123456789012:topic:1" ∧
    (ensureUnsubscribed exampleReconciler (failingAPI subscriptionNotFound)
        ⟨subscribedSource, []⟩).2.src.Status.SubscriptionARN ≠ none := by
  refine ⟨rfl, rfl, ?_⟩
  intro h
  exact Option.noConfusion (Eq.trans (Eq.symm h) (by rfl :
    (ensureUnsubscribed exampleReconciler (failingAPI subscriptionNotFound)
        ⟨subscribedSource, []⟩).2.src.Status.SubscriptionARN =
      some "arn:aws:sns:us-west-2:123456789012:topic:1"))

/-- C6, amended: after the service answers the deregistration call with
not-found, `ensureUnsubscribed` returns a normal-type event that is not a
permanent error, records no warning, and leaves the source as it was: the
stored subscription identifier stays in the status. -/
theorem ensureUnsubscribed_notFound (r : Reconciler) (api : SNSAPI) (st : SNSRun)
    (subsARN : String) (client : SNSClient) (cs : List (Call Service)) (err : Err)
    (harn : st.src.Status.SubscriptionARN = some subsARN)
    (hcli : newSNSClient (r.secretsCli st.src.ObjectMeta.Namespace) st.src.Spec.ARN.Region
      st.src.Spec.Credentials = (.ok client, cs))
    (hunsub : api.UnsubscribeWithContext client subsARN = some err)
    (hnf : isNotFound err = true) :
    (∃ e, (ensureUnsubscribed r api st).1 = some e ∧
      asEvent e = some (.Normal, .ReasonUnsubscribed) ∧ IsPermanentError e = false) ∧
    (ensureUnsubscribed r api st).2.trace = st.trace ++ cs ++ [.unsubscribe subsARN] ∧
    (ensureUnsubscribed r api st).2.src = st.src ∧
    (ensureUnsubscribed r api st).2.src.Status.SubscriptionARN = some subsARN := by
  rw [ensureUnsubscribed_client r api st subsARN client cs harn hcli]
  simp [hunsub, hnf, asEvent, IsPermanentError, SNSRun.calls, harn]

/-- C6 amended, at the example source holding a subscription that the service
no longer knows. -/
theorem ensureUnsubscribed_notFound_witness :
    (∃ e, (ensureUnsubscribed exampleReconciler (failingAPI subscriptionNotFound)
        ⟨subscribedSource, []⟩).1 = some e ∧
      asEvent e = some (.Normal, .ReasonUnsubscribed) ∧ IsPermanentError e = false) ∧
    (ensureUnsubscribed exampleReconciler (failingAPI subscriptionNotFound)
        ⟨subscribedSource, []⟩).2.trace =
      [] ++ [] ++ [.unsubscribe "arn:aws:sns:us-west-2:123456789012:topic:1"] ∧
    (ensureUnsubscribed exampleReconciler (failingAPI subscriptionNotFound)
        ⟨subscribedSource, []⟩).2.src = subscribedSource ∧
    (ensureUnsubscribed exampleReconciler (failingAPI subscriptionNotFound)
        ⟨subscribedSource, []⟩).2.src.Status.SubscriptionARN =
      some "arn:aws:sns:us-west-2:123456789012:topic:1" :=
  ensureUnsubscribed_notFound exampleReconciler (failingAPI subscriptionNotFound)
    ⟨subscribedSource, []⟩ "arn:aws:sns:us-west-2:123456789012:topic:1"
    ⟨"us-west-2", ⟨"AKIA", "s3cr3t"⟩⟩ [] subscriptionNotFound rfl rfl rfl rfl

/-- C7: with a stored subscription identifier, when resolving the credentials
fails, `ensureUnsubscribed` issues no Unsubscribe call (its only calls are the
secret lookups and at most one event); if the failed lookup reported that the
Secret does not exist it records a warning event and returns nil; if the
failure is not classified as not-found it returns an error that is not
permanent and carries a warning-type event. -/
theorem ensureUnsubscribed_client_failure (r : Reconciler) (api : SNSAPI) (st : SNSRun)
    (subsARN : String) (cs : List (Call Service)) (err : Err)
    (harn : st.src.Status.SubscriptionARN = some subsARN)
    (hcreds : awsCredentials (r.secretsCli st.src.ObjectMeta.Namespace)
      st.src.Spec.Credentials = (.error err, cs)) :
    (∃ cs', (ensureUnsubscribed r api st).2.trace = st.trace ++ cs' ∧
      ∀ c ∈ cs', c.isUnsubscribe = false) ∧
    (apiIsNotFound err = true →
      (ensureUnsubscribed r api st).1 = none ∧
      ∃ msg, (ensureUnsubscribed r api st).2.trace =
        st.trace ++ cs ++ [.recordEvent .Warning .ReasonFailedUnsubscribe msg]) ∧
    (isNotFound err = false →
      (∃ e, (ensureUnsubscribed r api st).1 = some e ∧ IsPermanentError e = false ∧
        asEvent e = some (.Warning, .ReasonFailedUnsubscribe)) ∧
      (ensureUnsubscribed r api st).2.trace = st.trace ++ cs) := by
  have hcs : ∀ c ∈ cs, c.isUnsubscribe = false := by
    intro c hc
    have h := awsCredentials_calls (r.secretsCli st.src.ObjectMeta.Namespace)
      st.src.Spec.Credentials c (by rw [hcreds]; exact hc)
    cases c <;> simp_all [Call.isGetSecret, Call.isUnsubscribe]
  have hcli : newSNSClient (r.secretsCli st.src.ObjectMeta.Namespace) st.src.Spec.ARN.Region
      st.src.Spec.Credentials
        = (.error (.wrapped "reading AWS security credentials: " err), cs) := by
    simp [newSNSClient, hcreds]
  simp only [ensureUnsubscribed, harn, hcli, isNotFound_wrapped, SNSRun.calls]
  refine ⟨?_, ?_, ?_⟩
  · cases hnf : isNotFound err with
    | true =>
      refine ⟨cs ++ [.recordEvent .Warning .ReasonFailedUnsubscribe
        (sprintf "Secret missing while finalizing subscription %q. Ignoring: %s"
          [subsARN, (Err.wrapped "reading AWS security credentials: " err).Error])], ?_, ?_⟩
      · simp
      · intro c hc
        rcases List.mem_append.mp hc with h | h
        · exact hcs c h
        · simp at h; simp [h, Call.isUnsubscribe]
    | false => exact ⟨cs, by simp, hcs⟩
  · intro h
    simp [isNotFound_of_apiIsNotFound err h]
  · intro h
    simp [h, asEvent, IsPermanentError]

/-- C7 at the example source whose credentials point to the Secret `aws-creds`,
in a namespace where that Secret does not exist. -/
theorem ensureUnsubscribed_client_failure_witness :
    (∃ cs', (ensureUnsubscribed exampleReconciler acceptingAPI ⟨secretSource, []⟩).2.trace
        = [] ++ cs' ∧
      ∀ c ∈ cs', c.isUnsubscribe = false) ∧
    (apiIsNotFound (.status StatusReasonNotFound "secrets \"aws-creds\" not found") = true →
      (ensureUnsubscribed exampleReconciler acceptingAPI ⟨secretSource, []⟩).1 = none ∧
      ∃ msg, (ensureUnsubscribed exampleReconciler acceptingAPI ⟨secretSource, []⟩).2.trace =
        [] ++ [.getSecret "aws-creds"] ++
          [.recordEvent .Warning .ReasonFailedUnsubscribe msg]) ∧
    (isNotFound (.status StatusReasonNotFound "secrets \"aws-creds\" not found") = false →
      (∃ e, (ensureUnsubscribed exampleReconciler acceptingAPI ⟨secretSource, []⟩).1 = some e ∧
        IsPermanentError e = false ∧
        asEvent e = some (.Warning, .ReasonFailedUnsubscribe)) ∧
      (ensureUnsubscribed exampleReconciler acceptingAPI ⟨secretSource, []⟩).2.trace =
        [] ++ [.getSecret "aws-creds"]) :=
  ensureUnsubscribed_client_failure exampleReconciler acceptingAPI ⟨secretSource, []⟩
    "arn:aws:sns:us-west-2:123456789012:topic:1" [.getSecret "aws-creds"]
    (.status StatusReasonNotFound "secrets \"aws-creds\" not found") rfl rfl

/-! ## Sink resolution -/

/-- Sink failure in the generic `ReconcileSource`: a permanent error, the status
marked as having no sink, and the sink resolver as the only collaborator
called. -/
theorem ReconcileSource_sink_failure {σ τ : Type} (r : GenericReconciler (Obj σ τ))
    (p : Package (Obj σ τ)) (kind : WorkloadKind) (sync : SyncFn (Obj σ τ))
    (adb : URL → Obj σ τ) (st : Run (Obj σ τ)) (err : Err)
    (hsink : (resolveSinkURL r (setCloudEventAttributes p st)).1 = .error err) :
    (∃ e, (ReconcileSource r p kind sync adb st).1 = some e ∧ IsPermanentError e = true ∧
      asEvent e = some (.Warning, .ReasonBadSinkURI)) ∧
    (ReconcileSource r p kind sync adb st).2.src.Status.SinkURI = none ∧
    (ReconcileSource r p kind sync adb st).2.src.Status.GetCondition .ConditionSinkProvided =
      some ⟨.False, some .ReasonSinkNotFound,
        "The sink does not exist or its URL is not set"⟩ ∧
    ∃ dest, (ReconcileSource r p kind sync adb st).2.trace = st.trace ++ [.resolveSink dest] := by
  rcases hres : resolveSinkURL r (setCloudEventAttributes p st) with ⟨res, st₁⟩
  rw [hres] at hsink
  simp only at hsink
  subst hsink
  have htrace : st₁.trace = st.trace ++ [.resolveSink st₁.src.Sink] := by
    have h := congrArg Prod.snd hres
    simp only [resolveSinkURL] at h
    rw [← h]
    rfl
  simp only [ReconcileSource, hres]
  refine ⟨⟨_, rfl, rfl, rfl⟩, ?_, ?_, ⟨st₁.src.Sink, ?_⟩⟩
  · simp [Run.setStatus, EventSourceStatus.MarkNoSink, EventSourceStatus.SetCondition]
  · simp [Run.setStatus, EventSourceStatus.MarkNoSink, getCondition_setCondition]
  · simpa [Run.setStatus] using htrace

/-- C8: when the sink of a source cannot be resolved, `ReconcileSource` of the
Deployment reconciler and of the Service reconciler each return a permanent
error and mark the status as having no sink; the only call of the pass is the
one to the sink resolver, so the builder is not invoked and no list, create or
update call is issued. -/
theorem ReconcileSource_no_sink
    (rd : GenericDeploymentReconciler) (pd : Package Deployment) (adbd : URL → Deployment)
    (std : Run Deployment) (errd : Err)
    (rs : GenericServiceReconciler) (ps : Package Service) (adbs : URL → Service)
    (sts : Run Service) (errs : Err)
    (hd : (resolveSinkURL rd (setCloudEventAttributes pd std)).1 = .error errd)
    (hs : (resolveSinkURL rs (setCloudEventAttributes ps sts)).1 = .error errs) :
    ((∃ e, (GenericDeploymentReconciler.ReconcileSource rd pd adbd std).1 = some e ∧
        IsPermanentError e = true ∧ asEvent e = some (.Warning, .ReasonBadSinkURI)) ∧
      (GenericDeploymentReconciler.ReconcileSource rd pd adbd std).2.src.Status.SinkURI = none ∧
      (GenericDeploymentReconciler.ReconcileSource rd pd adbd std).2.src.Status.GetCondition
          .ConditionSinkProvided =
        some ⟨.False, some .ReasonSinkNotFound,
          "The sink does not exist or its URL is not set"⟩ ∧
      ∃ cs, (GenericDeploymentReconciler.ReconcileSource rd pd adbd std).2.trace
          = std.trace ++ cs ∧
        ∀ c ∈ cs, c.isBuild = false ∧ c.isWorkloadCall = false) ∧
    ((∃ e, (GenericServiceReconciler.ReconcileSource rs ps adbs sts).1 = some e ∧
        IsPermanentError e = true ∧ asEvent e = some (.Warning, .ReasonBadSinkURI)) ∧
      (GenericServiceReconciler.ReconcileSource rs ps adbs sts).2.src.Status.SinkURI = none ∧
      (GenericServiceReconciler.ReconcileSource rs ps adbs sts).2.src.Status.GetCondition
          .ConditionSinkProvided =
        some ⟨.False, some .ReasonSinkNotFound,
          "The sink does not exist or its URL is not set"⟩ ∧
      ∃ cs, (GenericServiceReconciler.ReconcileSource rs ps adbs sts).2.trace
          = sts.trace ++ cs ∧
        ∀ c ∈ cs, c.isBuild = false ∧ c.isWorkloadCall = false) := by
  constructor
  · obtain ⟨h₁, h₂, h₃, dest, h₄⟩ :=
      ReconcileSource_sink_failure rd pd .Deployment syncAdapterDeployment adbd std errd hd
    refine ⟨h₁, h₂, h₃, [.resolveSink dest], h₄, ?_⟩
    intro c hc
    simp at hc
    simp [hc, Call.isBuild, Call.isWorkloadCall]
  · obtain ⟨h₁, h₂, h₃, dest, h₄⟩ :=
      ReconcileSource_sink_failure rs ps .Service syncAdapterService adbs sts errs hs
    refine ⟨h₁, h₂, h₃, [.resolveSink dest], h₄, ?_⟩
    intro c hc
    simp at hc
    simp [hc, Call.isBuild, Call.isWorkloadCall]

/-- C8 at the example source, with a sink resolver that knows no sink. -/
theorem ReconcileSource_no_sink_witness :
    ((∃ e, (GenericDeploymentReconciler.ReconcileSource
          (noSinkReconciler Deployment [exampleDeployment])
          (examplePackage Deployment specSemanticDeepEqual) desiredDeployment
          ⟨exampleSource.asEventSource, []⟩).1 = some e ∧
        IsPermanentError e = true ∧ asEvent e = some (.Warning, .ReasonBadSinkURI)) ∧
      (GenericDeploymentReconciler.ReconcileSource
          (noSinkReconciler Deployment [exampleDeployment])
          (examplePackage Deployment specSemanticDeepEqual) desiredDeployment
          ⟨exampleSource.asEventSource, []⟩).2.src.Status.SinkURI = none ∧
      (GenericDeploymentReconciler.ReconcileSource
          (noSinkReconciler Deployment [exampleDeployment])
          (examplePackage Deployment specSemanticDeepEqual) desiredDeployment
          ⟨exampleSource.asEventSource, []⟩).2.src.Status.GetCondition
          .ConditionSinkProvided =
        some ⟨.False, some .ReasonSinkNotFound,
          "The sink does not exist or its URL is not set"⟩ ∧
      ∃ cs, (GenericDeploymentReconciler.ReconcileSource
          (noSinkReconciler Deployment [exampleDeployment])
          (examplePackage Deployment specSemanticDeepEqual) desiredDeployment
          ⟨exampleSource.asEventSource, []⟩).2.trace = [] ++ cs ∧
        ∀ c ∈ cs, c.isBuild = false ∧ c.isWorkloadCall = false) ∧
    ((∃ e, (GenericServiceReconciler.ReconcileSource
          (noSinkReconciler Service [exampleAdapter])
          (examplePackage Service specSemanticDeepEqual) desiredService
          ⟨exampleSource.asEventSource, []⟩).1 = some e ∧
        IsPermanentError e = true ∧ asEvent e = some (.Warning, .ReasonBadSinkURI)) ∧
      (GenericServiceReconciler.ReconcileSource
          (noSinkReconciler Service [exampleAdapter])
          (examplePackage Service specSemanticDeepEqual) desiredService
          ⟨exampleSource.asEventSource, []⟩).2.src.Status.SinkURI = none ∧
      (GenericServiceReconciler.ReconcileSource
          (noSinkReconciler Service [exampleAdapter])
          (examplePackage Service specSemanticDeepEqual) desiredService
          ⟨exampleSource.asEventSource, []⟩).2.src.Status.GetCondition
          .ConditionSinkProvided =
        some ⟨.False, some .ReasonSinkNotFound,
          "The sink does not exist or its URL is not set"⟩ ∧
      ∃ cs, (GenericServiceReconciler.ReconcileSource
          (noSinkReconciler Service [exampleAdapter])
          (examplePackage Service specSemanticDeepEqual) desiredService
          ⟨exampleSource.asEventSource, []⟩).2.trace = [] ++ cs ∧
        ∀ c ∈ cs, c.isBuild = false ∧ c.isWorkloadCall = false) :=
  ReconcileSource_no_sink
    (noSinkReconciler Deployment [exampleDeployment])
    (examplePackage Deployment specSemanticDeepEqual) desiredDeployment
    ⟨exampleSource.asEventSource, []⟩ (.plain "sink not found")
    (noSinkReconciler Service [exampleAdapter])
    (examplePackage Service specSemanticDeepEqual) desiredService
    ⟨exampleSource.asEventSource, []⟩ (.plain "sink not found") rfl rfl

/-! ## Synchronising the adapter -/

theorem lookup_filter_ne (m : StrMap) (k k' : String) (h : k' ≠ k) :
    List.lookup k' (m.filter (fun p => p.1 != k)) = List.lookup k' m := by
  induction m with
  | nil => rfl
  | cons kv rest ih =>
    obtain ⟨a, b⟩ := kv
    by_cases hak : a = k
    · subst hak
      have : (k' == a) = false := by simpa using h
      simp [List.filter, List.lookup, this, ih]
    · have hne : (a != k) = true := by simpa using hak
      simp only [List.filter, hne, List.lookup, ih]

theorem mapGet_mapSet_same (m : StrMap) (k v : String) :
    mapGet (mapSet m k v) k = some v := by
  simp [mapGet, mapSet, List.lookup]

theorem mapGet_mapSet_ne (m : StrMap) (k k' v : String) (h : k' ≠ k) :
    mapGet (mapSet m k v) k' = mapGet m k' := by
  have : (k' == k) = false := by simpa using h
  simp [mapGet, mapSet, List.lookup, this, lookup_filter_ne m k k' h]

/-- The annotation loop only touches annotations: a listed annotation present
on the current object ends with the current value, every other key keeps the
value the desired object had. -/
theorem preserveAnnotations_spec (current : ObjectMeta) (anns : List String) :
    ∀ desired : ObjectMeta, ∃ A : StrMap,
      preserveAnnotations current anns desired = { desired with Annotations := A } ∧
      (∀ k, (k ∉ anns ∨ mapGet current.Annotations k = none) →
        mapGet A k = mapGet desired.Annotations k) ∧
      (∀ k v, k ∈ anns → mapGet current.Annotations k = some v → mapGet A k = some v) := by
  induction anns with
  | nil =>
    intro desired
    exact ⟨desired.Annotations, rfl, fun _ _ => rfl, fun _ _ h => absurd h (List.not_mem_nil _)⟩
  | cons a rest ih =>
    intro desired
    cases ha : mapGet current.Annotations a with
    | none =>
      obtain ⟨A, hA, hkeep, hset⟩ := ih desired
      refine ⟨A, ?_, ?_, ?_⟩
      · simpa [preserveAnnotations, List.foldl, ha] using hA
      · intro k hk
        apply hkeep
        rcases hk with hk | hk
        · exact Or.inl (fun h => hk (List.mem_cons_of_mem _ h))
        · exact Or.inr hk
      · intro k v hk hv
        rcases List.mem_cons.mp hk with rfl | hk
        · rw [ha] at hv; cases hv
        · exact hset k v hk hv
    | some val =>
      obtain ⟨A, hA, hkeep, hset⟩ := ih ( SetMetaDataAnnotation desired a val)
      refine ⟨A, ?_, ?_, ?_⟩
      · simpa [preserveAnnotations, List.foldl, ha, SetMetaDataAnnotation] using hA
      · intro k hk
        have hka : k ≠ a := by
          rcases hk with hk | hk
          · exact fun h => hk (h ▸ List.mem_cons_self _ _)
          · intro h; rw [h, ha] at hk; cases hk
        have h₁ : mapGet A k = mapGet ( SetMetaDataAnnotation desired a val).Annotations k := by
          apply hkeep
          rcases hk with hk | hk
          · exact Or.inl (fun h => hk (List.mem_cons_of_mem _ h))
          · exact Or.inr hk
        rw [h₁]
        exact mapGet_mapSet_ne _ _ _ _ hka
      · intro k v hk hv
        by_cases hkr : k ∈ rest
        · exact hset k v hkr hv
        · rcases List.mem_cons.mp hk with rfl | hk
          · rw [hkeep k (Or.inl hkr)]
            rw [ha] at hv
            cases hv
            exact mapGet_mapSet_same _ _ _
          · exact absurd hk hkr

/-- C9: when the desired and the current workload are semantically equal,
`syncAdapterDeployment` and `syncAdapterService` return the current workload
unchanged and leave the trace as it was: no update call and no event. -/
theorem syncAdapter_semantically_equal
    (rd : GenericDeploymentReconciler) (pd : Package Deployment)
    (currentD desiredD : Deployment) (std : Run Deployment)
    (rs : GenericServiceReconciler) (ps : Package Service)
    (currentS desiredS : Service) (sts : Run Service)
    (hd : pd.SemanticDeepEqual desiredD currentD = true)
    (hs : ps.SemanticDeepEqual desiredS currentS = true) :
    syncAdapterDeployment rd pd currentD desiredD std = (.ok currentD, std) ∧
    syncAdapterService rs ps currentS desiredS sts = (.ok currentS, sts) := by
  simp [syncAdapterDeployment, syncAdapterService, hd, hs]

/-- C9 at the example workloads, compared with what a builder would produce
for them. -/
theorem syncAdapter_semantically_equal_witness :
    syncAdapterDeployment exampleDeploymentBase
        (examplePackage Deployment specSemanticDeepEqual) exampleDeployment rebuiltDeployment
        ⟨exampleSource.asEventSource, []⟩
      = (.ok exampleDeployment, ⟨exampleSource.asEventSource, []⟩) ∧
    syncAdapterService exampleBase
        (examplePackage Service specSemanticDeepEqual) exampleAdapter rebuiltService
        ⟨exampleSource.asEventSource, []⟩
      = (.ok exampleAdapter, ⟨exampleSource.asEventSource, []⟩) :=
  syncAdapter_semantically_equal exampleDeploymentBase
    (examplePackage Deployment specSemanticDeepEqual) exampleDeployment rebuiltDeployment
    ⟨exampleSource.asEventSource, []⟩
    exampleBase (examplePackage Service specSemanticDeepEqual) exampleAdapter rebuiltService
    ⟨exampleSource.asEventSource, []⟩ (by decide) (by decide)

/-- C10, as stated, fails for the Deployment variant: the current Deployment
carries a creator annotation, the desired one differs from it, and the object of
the update call carries no creator annotation. -/
theorem syncAdapterDeployment_drops_provenance :
    mapGet exampleDeployment.ObjectMeta.Annotations CreatorAnnotation = some "alice" ∧
    (examplePackage Deployment specSemanticDeepEqual).SemanticDeepEqual
      (desiredDeployment exampleURL) exampleDeployment = false ∧
    ∃ obj evs,
      (syncAdapterDeployment exampleDeploymentBase
        (examplePackage Deployment specSemanticDeepEqual) exampleDeployment
        (desiredDeployment exampleURL) ⟨exampleSource.asEventSource, []⟩).2.trace
        = .update "default" obj :: evs ∧
      mapGet obj.ObjectMeta.Annotations CreatorAnnotation = none := by
  refine ⟨by decide, by decide,
    { desiredDeployment exampleURL with
      ObjectMeta := { (desiredDeployment exampleURL).ObjectMeta with ResourceVersion := "41" }
      Status := ⟨1, true⟩ },
    [.recordEvent .Normal .ReasonAdapterUpdate
      (sprintf "Updated adapter Deployment %q" ["sns-adapter"])], ?_, by decide⟩
  simp only [syncAdapterDeployment]
  rw [if_neg (by decide)]
  rfl

/-- C10, amended: when the desired and the current workload are not
semantically equal, each variant issues exactly one update call, in the
namespace of the current workload.  Its object has the resourceVersion and the
status of the current workload.  For a Deployment it is otherwise the desired
object.  For a Service it has the spec and the other metadata of the desired
object, every annotation of `knativeServingAnnotations` present on the current
Service with the current value, and every other annotation as the desired
object had it. -/
theorem syncAdapter_update
    (rd : GenericDeploymentReconciler) (pd : Package Deployment)
    (currentD desiredD : Deployment) (std : Run Deployment)
    (rs : GenericServiceReconciler) (ps : Package Service)
    (currentS desiredS : Service) (sts : Run Service)
    (hd : pd.SemanticDeepEqual desiredD currentD = false)
    (hs : ps.SemanticDeepEqual desiredS currentS = false) :
    (∃ evs,
      (syncAdapterDeployment rd pd currentD desiredD std).2.trace =
        std.trace ++ .update currentD.ObjectMeta.Namespace
          { desiredD with
            ObjectMeta := { desiredD.ObjectMeta with
              ResourceVersion := currentD.ObjectMeta.ResourceVersion }
            Status := currentD.Status } :: evs ∧
      ∀ c ∈ evs, c.isUpdate = false) ∧
    (∃ obj evs,
      (syncAdapterService rs ps currentS desiredS sts).2.trace =
        sts.trace ++ .update currentS.ObjectMeta.Namespace obj :: evs ∧
      (∀ c ∈ evs, c.isUpdate = false) ∧
      obj.ObjectMeta.ResourceVersion = currentS.ObjectMeta.ResourceVersion ∧
      obj.Status = currentS.Status ∧
      obj.Spec = desiredS.Spec ∧
      obj.ObjectMeta.Name = desiredS.ObjectMeta.Name ∧
      obj.ObjectMeta.Namespace = desiredS.ObjectMeta.Namespace ∧
      obj.ObjectMeta.UID = desiredS.ObjectMeta.UID ∧
      obj.ObjectMeta.Labels = desiredS.ObjectMeta.Labels ∧
      obj.ObjectMeta.OwnerReferences = desiredS.ObjectMeta.OwnerReferences ∧
      (∀ ann v, ann ∈ knativeServingAnnotations →
        mapGet currentS.ObjectMeta.Annotations ann = some v →
        mapGet obj.ObjectMeta.Annotations ann = some v) ∧
      (∀ k, (k ∉ knativeServingAnnotations ∨
          mapGet currentS.ObjectMeta.Annotations k = none) →
        mapGet obj.ObjectMeta.Annotations k = mapGet desiredS.ObjectMeta.Annotations k)) := by
  constructor
  · simp only [syncAdapterDeployment, hd]
    cases hu : (rd.Client currentD.ObjectMeta.Namespace).Update
        { desiredD with
          ObjectMeta := { desiredD.ObjectMeta with
            ResourceVersion := currentD.ObjectMeta.ResourceVersion }
          Status := currentD.Status } with
    | error err => exact ⟨[], by simp [hu, Run.calls], by simp⟩
    | ok adapter =>
      exact ⟨[.recordEvent .Normal .ReasonAdapterUpdate
        (sprintf "Updated adapter Deployment %q" [adapter.ObjectMeta.Name])],
        by simp [hu, Run.calls], by simp [Call.isUpdate]⟩
  · obtain ⟨A, hA, hkeep, hset⟩ :=
      preserveAnnotations_spec currentS.ObjectMeta knativeServingAnnotations
        { desiredS.ObjectMeta with ResourceVersion := currentS.ObjectMeta.ResourceVersion }
    simp only [syncAdapterService, hs, hA]
    refine ⟨{ desiredS with
      ObjectMeta := { desiredS.ObjectMeta with
        ResourceVersion := currentS.ObjectMeta.ResourceVersion, Annotations := A }
      Status := currentS.Status }, ?_⟩
    cases hu : (rs.Client currentS.ObjectMeta.Namespace).Update
        { desiredS with
          ObjectMeta := { desiredS.ObjectMeta with
            ResourceVersion := currentS.ObjectMeta.ResourceVersion, Annotations := A }
          Status := currentS.Status } with
    | error err =>
      exact ⟨[], by simp [hu, Run.calls], by simp, rfl, rfl, rfl, rfl, rfl, rfl, rfl, rfl,
        fun ann v h₁ h₂ => hset ann v h₁ h₂, fun k hk => hkeep k hk⟩
    | ok adapter =>
      exact ⟨[.recordEvent .Normal .ReasonAdapterUpdate
        (sprintf "Updated adapter Service %q" [adapter.ObjectMeta.Name])],
        by simp [hu, Run.calls], by simp [Call.isUpdate], rfl, rfl, rfl, rfl, rfl, rfl, rfl, rfl,
        fun ann v h₁ h₂ => hset ann v h₁ h₂, fun k hk => hkeep k hk⟩

/-- C10 amended, at the example workloads and the objects a builder produces
with a new image. -/
theorem syncAdapter_update_witness :
    (∃ evs,
      (syncAdapterDeployment exampleDeploymentBase
          (examplePackage Deployment specSemanticDeepEqual) exampleDeployment
          (desiredDeployment exampleURL) ⟨exampleSource.asEventSource, []⟩).2.trace =
        [] ++ .update exampleDeployment.ObjectMeta.Namespace
          { desiredDeployment exampleURL with
            ObjectMeta := { (desiredDeployment exampleURL).ObjectMeta with
              ResourceVersion := exampleDeployment.ObjectMeta.ResourceVersion }
            Status := exampleDeployment.Status } :: evs ∧
      ∀ c ∈ evs, c.isUpdate = false) ∧
    (∃ obj evs,
      (syncAdapterService exampleBase
          (examplePackage Service specSemanticDeepEqual) exampleAdapter
          (desiredService exampleURL) ⟨exampleSource.asEventSource, []⟩).2.trace =
        [] ++ .update exampleAdapter.ObjectMeta.Namespace obj :: evs ∧
      (∀ c ∈ evs, c.isUpdate = false) ∧
      obj.ObjectMeta.ResourceVersion = exampleAdapter.ObjectMeta.ResourceVersion ∧
      obj.Status = exampleAdapter.Status ∧
      obj.Spec = (desiredService exampleURL).Spec ∧
      obj.ObjectMeta.Name = (desiredService exampleURL).ObjectMeta.Name ∧
      obj.ObjectMeta.Namespace = (desiredService exampleURL).ObjectMeta.Namespace ∧
      obj.ObjectMeta.UID = (desiredService exampleURL).ObjectMeta.UID ∧
      obj.ObjectMeta.Labels = (desiredService exampleURL).ObjectMeta.Labels ∧
      obj.ObjectMeta.OwnerReferences = (desiredService exampleURL).ObjectMeta.OwnerReferences ∧
      (∀ ann v, ann ∈ knativeServingAnnotations →
        mapGet exampleAdapter.ObjectMeta.Annotations ann = some v →
        mapGet obj.ObjectMeta.Annotations ann = some v) ∧
      (∀ k, (k ∉ knativeServingAnnotations ∨
          mapGet exampleAdapter.ObjectMeta.Annotations k = none) →
        mapGet obj.ObjectMeta.Annotations k =
          mapGet (desiredService exampleURL).ObjectMeta.Annotations k)) :=
  syncAdapter_update exampleDeploymentBase
    (examplePackage Deployment specSemanticDeepEqual) exampleDeployment
    (desiredDeployment exampleURL) ⟨exampleSource.asEventSource, []⟩
    exampleBase (examplePackage Service specSemanticDeepEqual) exampleAdapter
    (desiredService exampleURL) ⟨exampleSource.asEventSource, []⟩ (by decide) (by decide)

/-! ## Looking up and creating the adapter -/

/-- The lookup as a function of the lister answer; its only call is the list
call. -/
theorem findAdapter_eq {σ τ : Type} (r : GenericReconciler (Obj σ τ)) (p : Package (Obj σ τ))
    (gr : String) (src : EventSource) :
    findAdapter r p gr src =
      ((match r.Lister src.ObjectMeta.Namespace (adapterSelector p src) with
        | .error err => .error err
        | .ok objs =>
          match objs.find? (fun obj => IsControlledBy obj.ObjectMeta src.ObjectMeta) with
          | some obj => .ok obj
          | none => .error (newNotFoundForSelector gr (adapterSelector p src))),
       [.list src.ObjectMeta.Namespace (adapterSelector p src)]) := by
  simp only [findAdapter, adapterSelector]
  cases r.Lister src.ObjectMeta.Namespace
      [(AppNameLabel, p.AdapterName src), (AppInstanceLabel, src.ObjectMeta.Name)] with
  | error err => rfl
  | ok objs =>
    simp only
    cases objs.find? (fun obj => IsControlledBy obj.ObjectMeta src.ObjectMeta) <;> rfl

/-- The error `findAdapter` builds when nothing is found is a NotFound. -/
theorem apiIsNotFound_newNotFoundForSelector (gr : String) (sel : StrMap) :
    apiIsNotFound (newNotFoundForSelector gr sel) = true := by
  simp [newNotFoundForSelector, apiIsNotFound, asAPIStatus]

/-- A workload `findAdapter` returns was listed and is controlled by the source. -/
theorem findAdapter_ok {σ τ : Type} (r : GenericReconciler (Obj σ τ)) (p : Package (Obj σ τ))
    (gr : String) (src : EventSource) (objs : List (Obj σ τ)) (w : Obj σ τ)
    (hlist : r.Lister src.ObjectMeta.Namespace (adapterSelector p src) = .ok objs)
    (hfound : (findAdapter r p gr src).1 = .ok w) :
    w ∈ objs ∧ IsControlledBy w.ObjectMeta src.ObjectMeta = true := by
  rw [findAdapter_eq, hlist] at hfound
  simp only at hfound
  cases hf : objs.find? (fun obj => IsControlledBy obj.ObjectMeta src.ObjectMeta) with
  | none => rw [hf] at hfound; cases hfound
  | some obj =>
    rw [hf] at hfound
    cases hfound
    exact ⟨List.mem_of_find?_eq_some hf, by simpa using List.find?_some hf⟩

/-- With no listed workload controlled by the source, `findAdapter` reports
NotFound. -/
theorem findAdapter_none {σ τ : Type} (r : GenericReconciler (Obj σ τ)) (p : Package (Obj σ τ))
    (gr : String) (src : EventSource) (objs : List (Obj σ τ))
    (hlist : r.Lister src.ObjectMeta.Namespace (adapterSelector p src) = .ok objs)
    (hnone : ∀ o ∈ objs, IsControlledBy o.ObjectMeta src.ObjectMeta = false) :
    (findAdapter r p gr src).1 = .error (newNotFoundForSelector gr (adapterSelector p src)) := by
  rw [findAdapter_eq, hlist]
  simp only
  have hf : objs.find? (fun obj => IsControlledBy obj.ObjectMeta src.ObjectMeta) = none := by
    rw [List.find?_eq_none]
    intro o ho
    simp [hnone o ho]
  rw [hf]

/-- The three outcomes of `getOrCreateAdapter`, by the result of the lookup. -/
theorem getOrCreateAdapter_eq {σ τ : Type} (r : GenericReconciler (Obj σ τ))
    (p : Package (Obj σ τ)) (kind : WorkloadKind) (desiredAdapter : Obj σ τ)
    (st : Run (Obj σ τ)) :
    getOrCreateAdapter r p kind desiredAdapter st =
      match (findAdapter r p kind.gr st.src).1 with
      | .ok adapter =>
        (.ok adapter, st.calls [.list st.src.ObjectMeta.Namespace (adapterSelector p st.src)])
      | .error err =>
        if apiIsNotFound err then
          match (r.Client st.src.ObjectMeta.Namespace).Create desiredAdapter with
          | .error err =>
            (.error (.event .Warning .ReasonFailedAdapterCreate
              ("Failed to create adapter " ++ kind.name ++ " %q: %s")
              [desiredAdapter.ObjectMeta.Name, err.Error]),
             st.calls [.list st.src.ObjectMeta.Namespace (adapterSelector p st.src),
               .create st.src.ObjectMeta.Namespace desiredAdapter])
          | .ok adapter =>
            (.ok adapter,
             st.calls [.list st.src.ObjectMeta.Namespace (adapterSelector p st.src),
               .create st.src.ObjectMeta.Namespace desiredAdapter,
               .recordEvent .Normal .ReasonAdapterCreate
                 (sprintf ("Created adapter " ++ kind.name ++ " %q") [adapter.ObjectMeta.Name])])
        else
          (.error (.wrapped ("failed to get adapter " ++ kind.name ++ " from cache: ") err),
           st.calls [.list st.src.ObjectMeta.Namespace (adapterSelector p st.src)]) := by
  have h := findAdapter_eq r p kind.gr st.src
  rcases hf : findAdapter r p kind.gr st.src with ⟨res, cs⟩
  rw [hf] at h
  have hcs : cs = [.list st.src.ObjectMeta.Namespace (adapterSelector p st.src)] :=
    congrArg Prod.snd h
  subst hcs
  simp only [getOrCreateAdapter, hf]
  cases res with
  | ok adapter => rfl
  | error err =>
    simp only
    cases hnf : apiIsNotFound err with
    | false => simp
    | true =>
      simp only [if_true]
      cases (r.Client st.src.ObjectMeta.Namespace).Create desiredAdapter <;>
        simp [Run.calls]

/-- C11: for every list the lister returns, `findAdapter` only ever selects a
listed workload that the source controls; when no listed workload is controlled
by the source the lookup reports NotFound and `getOrCreateAdapter` issues a
create for the desired workload; and a workload `getOrCreateAdapter` returns is
either a listed one controlled by the source or the one the create call
returned, never a listed foreign one (so it is controlled by the source as soon
as the created object is). -/
theorem getOrCreateAdapter_owned {σ τ : Type} (r : GenericReconciler (Obj σ τ))
    (p : Package (Obj σ τ)) (kind : WorkloadKind) (desiredAdapter : Obj σ τ)
    (st : Run (Obj σ τ)) (objs : List (Obj σ τ))
    (hlist : r.Lister st.src.ObjectMeta.Namespace (adapterSelector p st.src) = .ok objs) :
    (∀ w, (findAdapter r p kind.gr st.src).1 = .ok w →
      w ∈ objs ∧ IsControlledBy w.ObjectMeta st.src.ObjectMeta = true) ∧
    ((∀ o ∈ objs, IsControlledBy o.ObjectMeta st.src.ObjectMeta = false) →
      (∃ e, (findAdapter r p kind.gr st.src).1 = .error e ∧ apiIsNotFound e = true) ∧
      (∃ evs, (getOrCreateAdapter r p kind desiredAdapter st).2.trace =
          st.trace ++ [.list st.src.ObjectMeta.Namespace (adapterSelector p st.src),
            .create st.src.ObjectMeta.Namespace desiredAdapter] ++ evs ∧
        ∀ c ∈ evs, c.isEvent = true) ∧
      ∀ w, (getOrCreateAdapter r p kind desiredAdapter st).1 = .ok w →
        (r.Client st.src.ObjectMeta.Namespace).Create desiredAdapter = .ok w) ∧
    (∀ w, (getOrCreateAdapter r p kind desiredAdapter st).1 = .ok w →
      (w ∈ objs ∧ IsControlledBy w.ObjectMeta st.src.ObjectMeta = true) ∨
      ((r.Client st.src.ObjectMeta.Namespace).Create desiredAdapter = .ok w ∧
        ∀ o ∈ objs, IsControlledBy o.ObjectMeta st.src.ObjectMeta = false)) ∧
    ((∀ w, (r.Client st.src.ObjectMeta.Namespace).Create desiredAdapter = .ok w →
        IsControlledBy w.ObjectMeta st.src.ObjectMeta = true) →
      ∀ w, (getOrCreateAdapter r p kind desiredAdapter st).1 = .ok w →
        IsControlledBy w.ObjectMeta st.src.ObjectMeta = true) := by
  have hfa := findAdapter_eq r p kind.gr st.src
  rw [hlist] at hfa
  simp only at hfa
  have hg := getOrCreateAdapter_eq r p kind desiredAdapter st
  cases hf : objs.find? (fun obj => IsControlledBy obj.ObjectMeta st.src.ObjectMeta) with
  | some obj =>
    rw [hf] at hfa
    simp only at hfa
    have hmem : obj ∈ objs := List.mem_of_find?_eq_some hf
    have hctl : IsControlledBy obj.ObjectMeta st.src.ObjectMeta = true := by
      simpa using List.find?_some hf
    rw [hfa] at hg
    simp only at hg
    refine ⟨?_, ?_, ?_, ?_⟩
    · intro w hw
      rw [hfa] at hw
      cases hw
      exact ⟨hmem, hctl⟩
    · intro hnone
      have h := hnone obj hmem
      rw [hctl] at h
      cases h
    · intro w hw
      rw [hg] at hw
      cases hw
      exact Or.inl ⟨hmem, hctl⟩
    · intro _ w hw
      rw [hg] at hw
      cases hw
      exact hctl
  | none =>
    rw [hf] at hfa
    simp only at hfa
    have hnone : ∀ o ∈ objs, IsControlledBy o.ObjectMeta st.src.ObjectMeta = false := by
      intro o ho
      simpa using List.find?_eq_none.mp hf o ho
    rw [hfa] at hg
    simp only [apiIsNotFound_newNotFoundForSelector, if_true] at hg
    cases hc : (r.Client st.src.ObjectMeta.Namespace).Create desiredAdapter with
    | error e =>
      rw [hc] at hg
      simp only at hg
      refine ⟨?_, ?_, ?_, ?_⟩
      · intro w hw
        rw [hfa] at hw
        cases hw
      · intro _
        refine ⟨⟨_, by rw [hfa], apiIsNotFound_newNotFoundForSelector _ _⟩,
          ⟨[], by simp [hg, Run.calls], by simp⟩, ?_⟩
        intro w hw
        rw [hg] at hw
        cases hw
      · intro w hw
        rw [hg] at hw
        cases hw
      · intro _ w hw
        rw [hg] at hw
        cases hw
    | ok a =>
      rw [hc] at hg
      simp only at hg
      refine ⟨?_, ?_, ?_, ?_⟩
      · intro w hw
        rw [hfa] at hw
        cases hw
      · intro _
        refine ⟨⟨_, by rw [hfa], apiIsNotFound_newNotFoundForSelector _ _⟩,
          ⟨[.recordEvent .Normal .ReasonAdapterCreate
            (sprintf ("Created adapter " ++ kind.name ++ " %q") [a.ObjectMeta.Name])],
            by simp [hg, Run.calls], by simp [Call.isEvent]⟩, ?_⟩
        intro w hw
        rw [hg] at hw
        cases hw
        rfl
      · intro w hw
        rw [hg] at hw
        cases hw
        exact Or.inr ⟨rfl, hnone⟩
      · intro hown w hw
        rw [hg] at hw
        cases hw
        exact hown a rfl

/-- C11 at the example source, with a lister that returns a foreign Service
ahead of the adapter the source controls. -/
theorem getOrCreateAdapter_owned_witness :
    (∀ w, (findAdapter (listingBase [foreignAdapter, exampleAdapter])
        (examplePackage Service specSemanticDeepEqual) WorkloadKind.Service.gr
        exampleSource.asEventSource).1 = .ok w →
      w ∈ [foreignAdapter, exampleAdapter] ∧
      IsControlledBy w.ObjectMeta exampleSource.asEventSource.ObjectMeta = true) ∧
    ((∀ o ∈ [foreignAdapter, exampleAdapter],
        IsControlledBy o.ObjectMeta exampleSource.asEventSource.ObjectMeta = false) →
      (∃ e, (findAdapter (listingBase [foreignAdapter, exampleAdapter])
          (examplePackage Service specSemanticDeepEqual) WorkloadKind.Service.gr
          exampleSource.asEventSource).1 = .error e ∧ apiIsNotFound e = true) ∧
      (∃ evs, (getOrCreateAdapter (listingBase [foreignAdapter, exampleAdapter])
          (examplePackage Service specSemanticDeepEqual) .Service (desiredService exampleURL)
          ⟨exampleSource.asEventSource, []⟩).2.trace =
          [] ++ [.list "default" (adapterSelector (examplePackage Service specSemanticDeepEqual)
              exampleSource.asEventSource),
            .create "default" (desiredService exampleURL)] ++ evs ∧
        ∀ c ∈ evs, c.isEvent = true) ∧
      ∀ w, (getOrCreateAdapter (listingBase [foreignAdapter, exampleAdapter])
          (examplePackage Service specSemanticDeepEqual) .Service (desiredService exampleURL)
          ⟨exampleSource.asEventSource, []⟩).1 = .ok w →
        ((listingBase [foreignAdapter, exampleAdapter]).Client "default").Create
          (desiredService exampleURL) = .ok w) ∧
    (∀ w, (getOrCreateAdapter (listingBase [foreignAdapter, exampleAdapter])
        (examplePackage Service specSemanticDeepEqual) .Service (desiredService exampleURL)
        ⟨exampleSource.asEventSource, []⟩).1 = .ok w →
      (w ∈ [foreignAdapter, exampleAdapter] ∧
        IsControlledBy w.ObjectMeta exampleSource.asEventSource.ObjectMeta = true) ∨
      (((listingBase [foreignAdapter, exampleAdapter]).Client "default").Create
          (desiredService exampleURL) = .ok w ∧
        ∀ o ∈ [foreignAdapter, exampleAdapter],
          IsControlledBy o.ObjectMeta exampleSource.asEventSource.ObjectMeta = false)) ∧
    ((∀ w, ((listingBase [foreignAdapter, exampleAdapter]).Client "default").Create
          (desiredService exampleURL) = .ok w →
        IsControlledBy w.ObjectMeta exampleSource.asEventSource.ObjectMeta = true) →
      ∀ w, (getOrCreateAdapter (listingBase [foreignAdapter, exampleAdapter])
          (examplePackage Service specSemanticDeepEqual) .Service (desiredService exampleURL)
          ⟨exampleSource.asEventSource, []⟩).1 = .ok w →
        IsControlledBy w.ObjectMeta exampleSource.asEventSource.ObjectMeta = true) :=
  getOrCreateAdapter_owned (listingBase [foreignAdapter, exampleAdapter])
    (examplePackage Service specSemanticDeepEqual) .Service (desiredService exampleURL)
    ⟨exampleSource.asEventSource, []⟩ [foreignAdapter, exampleAdapter] rfl

/-- C13, amended: `getOrCreateAdapter` issues a create call if and only if the
lookup reports NotFound, as it does when the lister returns no workload that
the source controls, and then exactly one, for the desired workload; when
the lookup fails otherwise it issues no create and returns, with no workload,
the lookup error under a `%w` wrapper, which is a permanent error exactly when
the lookup error is one (so it is not permanent for every lookup error that is
not a permanent error itself); when a workload is found it issues no create and
returns that workload. -/
theorem getOrCreateAdapter_create_iff {σ τ : Type} (r : GenericReconciler (Obj σ τ))
    (p : Package (Obj σ τ)) (kind : WorkloadKind) (desiredAdapter : Obj σ τ)
    (st : Run (Obj σ τ)) :
    ∃ cs, (getOrCreateAdapter r p kind desiredAdapter st).2.trace = st.trace ++ cs ∧
      ((∃ c ∈ cs, c.isCreate = true) ↔
        ∃ e, (findAdapter r p kind.gr st.src).1 = .error e ∧ apiIsNotFound e = true) ∧
      (∀ e, (findAdapter r p kind.gr st.src).1 = .error e → apiIsNotFound e = true →
        cs.filter Call.isCreate = [.create st.src.ObjectMeta.Namespace desiredAdapter]) ∧
      (∀ e, (findAdapter r p kind.gr st.src).1 = .error e → apiIsNotFound e = false →
        cs.filter Call.isCreate = [] ∧
        (getOrCreateAdapter r p kind desiredAdapter st).1 =
          .error (.wrapped ("failed to get adapter " ++ kind.name ++ " from cache: ") e) ∧
        ∀ e', (getOrCreateAdapter r p kind desiredAdapter st).1 = .error e' →
          IsPermanentError e' = IsPermanentError e) ∧
      (∀ w, (findAdapter r p kind.gr st.src).1 = .ok w →
        cs.filter Call.isCreate = [] ∧
        (getOrCreateAdapter r p kind desiredAdapter st).1 = .ok w) ∧
      (∀ objs, r.Lister st.src.ObjectMeta.Namespace (adapterSelector p st.src) = .ok objs →
        (∀ o ∈ objs, IsControlledBy o.ObjectMeta st.src.ObjectMeta = false) →
        cs.filter Call.isCreate = [.create st.src.ObjectMeta.Namespace desiredAdapter]) := by
  have hanchor : ∀ objs,
      r.Lister st.src.ObjectMeta.Namespace (adapterSelector p st.src) = .ok objs →
      (∀ o ∈ objs, IsControlledBy o.ObjectMeta st.src.ObjectMeta = false) →
      ∃ e, (findAdapter r p kind.gr st.src).1 = .error e ∧ apiIsNotFound e = true :=
    fun objs hl hnone => ⟨_, findAdapter_none r p kind.gr st.src objs hl hnone,
      apiIsNotFound_newNotFoundForSelector _ _⟩
  rw [getOrCreateAdapter_eq]
  cases hres : (findAdapter r p kind.gr st.src).1 with
  | ok adapter =>
    refine ⟨[.list st.src.ObjectMeta.Namespace (adapterSelector p st.src)], rfl, ?_, ?_, ?_, ?_,
      ?_⟩
    · simp [Call.isCreate]
    · intro e he; cases he
    · intro e he; cases he
    · intro w hw
      cases hw
      exact ⟨by simp [Call.isCreate], rfl⟩
    · intro objs hl hnone
      obtain ⟨e, he, _⟩ := hanchor objs hl hnone
      rw [hres] at he
      cases he
  | error err =>
    simp only
    cases hnf : apiIsNotFound err with
    | false =>
      simp only [Bool.false_eq_true, if_false]
      refine ⟨[.list st.src.ObjectMeta.Namespace (adapterSelector p st.src)], by simp [Run.calls],
        ?_, ?_, ?_, ?_, ?_⟩
      · constructor
        · intro h
          simp [Call.isCreate] at h
        · rintro ⟨e, he, hne⟩
          cases he
          rw [hnf] at hne
          cases hne
      · intro e he hne
        cases he
        rw [hnf] at hne
        cases hne
      · intro e he _
        cases he
        refine ⟨by simp [Call.isCreate], by simp, ?_⟩
        intro e' he'
        simp at he'
        rw [← he']
        rfl
      · intro w hw; cases hw
      · intro objs hl hnone
        obtain ⟨e, he, hne⟩ := hanchor objs hl hnone
        rw [hres] at he
        cases he
        rw [hnf] at hne
        cases hne
    | true =>
      simp only [if_true]
      cases hc : (r.Client st.src.ObjectMeta.Namespace).Create desiredAdapter with
      | error e₁ =>
        refine ⟨[.list st.src.ObjectMeta.Namespace (adapterSelector p st.src),
          .create st.src.ObjectMeta.Namespace desiredAdapter], by simp [Run.calls],
          ?_, ?_, ?_, ?_, ?_⟩
        · constructor
          · intro _
            exact ⟨err, rfl, hnf⟩
          · intro _
            exact ⟨.create st.src.ObjectMeta.Namespace desiredAdapter, by simp, rfl⟩
        · intro e _ _
          simp [Call.isCreate]
        · intro e he hne
          cases he
          rw [hnf] at hne
          cases hne
        · intro w hw; cases hw
        · intro _ _ _
          simp [Call.isCreate]
      | ok a =>
        refine ⟨[.list st.src.ObjectMeta.Namespace (adapterSelector p st.src),
          .create st.src.ObjectMeta.Namespace desiredAdapter,
          .recordEvent .Normal .ReasonAdapterCreate
            (sprintf ("Created adapter " ++ kind.name ++ " %q") [a.ObjectMeta.Name])],
          by simp [Run.calls], ?_, ?_, ?_, ?_, ?_⟩
        · constructor
          · intro _
            exact ⟨err, rfl, hnf⟩
          · intro _
            exact ⟨.create st.src.ObjectMeta.Namespace desiredAdapter, by simp, rfl⟩
        · intro e _ _
          simp [Call.isCreate]
        · intro e he hne
          cases he
          rw [hnf] at hne
          cases hne
        · intro w hw; cases hw
        · intro _ _ _
          simp [Call.isCreate]

/-- C13 at the example source: over a lister that holds a Service another
object controls, exactly one create call is issued, for the desired Service;
over a lister that holds the adapter of the source, none. -/
theorem getOrCreateAdapter_create_iff_witness :
    (getOrCreateAdapter (listingBase [foreignAdapter])
        (examplePackage Service specSemanticDeepEqual) .Service (desiredService exampleURL)
        ⟨exampleSource.asEventSource, []⟩).2.trace.filter Call.isCreate =
      [.create "default" (desiredService exampleURL)] ∧
    (getOrCreateAdapter (listingBase [foreignAdapter, exampleAdapter])
        (examplePackage Service specSemanticDeepEqual) .Service (desiredService exampleURL)
        ⟨exampleSource.asEventSource, []⟩).2.trace.filter Call.isCreate = [] :=
  ⟨(getOrCreateAdapter_create_iff (listingBase [foreignAdapter])
      (examplePackage Service specSemanticDeepEqual) .Service (desiredService exampleURL)
      ⟨exampleSource.asEventSource, []⟩).elim
      (fun cs h => by
        rw [h.1]
        exact h.2.2.2.2.2 [foreignAdapter] rfl (by decide)),
   (getOrCreateAdapter_create_iff (listingBase [foreignAdapter, exampleAdapter])
      (examplePackage Service specSemanticDeepEqual) .Service (desiredService exampleURL)
      ⟨exampleSource.asEventSource, []⟩).elim
      (fun cs h => by
        rw [h.1]
        exact (h.2.2.2.2.1 exampleAdapter rfl).1)⟩

/-- C13, as stated, fails: a lister whose error is a permanent error makes
`getOrCreateAdapter` return, without a create call, an error that is permanent. -/
theorem getOrCreateAdapter_lookup_error_permanent :
    (findAdapter permanentListerBase (examplePackage Service specSemanticDeepEqual)
        WorkloadKind.Service.gr exampleSource.asEventSource).1 =
      .error (.permanent (.plain "informer cache is closed")) ∧
    apiIsNotFound (.permanent (.plain "informer cache is closed")) = false ∧
    (getOrCreateAdapter permanentListerBase (examplePackage Service specSemanticDeepEqual)
        .Service (desiredService exampleURL) ⟨exampleSource.asEventSource, []⟩).1 =
      .error (.wrapped "failed to get adapter Service from cache: "
        (.permanent (.plain "informer cache is closed"))) ∧
    IsPermanentError (.wrapped "failed to get adapter Service from cache: "
        (.permanent (.plain "informer cache is closed"))) = true ∧
    (getOrCreateAdapter permanentListerBase (examplePackage Service specSemanticDeepEqual)
        .Service (desiredService exampleURL) ⟨exampleSource.asEventSource, []⟩).2.trace =
      [.list "default" [(AppNameLabel, "awssnssource"), (AppInstanceLabel, "sns")]] := by
  refine ⟨rfl, rfl, rfl, rfl, rfl⟩

/-! ## Outcomes of a pass -/

/-- The annotation loop leaves the annotations outside `keys` as they were, when
it only sets annotations of `keys`. -/
theorem preserveAnnotations_filter (current : ObjectMeta) (keys : List String)
    (anns : List String) (hsub : ∀ a ∈ anns, a ∈ keys) :
    ∀ desired : ObjectMeta, ∃ A : StrMap,
      preserveAnnotations current anns desired = { desired with Annotations := A } ∧
      A.filter (fun kv => !keys.contains kv.1) =
        desired.Annotations.filter (fun kv => !keys.contains kv.1) := by
  induction anns with
  | nil => intro desired; exact ⟨desired.Annotations, rfl, rfl⟩
  | cons a rest ih =>
    intro desired
    have hrest : ∀ x ∈ rest, x ∈ keys := fun x hx => hsub x (List.mem_cons_of_mem _ hx)
    have ha : a ∈ keys := hsub a (List.mem_cons_self _ _)
    cases hget : mapGet current.Annotations a with
    | none =>
      obtain ⟨A, hA, hfil⟩ := ih hrest desired
      exact ⟨A, by simpa [preserveAnnotations, List.foldl, hget] using hA, hfil⟩
    | some val =>
      obtain ⟨A, hA, hfil⟩ := ih hrest ( SetMetaDataAnnotation desired a val)
      refine ⟨A, by simpa [preserveAnnotations, List.foldl, hget, SetMetaDataAnnotation] using hA,
        ?_⟩
      rw [hfil]
      simp only [ SetMetaDataAnnotation, mapSet]
      have hhead : (!keys.contains a) = false := by simpa using ha
      rw [List.filter_cons, hhead]
      simp only [Bool.false_eq_true, if_false, List.filter_filter]
      apply List.filter_congr
      intro kv _
      by_cases hk : kv.1 ∈ keys
      · simp [hk]
      · have hne : kv.1 ≠ a := fun h => hk (h ▸ ha)
        simp [hk, hne]

/-- Outcomes of `syncAdapterDeployment`; the object of the update call is
semantically equal to the desired Deployment in the sense of the spec. -/
theorem syncAdapterDeployment_outcomes (r : GenericDeploymentReconciler)
    (p : Package Deployment) :
    SyncOutcomes r p syncAdapterDeployment (fun d obj => specSemanticDeepEqual d obj = true) := by
  intro c d s
  cases heq : p.SemanticDeepEqual d c with
  | true => exact Or.inl ⟨rfl, by simp [syncAdapterDeployment, heq]⟩
  | false =>
    refine Or.inr ⟨rfl, { d with
      ObjectMeta := { d.ObjectMeta with ResourceVersion := c.ObjectMeta.ResourceVersion }
      Status := c.Status }, by simp [specSemanticDeepEqual], ?_⟩
    simp only [syncAdapterDeployment, heq]
    cases hu : (r.Client c.ObjectMeta.Namespace).Update { d with
      ObjectMeta := { d.ObjectMeta with ResourceVersion := c.ObjectMeta.ResourceVersion }
      Status := c.Status } with
    | error e =>
      exact Or.inl ⟨e, .event .Warning .ReasonFailedAdapterUpdate
        "Failed to update adapter Deployment %q: %s" [d.ObjectMeta.Name, e.Error],
        rfl, rfl, rfl, by simp⟩
    | ok a =>
      exact Or.inr ⟨a, sprintf "Updated adapter Deployment %q" [a.ObjectMeta.Name], rfl,
        by simp [Run.calls]⟩

/-- Outcomes of `syncAdapterService`; the object of the update call is
semantically equal to the desired Service in the sense of the spec. -/
theorem syncAdapterService_outcomes (r : GenericServiceReconciler) (p : Package Service) :
    SyncOutcomes r p syncAdapterService (fun d obj => specSemanticDeepEqual d obj = true) := by
  intro c d s
  cases heq : p.SemanticDeepEqual d c with
  | true => exact Or.inl ⟨rfl, by simp [syncAdapterService, heq]⟩
  | false =>
    obtain ⟨A, hA, hfil⟩ := preserveAnnotations_filter c.ObjectMeta knativeServingAnnotations
      knativeServingAnnotations (fun _ h => h)
      { d.ObjectMeta with ResourceVersion := c.ObjectMeta.ResourceVersion }
    refine Or.inr ⟨rfl, { d with
      ObjectMeta := { d.ObjectMeta with
        ResourceVersion := c.ObjectMeta.ResourceVersion, Annotations := A }
      Status := c.Status }, ?_, ?_⟩
    · have hfil' := hfil
      simp at hfil'
      simp [specSemanticDeepEqual, hfil']
    · simp only [syncAdapterService, heq, hA]
      cases hu : (r.Client c.ObjectMeta.Namespace).Update { d with
        ObjectMeta := { d.ObjectMeta with
          ResourceVersion := c.ObjectMeta.ResourceVersion, Annotations := A }
        Status := c.Status } with
      | error e =>
        exact Or.inl ⟨e, .event .Warning .ReasonFailedAdapterUpdate
          "Failed to update adapter Service %q: %s" [d.ObjectMeta.Name, e.Error],
          rfl, rfl, rfl, by simp⟩
      | ok a =>
        exact Or.inr ⟨a, sprintf "Updated adapter Service %q" [a.ObjectMeta.Name], rfl,
          by simp [Run.calls]⟩

/-- Unfolding of `ReconcileSource` once the sink is resolved. -/
theorem ReconcileSource_resolved {σ τ : Type} (r : GenericReconciler (Obj σ τ))
    (p : Package (Obj σ τ)) (kind : WorkloadKind) (sync : SyncFn (Obj σ τ))
    (adb : URL → Obj σ τ) (st st₁ : Run (Obj σ τ)) (u : URL)
    (hsink : resolveSinkURL r (setCloudEventAttributes p st) = (.ok u, st₁)) :
    ReconcileSource r p kind sync adb st =
      match reconcileAdapter r p kind sync (adb u) (sinkResolved st₁ u) with
      | (some err, s) => (some (.wrapped "failed to reconcile adapter: " err), s)
      | (none, s) => (none, s) := by
  simp only [ReconcileSource, hsink, sinkResolved]

/-- A lookup error that is not a NotFound is the error of the lister. -/
theorem findAdapter_error {σ τ : Type} (r : GenericReconciler (Obj σ τ)) (p : Package (Obj σ τ))
    (gr : String) (src : EventSource) (e : Err)
    (hres : (findAdapter r p gr src).1 = .error e) (hnf : apiIsNotFound e = false) :
    r.Lister src.ObjectMeta.Namespace (adapterSelector p src) = .error e := by
  rw [findAdapter_eq] at hres
  simp only at hres
  cases hl : r.Lister src.ObjectMeta.Namespace (adapterSelector p src) with
  | error e' =>
    rw [hl] at hres
    simp only at hres
    cases hres
    rfl
  | ok objs =>
    rw [hl] at hres
    simp only at hres
    cases hf : objs.find? (fun obj => IsControlledBy obj.ObjectMeta src.ObjectMeta) with
    | some obj => rw [hf] at hres; cases hres
    | none =>
      rw [hf] at hres
      simp only at hres
      cases hres
      rw [apiIsNotFound_newNotFoundForSelector] at hnf
      cases hnf

/-- A lookup that succeeds, or reports the NotFound it builds itself, had a
lister that answered. -/
theorem findAdapter_lister_ok {σ τ : Type} (r : GenericReconciler (Obj σ τ))
    (p : Package (Obj σ τ)) (gr : String) (src : EventSource) (e : Err)
    (hl : r.Lister src.ObjectMeta.Namespace (adapterSelector p src) = .error e) :
    (findAdapter r p gr src).1 = .error e := by
  rw [findAdapter_eq, hl]

/-- The outcomes of a pass whose sink resolved, for a synchronisation method
with the three outcomes, as result and calls issued after the builder: the
lookup fails other than by NotFound; the create call is rejected; or a workload
is found or created and then left alone, or updated with a rejected or an
accepted update call. -/
theorem ReconcileSource_cases {σ τ : Type} (r : GenericReconciler (Obj σ τ))
    (p : Package (Obj σ τ)) (kind : WorkloadKind) (sync : SyncFn (Obj σ τ))
    (rel : Obj σ τ → Obj σ τ → Prop) (adb : URL → Obj σ τ) (st st₁ s : Run (Obj σ τ)) (u : URL)
    (hsync : SyncOutcomes r p sync rel)
    (hsink : resolveSinkURL r (setCloudEventAttributes p st) = (.ok u, st₁))
    (hs : s = sinkResolved st₁ u) :
    (∃ e, (findAdapter r p kind.gr s.src).1 = .error e ∧ apiIsNotFound e = false ∧
      (ReconcileSource r p kind sync adb st).1 =
        some (.wrapped "failed to reconcile adapter: "
          (.wrapped ("failed to get adapter " ++ kind.name ++ " from cache: ") e)) ∧
      (ReconcileSource r p kind sync adb st).2.trace =
        s.trace ++ [.list s.src.ObjectMeta.Namespace (adapterSelector p s.src)]) ∨
    (∃ e e₁, (findAdapter r p kind.gr s.src).1 = .error e ∧ apiIsNotFound e = true ∧
      (r.Client s.src.ObjectMeta.Namespace).Create (adb u) = .error e₁ ∧
      (ReconcileSource r p kind sync adb st).1 =
        some (.wrapped "failed to reconcile adapter: "
          (.event .Warning .ReasonFailedAdapterCreate
            ("Failed to create adapter " ++ kind.name ++ " %q: %s")
            [(adb u).ObjectMeta.Name, e₁.Error])) ∧
      (ReconcileSource r p kind sync adb st).2.trace =
        s.trace ++ [.list s.src.ObjectMeta.Namespace (adapterSelector p s.src),
          .create s.src.ObjectMeta.Namespace (adb u)]) ∨
    (∃ c cs₀,
      (((findAdapter r p kind.gr s.src).1 = .ok c ∧
          cs₀ = [.list s.src.ObjectMeta.Namespace (adapterSelector p s.src)]) ∨
        (∃ e, (findAdapter r p kind.gr s.src).1 = .error e ∧ apiIsNotFound e = true ∧
          (r.Client s.src.ObjectMeta.Namespace).Create (adb u) = .ok c ∧
          cs₀ = [.list s.src.ObjectMeta.Namespace (adapterSelector p s.src),
            .create s.src.ObjectMeta.Namespace (adb u),
            .recordEvent .Normal .ReasonAdapterCreate
              (sprintf ("Created adapter " ++ kind.name ++ " %q") [c.ObjectMeta.Name])])) ∧
      ((p.SemanticDeepEqual (adb u) c = true ∧
          (ReconcileSource r p kind sync adb st).1 = none ∧
          (ReconcileSource r p kind sync adb st).2.trace = s.trace ++ cs₀) ∨
        (p.SemanticDeepEqual (adb u) c = false ∧ ∃ obj, rel (adb u) obj ∧
          ((∃ e ev, (r.Client c.ObjectMeta.Namespace).Update obj = .error e ∧
              asEvent ev = some (.Warning, .ReasonFailedAdapterUpdate) ∧
              IsPermanentError ev = false ∧
              (ReconcileSource r p kind sync adb st).1 =
                some (.wrapped "failed to reconcile adapter: "
                  (.wrapped ("failed to synchronize adapter " ++ kind.name ++ ": ") ev)) ∧
              (ReconcileSource r p kind sync adb st).2.trace =
                s.trace ++ cs₀ ++ [.update c.ObjectMeta.Namespace obj]) ∨
            (∃ a msg, (r.Client c.ObjectMeta.Namespace).Update obj = .ok a ∧
              (ReconcileSource r p kind sync adb st).1 = none ∧
              (ReconcileSource r p kind sync adb st).2.trace =
                s.trace ++ cs₀ ++ [.update c.ObjectMeta.Namespace obj,
                  .recordEvent .Normal .ReasonAdapterUpdate msg]))))) := by
  rw [ReconcileSource_resolved r p kind sync adb st st₁ u hsink, ← hs]
  have hg := getOrCreateAdapter_eq r p kind (adb u) s
  have hsynced : ∀ (c : Obj σ τ) (cs₀ : List (Call (Obj σ τ))),
      getOrCreateAdapter r p kind (adb u) s = (.ok c, s.calls cs₀) →
      ((p.SemanticDeepEqual (adb u) c = true ∧
          (match reconcileAdapter r p kind sync (adb u) s with
            | (some err, s) => (some (Err.wrapped "failed to reconcile adapter: " err), s)
            | (none, s) => (none, s)).1 = none ∧
          (match reconcileAdapter r p kind sync (adb u) s with
            | (some err, s) => (some (Err.wrapped "failed to reconcile adapter: " err), s)
            | (none, s) => (none, s)).2.trace = s.trace ++ cs₀) ∨
        (p.SemanticDeepEqual (adb u) c = false ∧ ∃ obj, rel (adb u) obj ∧
          ((∃ e ev, (r.Client c.ObjectMeta.Namespace).Update obj = .error e ∧
              asEvent ev = some (.Warning, .ReasonFailedAdapterUpdate) ∧
              IsPermanentError ev = false ∧
              (match reconcileAdapter r p kind sync (adb u) s with
                | (some err, s) => (some (Err.wrapped "failed to reconcile adapter: " err), s)
                | (none, s) => (none, s)).1 =
                some (.wrapped "failed to reconcile adapter: "
                  (.wrapped ("failed to synchronize adapter " ++ kind.name ++ ": ") ev)) ∧
              (match reconcileAdapter r p kind sync (adb u) s with
                | (some err, s) => (some (Err.wrapped "failed to reconcile adapter: " err), s)
                | (none, s) => (none, s)).2.trace =
                s.trace ++ cs₀ ++ [.update c.ObjectMeta.Namespace obj]) ∨
            (∃ a msg, (r.Client c.ObjectMeta.Namespace).Update obj = .ok a ∧
              (match reconcileAdapter r p kind sync (adb u) s with
                | (some err, s) => (some (Err.wrapped "failed to reconcile adapter: " err), s)
                | (none, s) => (none, s)).1 = none ∧
              (match reconcileAdapter r p kind sync (adb u) s with
                | (some err, s) => (some (Err.wrapped "failed to reconcile adapter: " err), s)
                | (none, s) => (none, s)).2.trace =
                s.trace ++ cs₀ ++ [.update c.ObjectMeta.Namespace obj,
                  .recordEvent .Normal .ReasonAdapterUpdate msg])))) := by
    intro c cs₀ hgc
    rcases hsync c (adb u) (s.calls cs₀)
      with ⟨heq, hsy⟩ | ⟨hne, obj, hrel, ⟨e, ev, hu, hev, hperm, hsy⟩ | ⟨a, msg, hu, hsy⟩⟩
    · left
      refine ⟨heq, ?_, ?_⟩
      · simp only [reconcileAdapter, hgc, hsy]
      · simp only [reconcileAdapter, hgc, hsy]
        simp [Run.calls, Run.setStatus]
    · right
      refine ⟨hne, obj, hrel, Or.inl ⟨e, ev, hu, hev, hperm, ?_, ?_⟩⟩
      · simp only [reconcileAdapter, hgc, hsy]
      · simp only [reconcileAdapter, hgc, hsy]
        simp [Run.calls]
    · right
      refine ⟨hne, obj, hrel, Or.inr ⟨a, msg, hu, ?_, ?_⟩⟩
      · simp only [reconcileAdapter, hgc, hsy]
      · simp only [reconcileAdapter, hgc, hsy]
        simp [Run.calls, Run.setStatus]
  cases hres : (findAdapter r p kind.gr s.src).1 with
  | ok c =>
    rw [hres] at hg
    simp only at hg
    exact Or.inr (Or.inr ⟨c, _, Or.inl ⟨rfl, rfl⟩, hsynced c _ hg⟩)
  | error err =>
    rw [hres] at hg
    simp only at hg
    cases hnf : apiIsNotFound err with
    | false =>
      simp only [hnf, Bool.false_eq_true, if_false] at hg
      refine Or.inl ⟨err, rfl, hnf, ?_, ?_⟩
      · simp only [reconcileAdapter, hg]
      · simp only [reconcileAdapter, hg]
        simp [Run.calls, Run.setStatus]
    | true =>
      simp only [hnf, if_true] at hg
      cases hc : (r.Client s.src.ObjectMeta.Namespace).Create (adb u) with
      | error e₁ =>
        rw [hc] at hg
        simp only at hg
        refine Or.inr (Or.inl ⟨err, e₁, rfl, hnf, rfl, ?_, ?_⟩)
        · simp only [reconcileAdapter, hg]
        · simp only [reconcileAdapter, hg]
          simp [Run.calls, Run.setStatus]
      | ok a₀ =>
        rw [hc] at hg
        simp only at hg
        exact Or.inr (Or.inr ⟨a₀, _, Or.inr ⟨err, rfl, hnf, rfl, rfl⟩, hsynced a₀ _ hg⟩)

/-- What a pass does once the sink is resolved, for a synchronisation method
with the three outcomes: the calls issued after the builder hold at most one
list, one create and one update call; a failed list (other than NotFound),
create or update call makes the pass return an error; and the error is
permanent only when the error of the lister is. -/
theorem ReconcileSource_adapter_failures {σ τ : Type} (r : GenericReconciler (Obj σ τ))
    (p : Package (Obj σ τ)) (kind : WorkloadKind) (sync : SyncFn (Obj σ τ))
    (rel : Obj σ τ → Obj σ τ → Prop) (adb : URL → Obj σ τ) (st st₁ : Run (Obj σ τ)) (u : URL)
    (hsync : SyncOutcomes r p sync rel)
    (hsink : resolveSinkURL r (setCloudEventAttributes p st) = (.ok u, st₁)) :
    RetryableFailures r st₁ u (ReconcileSource r p kind sync adb st) := by
  obtain ⟨s, hs⟩ : ∃ s, s = sinkResolved st₁ u := ⟨_, rfl⟩
  have htr : s.trace = st₁.trace ++ [.build u] := by
    simp [hs, sinkResolved, Run.calls, Run.setStatus]
  have hlistErr : ∀ (ns : String) (sel : StrMap) (e : Err),
      (Call.list ns sel : Call (Obj σ τ)) =
        .list s.src.ObjectMeta.Namespace (adapterSelector p s.src) →
      r.Lister ns sel = .error e → (findAdapter r p kind.gr s.src).1 = .error e := by
    intro ns sel e h hl
    cases h
    exact findAdapter_lister_ok r p kind.gr s.src e hl
  rcases ReconcileSource_cases r p kind sync rel adb st st₁ s u hsync hsink hs with
    ⟨e, hF, hnf, h1, h2⟩ | ⟨e, e₁, hF, hnf, hc, h1, h2⟩ | ⟨c, cs₀, horig, hsy⟩
  · have hle := findAdapter_error r p kind.gr s.src e hF hnf
    refine ⟨[.list s.src.ObjectMeta.Namespace (adapterSelector p s.src)],
      by rw [h2, htr]; simp, by simp [Call.isList], by simp [Call.isCreate],
      by simp [Call.isUpdate], ?_, by simp, by simp, ?_⟩
    · intro ns sel e' hmem hl _
      simp only [List.mem_singleton] at hmem
      have h := hlistErr ns sel e' hmem hl
      rw [hF] at h
      cases h
      exact ⟨_, h1, rfl⟩
    · intro e' he' hperm
      rw [h1] at he'
      cases he'
      exact ⟨_, _, e, List.mem_singleton.mpr rfl, hle, hnf, hperm⟩
  · refine ⟨[.list s.src.ObjectMeta.Namespace (adapterSelector p s.src),
        .create s.src.ObjectMeta.Namespace (adb u)],
      by rw [h2, htr]; simp, by simp [Call.isList], by simp [Call.isCreate],
      by simp [Call.isUpdate], ?_, ?_, by simp, ?_⟩
    · intro ns sel e' hmem hl hne
      simp at hmem
      have h := hlistErr ns sel e' (by rw [hmem.1, hmem.2]) hl
      rw [hF] at h
      cases h
      rw [hnf] at hne
      cases hne
    · intro ns o e' _ _
      exact ⟨_, h1, rfl, rfl⟩
    · intro e' he' hperm
      rw [h1] at he'
      cases he'
      cases hperm
  · have hcs₀ : ∃ rest, cs₀ = .list s.src.ObjectMeta.Namespace (adapterSelector p s.src) :: rest ∧
        (∀ c' ∈ rest, Call.isList c' = false ∧ Call.isUpdate c' = false) ∧
        (rest.filter Call.isCreate).length ≤ 1 ∧
        (∀ ns o e', Call.create ns o ∈ rest → (r.Client ns).Create o = .error e' → False) ∧
        (∀ ns sel e', r.Lister ns sel = .error e' → apiIsNotFound e' = false →
          (findAdapter r p kind.gr s.src).1 = .error e' → False) := by
      rcases horig with ⟨hF, hcs⟩ | ⟨e, hF, hnf, hc, hcs⟩
      · refine ⟨[], hcs, by simp, by simp, by simp, ?_⟩
        intro ns sel e' _ _ h
        rw [hF] at h
        cases h
      · refine ⟨_, hcs, by simp [Call.isList, Call.isUpdate], by simp [Call.isCreate], ?_, ?_⟩
        · intro ns o e' hmem hfail
          simp at hmem
          rw [hmem.1, hmem.2, hc] at hfail
          cases hfail
        · intro ns sel e' _ hne h
          rw [hF] at h
          cases h
          rw [hnf] at hne
          cases hne
    obtain ⟨rest, hcs, hrest, hcreate, hcreated, hlisted⟩ := hcs₀
    have hfl : rest.filter Call.isList = [] := by
      rw [List.filter_eq_nil_iff]
      intro c' hc'
      simp [(hrest c' hc').1]
    have hfu : rest.filter Call.isUpdate = [] := by
      rw [List.filter_eq_nil_iff]
      intro c' hc'
      simp [(hrest c' hc').2]
    have hnoList : ∀ ns sel, (Call.list ns sel : Call (Obj σ τ)) ∉ rest := by
      intro ns sel hmem
      have := (hrest _ hmem).1
      simp [Call.isList] at this
    have hnoUpdate : ∀ ns o, (Call.update ns o : Call (Obj σ τ)) ∉ rest := by
      intro ns o hmem
      have := (hrest _ hmem).2
      simp [Call.isUpdate] at this
    have hlist : ∀ (cs' : List (Call (Obj σ τ))) ns sel e',
        (∀ ns sel, (Call.list ns sel : Call (Obj σ τ)) ∉ cs') →
        (Call.list ns sel : Call (Obj σ τ)) ∈ cs₀ ++ cs' →
        r.Lister ns sel = .error e' → apiIsNotFound e' = false → False := by
      intro cs' ns sel e' hcs' hmem hl hne
      rw [hcs] at hmem
      simp only [List.cons_append, List.mem_cons, List.mem_append] at hmem
      rcases hmem with hmem | hmem | hmem
      · exact hlisted ns sel e' hl hne (hlistErr ns sel e' hmem hl)
      · exact hnoList ns sel hmem
      · exact hcs' ns sel hmem
    rcases hsy with ⟨_, h1, h2⟩ | ⟨_, obj, _, ⟨e, ev, hu, hev, hperm, h1, h2⟩ | ⟨a, msg, hu, h1, h2⟩⟩
    · refine ⟨cs₀, by rw [h2, htr]; simp, ?_, ?_, ?_, ?_, ?_, ?_, ?_⟩
      · rw [hcs]
        simp [List.filter_cons, Call.isList, hfl]
      · rw [hcs]
        simpa [List.filter_cons, Call.isCreate] using hcreate
      · rw [hcs]
        simp [List.filter_cons, Call.isUpdate, hfu]
      · intro ns sel e' hmem hl hne
        exact absurd (hlist [] ns sel e' (by simp) (by simpa using hmem) hl hne) id
      · intro ns o e' hmem hfail
        rw [hcs] at hmem
        simp only [List.mem_cons] at hmem
        rcases hmem with hmem | hmem
        · cases hmem
        · exact absurd (hcreated ns o e' hmem hfail) id
      · intro ns o e' hmem _
        rw [hcs] at hmem
        simp only [List.mem_cons] at hmem
        rcases hmem with hmem | hmem
        · cases hmem
        · exact absurd hmem (hnoUpdate ns o)
      · intro e' he'
        rw [h1] at he'
        cases he'
    · refine ⟨cs₀ ++ [.update c.ObjectMeta.Namespace obj], by rw [h2, htr]; simp,
        ?_, ?_, ?_, ?_, ?_, ?_, ?_⟩
      · rw [hcs]
        simp [List.filter_cons, List.filter_append, Call.isList, hfl]
      · rw [hcs]
        simpa [List.filter_cons, List.filter_append, Call.isCreate] using hcreate
      · rw [hcs]
        simp [List.filter_cons, List.filter_append, Call.isUpdate, hfu]
      · intro ns sel e' hmem hl hne
        exact absurd (hlist _ ns sel e' (by simp) hmem hl hne) id
      · intro ns o e' hmem hfail
        rw [hcs] at hmem
        simp only [List.cons_append, List.mem_cons, List.mem_append, List.mem_singleton]
          at hmem
        rcases hmem with hmem | hmem | hmem
        · cases hmem
        · exact absurd (hcreated ns o e' hmem hfail) id
        · rcases hmem with hmem | hmem
          · cases hmem
          · cases hmem
      · intro ns o e' _ _
        exact ⟨_, h1, by simpa [asEvent] using hev, by simpa [IsPermanentError] using hperm⟩
      · intro e' he' hp
        rw [h1] at he'
        cases he'
        simp [IsPermanentError, hperm] at hp
    · refine ⟨cs₀ ++ [.update c.ObjectMeta.Namespace obj,
          .recordEvent .Normal .ReasonAdapterUpdate msg], by rw [h2, htr]; simp,
        ?_, ?_, ?_, ?_, ?_, ?_, ?_⟩
      · rw [hcs]
        simp [List.filter_cons, List.filter_append, Call.isList, hfl]
      · rw [hcs]
        simpa [List.filter_cons, List.filter_append, Call.isCreate] using hcreate
      · rw [hcs]
        simp [List.filter_cons, List.filter_append, Call.isUpdate, hfu]
      · intro ns sel e' hmem hl hne
        exact absurd (hlist _ ns sel e' (by simp) hmem hl hne) id
      · intro ns o e' hmem hfail
        rw [hcs] at hmem
        simp only [List.cons_append, List.mem_cons, List.mem_append] at hmem
        rcases hmem with hmem | hmem | hmem
        · cases hmem
        · exact absurd (hcreated ns o e' hmem hfail) id
        · rcases hmem with hmem | hmem
          · cases hmem
          · simp at hmem
      · intro ns o e' hmem hfail
        rw [hcs] at hmem
        simp only [List.cons_append, List.mem_cons, List.mem_append] at hmem
        rcases hmem with hmem | hmem | hmem
        · cases hmem
        · exact absurd hmem (hnoUpdate ns o)
        · rcases hmem with hmem | hmem
          · cases hmem
            rw [hu] at hfail
            cases hfail
          · simp at hmem
      · intro e' he'
        rw [h1] at he'
        cases he'

/-- C14, amended: in a pass where sink resolution succeeds, `ReconcileSource` of
both reconcilers returns an error for every failed lookup (other than
NotFound), create or update call, and issues each of the list, create and
update calls at most once, so a failed call is not retried in the pass.  The
error of a rejected create or update is not permanent; the error of a failed
lookup is the lister error under `%w` wrappers, permanent exactly when the
lister error is.  A permanent error is therefore returned only when sink
resolution fails or the lister itself fails with a permanent error. -/
theorem ReconcileSource_retryable
    (rd : GenericDeploymentReconciler) (pd : Package Deployment) (adbd : URL → Deployment)
    (std std₁ : Run Deployment) (ud : URL)
    (rs : GenericServiceReconciler) (ps : Package Service) (adbs : URL → Service)
    (sts sts₁ : Run Service) (us : URL)
    (hd : resolveSinkURL rd (setCloudEventAttributes pd std) = (.ok ud, std₁))
    (hs : resolveSinkURL rs (setCloudEventAttributes ps sts) = (.ok us, sts₁)) :
    RetryableFailures rd std₁ ud (GenericDeploymentReconciler.ReconcileSource rd pd adbd std) ∧
    RetryableFailures rs sts₁ us (GenericServiceReconciler.ReconcileSource rs ps adbs sts) :=
  ⟨ReconcileSource_adapter_failures rd pd .Deployment syncAdapterDeployment _ adbd std std₁ ud
      (syncAdapterDeployment_outcomes rd pd) hd,
   ReconcileSource_adapter_failures rs ps .Service syncAdapterService _ adbs sts sts₁ us
      (syncAdapterService_outcomes rs ps) hs⟩

/-- C14 at the example source, with a Deployment reconciler that updates its
adapter and a Service reconciler whose create call is rejected: the Service
pass returns the warning event of the failed create, which is not permanent,
after one list and one create call. -/
theorem ReconcileSource_retryable_witness :
    (GenericServiceReconciler.ReconcileSource rejectingBase
        (examplePackage Service specSemanticDeepEqual) desiredService
        ⟨exampleSource.asEventSource, []⟩).1.bind asEvent =
      some (.Warning, .ReasonFailedAdapterCreate) ∧
    (GenericServiceReconciler.ReconcileSource rejectingBase
        (examplePackage Service specSemanticDeepEqual) desiredService
        ⟨exampleSource.asEventSource, []⟩).1.map IsPermanentError = some false ∧
    (GenericServiceReconciler.ReconcileSource rejectingBase
        (examplePackage Service specSemanticDeepEqual) desiredService
        ⟨exampleSource.asEventSource, []⟩).2.trace.filter Call.isWorkloadCall =
      [.list "default" [(AppNameLabel, "awssnssource"), (AppInstanceLabel, "sns")],
       .create "default" (desiredService exampleSinkURL)] ∧
    RetryableFailures exampleDeploymentBase
      (resolveSinkURL exampleDeploymentBase (setCloudEventAttributes
        (examplePackage Deployment specSemanticDeepEqual) ⟨exampleSource.asEventSource, []⟩)).2
      ⟨"http", "sink.default.svc", "/"⟩
      (GenericDeploymentReconciler.ReconcileSource exampleDeploymentBase
        (examplePackage Deployment specSemanticDeepEqual) desiredDeployment
        ⟨exampleSource.asEventSource, []⟩) ∧
    RetryableFailures rejectingBase
      (resolveSinkURL rejectingBase (setCloudEventAttributes
        (examplePackage Service specSemanticDeepEqual) ⟨exampleSource.asEventSource, []⟩)).2
      ⟨"http", "sink.default.svc", "/"⟩
      (GenericServiceReconciler.ReconcileSource rejectingBase
        (examplePackage Service specSemanticDeepEqual) desiredService
        ⟨exampleSource.asEventSource, []⟩) :=
  ⟨rfl, rfl, rfl, ReconcileSource_retryable exampleDeploymentBase
    (examplePackage Deployment specSemanticDeepEqual) desiredDeployment
    ⟨exampleSource.asEventSource, []⟩ _ ⟨"http", "sink.default.svc", "/"⟩
    rejectingBase (examplePackage Service specSemanticDeepEqual) desiredService
    ⟨exampleSource.asEventSource, []⟩ _ ⟨"http", "sink.default.svc", "/"⟩
    rfl rfl⟩

/-- C14, as stated, fails: with a sink that resolves and a lister whose error
is a permanent error, `ReconcileSource` returns a permanent error after a
single list call, although sink resolution succeeded. -/
theorem ReconcileSource_lookup_error_permanent :
    (resolveSinkURL permanentListerDeploymentBase (setCloudEventAttributes
        (examplePackage Deployment specSemanticDeepEqual)
        ⟨exampleSource.asEventSource, []⟩)).1 = .ok ⟨"http", "sink.default.svc", "/"⟩ ∧
    (GenericDeploymentReconciler.ReconcileSource permanentListerDeploymentBase
        (examplePackage Deployment specSemanticDeepEqual) desiredDeployment
        ⟨exampleSource.asEventSource, []⟩).1 =
      some (.wrapped "failed to reconcile adapter: "
        (.wrapped "failed to get adapter Deployment from cache: "
          (.permanent (.plain "informer cache is closed")))) ∧
    IsPermanentError (.wrapped "failed to reconcile adapter: "
        (.wrapped "failed to get adapter Deployment from cache: "
          (.permanent (.plain "informer cache is closed")))) = true ∧
    ((GenericDeploymentReconciler.ReconcileSource permanentListerDeploymentBase
        (examplePackage Deployment specSemanticDeepEqual) desiredDeployment
        ⟨exampleSource.asEventSource, []⟩).2.trace.filter Call.isWorkloadCall) =
      [.list "default" [(AppNameLabel, "awssnssource"), (AppInstanceLabel, "sns")]] := by
  refine ⟨rfl, rfl, rfl, rfl⟩

/-! ## A second pass -/

theorem specSemanticDeepEqual_refl {σ τ : Type} [DecidableEq σ] (a : Obj σ τ) :
    specSemanticDeepEqual a a = true := by
  simp [specSemanticDeepEqual]

/-- Workloads equal in the sense of the spec have the same owner references. -/
theorem ownerReferences_of_specSemanticDeepEqual {σ τ : Type} [DecidableEq σ] (a b : Obj σ τ)
    (h : specSemanticDeepEqual a b = true) :
    a.ObjectMeta.OwnerReferences = b.ObjectMeta.OwnerReferences := by
  simp only [specSemanticDeepEqual, Bool.and_eq_true, decide_eq_true_eq] at h
  have h₂ := congrArg ObjectMeta.OwnerReferences h.2
  exact h₂

/-- Control by an owner is read off the owner references and the UID of the
owner. -/
theorem IsControlledBy_congr (a b o o' : ObjectMeta)
    (hrefs : a.OwnerReferences = b.OwnerReferences) (huid : o.UID = o'.UID) :
    IsControlledBy a o = IsControlledBy b o' := by
  simp [IsControlledBy, GetControllerOfNoCopy, hrefs, huid]

/-- Sink resolution leaves the metadata of the source alone, and starting from
an empty trace its only call is the one to the resolver. -/
theorem resolveSinkURL_state {W : Type} (r : GenericReconciler W) (p : Package W)
    (src : EventSource) (res : Except Err URL) (st₁ : Run W)
    (hsink : resolveSinkURL r (setCloudEventAttributes p ⟨src, []⟩) = (res, st₁)) :
    st₁.src.ObjectMeta = src.ObjectMeta ∧ st₁.trace = [.resolveSink st₁.src.Sink] := by
  have h := congrArg Prod.snd hsink
  simp only [resolveSinkURL, setCloudEventAttributes, Run.setStatus] at h
  rw [← h]
  exact ⟨rfl, rfl⟩

/-- A workload `findAdapter` returns is controlled by the source. -/
theorem findAdapter_controlled {σ τ : Type} (r : GenericReconciler (Obj σ τ))
    (p : Package (Obj σ τ)) (gr : String) (src : EventSource) (w : Obj σ τ)
    (hfound : (findAdapter r p gr src).1 = .ok w) :
    IsControlledBy w.ObjectMeta src.ObjectMeta = true := by
  cases hl : r.Lister src.ObjectMeta.Namespace (adapterSelector p src) with
  | error e =>
    rw [findAdapter_lister_ok r p gr src e hl] at hfound
    cases hfound
  | ok objs => exact (findAdapter_ok r p gr src objs w hl hfound).2

/-- In a list where the first element satisfying `P` also satisfies `q`,
replacing every element that satisfies `q` by an element `a` satisfying `P`
makes `a` the first element satisfying `P`. -/
theorem find?_map_replace {α : Type} (P : α → Bool) (q : α → Prop) [DecidablePred q] (a c : α)
    (l : List α) (hfind : l.find? P = some c) (hc : q c) (ha : P a = true) :
    (l.map (fun o => if q o then a else o)).find? P = some a := by
  induction l with
  | nil => simp at hfind
  | cons x xs ih =>
    simp only [List.map_cons, List.find?_cons] at hfind ⊢
    by_cases hq : q x
    · simp [hq, ha]
    · simp only [hq, if_false]
      cases hp : P x with
      | true =>
        rw [hp] at hfind
        simp only [Option.some.injEq] at hfind
        subst hfind
        exact absurd hc hq
      | false =>
        rw [hp] at hfind
        exact ih hfind

theorem sameUpToServerFields_refl {σ τ : Type} [DecidableEq σ] (a : Obj σ τ) :
    sameUpToServerFields a a = true := by
  simp [sameUpToServerFields, specSemanticDeepEqual]

/-- Equality in the sense of the spec is equality up to the server fields. -/
theorem sameUpToServerFields_of_spec {σ τ : Type} [DecidableEq σ] (a b : Obj σ τ)
    (h : specSemanticDeepEqual a b = true) : sameUpToServerFields a b = true := by
  simp only [specSemanticDeepEqual, Bool.and_eq_true, decide_eq_true_eq] at h
  simp only [sameUpToServerFields, specSemanticDeepEqual, Bool.and_eq_true, decide_eq_true_eq]
  refine ⟨h.1, ?_⟩
  have h₂ := h.2
  simp only [ObjectMeta.mk.injEq] at h₂ ⊢
  exact ⟨h₂.1, h₂.2.1, trivial, trivial, h₂.2.2.2.2.1, h₂.2.2.2.2.2.1, h₂.2.2.2.2.2.2⟩

theorem sameUpToServerFields_trans {σ τ : Type} [DecidableEq σ] (a b c : Obj σ τ)
    (hab : sameUpToServerFields a b = true) (hbc : sameUpToServerFields b c = true) :
    sameUpToServerFields a c = true := by
  simp only [sameUpToServerFields, specSemanticDeepEqual, Bool.and_eq_true,
    decide_eq_true_eq] at hab hbc ⊢
  exact ⟨hab.1.trans hbc.1, hab.2.trans hbc.2⟩

/-- Workloads equal up to the server fields have the same name and the same
owner references. -/
theorem name_owner_of_sameUpToServerFields {σ τ : Type} [DecidableEq σ] (a b : Obj σ τ)
    (h : sameUpToServerFields a b = true) :
    a.ObjectMeta.Name = b.ObjectMeta.Name ∧
    a.ObjectMeta.OwnerReferences = b.ObjectMeta.OwnerReferences := by
  simp only [sameUpToServerFields, specSemanticDeepEqual, Bool.and_eq_true,
    decide_eq_true_eq, ObjectMeta.mk.injEq] at h
  exact ⟨h.2.1, h.2.2.2.2.2.2.2⟩

/-- A pass whose lookup finds a workload semantically equal to the desired one
issues no create and no update call. -/
theorem ReconcileSource_converged {σ τ : Type} (r₂ : GenericReconciler (Obj σ τ))
    (p : Package (Obj σ τ)) (kind : WorkloadKind) (sync : SyncFn (Obj σ τ))
    (rel : Obj σ τ → Obj σ τ → Prop) (adb : URL → Obj σ τ) (src₂ : EventSource) (u : URL)
    (st₂ : Run (Obj σ τ)) (w : Obj σ τ)
    (hsync₂ : SyncOutcomes r₂ p sync rel)
    (hsink₂ : resolveSinkURL r₂ (setCloudEventAttributes p ⟨src₂, []⟩) = (.ok u, st₂))
    (hfound : (findAdapter r₂ p kind.gr (sinkResolved st₂ u).src).1 = .ok w)
    (heq : p.SemanticDeepEqual (adb u) w = true) :
    ∀ c ∈ (ReconcileSource r₂ p kind sync adb ⟨src₂, []⟩).2.trace,
      c.isCreate = false ∧ c.isUpdate = false := by
  obtain ⟨_, htr₂⟩ := resolveSinkURL_state r₂ p src₂ _ st₂ hsink₂
  have htr : (sinkResolved st₂ u).trace = [.resolveSink st₂.src.Sink, .build u] := by
    simp [sinkResolved, Run.calls, Run.setStatus, htr₂]
  rcases ReconcileSource_cases r₂ p kind sync rel adb ⟨src₂, []⟩ st₂ _ u hsync₂ hsink₂ rfl with
    ⟨e, hF, _⟩ | ⟨e, e₁, hF, _⟩ | ⟨c, cs₀, horig, hsy⟩
  · rw [hfound] at hF
    cases hF
  · rw [hfound] at hF
    cases hF
  · rcases horig with ⟨hF, hcs⟩ | ⟨e, hF, _⟩
    · rw [hfound] at hF
      cases hF
      rcases hsy with ⟨_, _, h2⟩ | ⟨hne, _⟩
      · rw [h2, htr, hcs]
        intro c hc
        simp at hc
        rcases hc with hc | hc | hc <;> simp [hc, Call.isCreate, Call.isUpdate]
      · rw [heq] at hne
        cases hne
    · rw [hfound] at hF
      cases hF

/-- The lookup of a pass whose lister answers `objs`: the first workload of
`objs` that the source controls, if there is one. -/
theorem findAdapter_listed {σ τ : Type} (r : GenericReconciler (Obj σ τ)) (p : Package (Obj σ τ))
    (gr : String) (src : EventSource) (objs : List (Obj σ τ))
    (hlist : r.Lister src.ObjectMeta.Namespace (adapterSelector p src) = .ok objs) :
    (∀ w, (findAdapter r p gr src).1 = .ok w ↔
      objs.find? (fun obj => IsControlledBy obj.ObjectMeta src.ObjectMeta) = some w) ∧
    ((∃ e, (findAdapter r p gr src).1 = .error e) ↔
      objs.find? (fun obj => IsControlledBy obj.ObjectMeta src.ObjectMeta) = none) := by
  rw [findAdapter_eq, hlist]
  simp only
  cases objs.find? (fun obj => IsControlledBy obj.ObjectMeta src.ObjectMeta) with
  | none => simp
  | some w => simp

/-- Two passes in succession, for a synchronisation method with the three
outcomes: under the premise `SuccessivePasses` the second pass issues no create
and no update call. -/
theorem ReconcileSource_second_pass {σ τ : Type} [DecidableEq σ]
    (r r₂ : GenericReconciler (Obj σ τ)) (p : Package (Obj σ τ)) (kind : WorkloadKind)
    (sync : SyncFn (Obj σ τ)) (adb : URL → Obj σ τ) (src src₂ : EventSource) (u : URL)
    (objs : List (Obj σ τ))
    (hsync : SyncOutcomes r p sync (fun d obj => specSemanticDeepEqual d obj = true))
    (hsync₂ : SyncOutcomes r₂ p sync (fun d obj => specSemanticDeepEqual d obj = true))
    (h : SuccessivePasses r r₂ p adb src src₂ u objs
      (ReconcileSource r p kind sync adb ⟨src, []⟩)) :
    ∀ c ∈ (ReconcileSource r₂ p kind sync adb ⟨src₂, []⟩).2.trace,
      c.isCreate = false ∧ c.isUpdate = false := by
  obtain ⟨hsink, hsink₂, hmeta, hlist, hlist₂, hok, hcreate, hupdate, hsem, hown, hname⟩ := h
  obtain ⟨st₁, hst₁⟩ : ∃ st, st = (resolveSinkURL r (setCloudEventAttributes p ⟨src, []⟩)).2 :=
    ⟨_, rfl⟩
  obtain ⟨st₂, hst₂⟩ : ∃ st, st = (resolveSinkURL r₂ (setCloudEventAttributes p ⟨src₂, []⟩)).2 :=
    ⟨_, rfl⟩
  have hsink' : resolveSinkURL r (setCloudEventAttributes p ⟨src, []⟩) = (.ok u, st₁) :=
    Prod.ext hsink hst₁.symm
  have hsink₂' : resolveSinkURL r₂ (setCloudEventAttributes p ⟨src₂, []⟩) = (.ok u, st₂) :=
    Prod.ext hsink₂ hst₂.symm
  obtain ⟨hmeta₁, htr₁⟩ := resolveSinkURL_state r p src _ st₁ hsink'
  obtain ⟨hmeta₂, _⟩ := resolveSinkURL_state r₂ p src₂ _ st₂ hsink₂'
  obtain ⟨s, hs⟩ : ∃ s, s = sinkResolved st₁ u := ⟨_, rfl⟩
  obtain ⟨s₂, hs₂⟩ : ∃ s, s = sinkResolved st₂ u := ⟨_, rfl⟩
  have hsrc : sourceAtLookup r p src u = s.src := by
    rw [hs, hst₁]
    rfl
  have hsrc₂ : sourceAtLookup r₂ p src₂ u = s₂.src := by
    rw [hs₂, hst₂]
    rfl
  have hm : s.src.ObjectMeta = src.ObjectMeta := by
    rw [hs]
    simpa [sinkResolved, Run.calls, Run.setStatus] using hmeta₁
  have hm₂' : s₂.src.ObjectMeta = src₂.ObjectMeta := by
    rw [hs₂]
    simpa [sinkResolved, Run.calls, Run.setStatus] using hmeta₂
  have hm₂ : s₂.src.ObjectMeta = src.ObjectMeta := hm₂'.trans hmeta
  have htr : s.trace = [.resolveSink st₁.src.Sink, .build u] := by
    simp [hs, sinkResolved, Run.calls, Run.setStatus, htr₁]
  rw [hsrc, ← hm] at hlist
  rw [hsrc₂, ← hm₂'] at hlist₂
  obtain ⟨hfound₁, hnone₁⟩ := findAdapter_listed r p kind.gr s.src objs hlist
  rw [hm] at hfound₁ hnone₁
  have hsecond : ∀ w,
      (storeAfter r.Client objs (ReconcileSource r p kind sync adb ⟨src, []⟩).2.trace).find?
        (fun obj => IsControlledBy obj.ObjectMeta src.ObjectMeta) = some w →
      p.SemanticDeepEqual (adb u) w = true →
      ∀ c ∈ (ReconcileSource r₂ p kind sync adb ⟨src₂, []⟩).2.trace,
        c.isCreate = false ∧ c.isUpdate = false := by
    intro w hw heq
    have hf := (findAdapter_listed r₂ p kind.gr s₂.src _ hlist₂).1 w
    rw [hm₂] at hf
    exact ReconcileSource_converged r₂ p kind sync _ adb src₂ u st₂ w hsync₂ hsink₂'
      (by rw [← hs₂]; exact hf.mpr hw) heq
  have hctl : ∀ a : Obj σ τ, sameUpToServerFields (adb u) a = true →
      IsControlledBy a.ObjectMeta src.ObjectMeta = true := by
    intro a ha
    rw [← hown]
    exact IsControlledBy_congr _ _ _ _ (name_owner_of_sameUpToServerFields _ _ ha).2.symm rfl
  rcases ReconcileSource_cases r p kind sync _ adb ⟨src, []⟩ st₁ s u hsync hsink' hs with
    ⟨e, _, _, h1, _⟩ | ⟨e, e₁, _, _, _, h1, _⟩ | ⟨c, cs₀, horig, hsy⟩
  · rw [h1] at hok
    cases hok
  · rw [h1] at hok
    cases hok
  · rcases horig with ⟨hF, hcs⟩ | ⟨e, hF, _, hc, hcs⟩
    · have hfind := (hfound₁ c).mp hF
      rcases hsy with ⟨heq, _, h2⟩ | ⟨_, obj, hrel, ⟨e, ev, _, _, _, h1, _⟩ | ⟨a, msg, hu, _, h2⟩⟩
      · apply hsecond c _ heq
        rw [h2, htr, hcs]
        simpa [storeAfter, storeStep] using hfind
      · rw [h1] at hok
        cases hok
      · have hobj := sameUpToServerFields_of_spec _ _ hrel
        have ha := sameUpToServerFields_trans _ _ _ hobj (hupdate _ _ _ hu)
        apply hsecond a _ (hsem _ _ ha)
        rw [h2, htr, hcs]
        have hcn : c.ObjectMeta.Name = obj.ObjectMeta.Name := by
          rw [hname c (List.mem_of_find?_eq_some hfind) (by simpa using List.find?_some hfind)]
          exact (name_owner_of_sameUpToServerFields _ _ hobj).1
        simp only [storeAfter, List.foldl_append, List.foldl_cons, List.foldl_nil, storeStep, hu]
        exact find?_map_replace _ (fun o => o.ObjectMeta.Name = obj.ObjectMeta.Name) a c objs
          hfind hcn (hctl a ha)
    · have hnone : objs.find? (fun obj => IsControlledBy obj.ObjectMeta src.ObjectMeta) = none :=
        hnone₁.mp ⟨e, hF⟩
      have hc' : (r.Client src.ObjectMeta.Namespace).Create (adb u) = .ok c := by
        rw [← hm]
        exact hc
      have hcsame := hcreate _ _ _ hc'
      have heq := hsem _ _ hcsame
      rcases hsy with ⟨_, _, h2⟩ | ⟨hne, _⟩
      · apply hsecond c _ heq
        rw [h2, htr, hcs, hm]
        simp only [storeAfter, List.foldl_append, List.foldl_cons, List.foldl_nil, storeStep, hc']
        rw [List.find?_append, hnone]
        simp [hctl c hcsame]
      · rw [heq] at hne
        cases hne

/-- C12, amended: two calls of `ReconcileSource` in succession with no external
state change, for both reconcilers.  The first call returned no error; the
lister reflects the store in both calls, and after the first call the store
holds what the API answered to its writes, which is the written workload up to
the fields the server manages, ignored by the semantic equality; the sink
resolves to the same address and the builder is the same, its workload being
controlled by the source and named as the stored adapter.  Then the second call
issues no create and no update call. -/
theorem ReconcileSource_idempotent
    (rd rd₂ : GenericDeploymentReconciler) (pd : Package Deployment) (adbd : URL → Deployment)
    (srcd srcd₂ : EventSource) (ud : URL) (objsd : List Deployment)
    (rs rs₂ : GenericServiceReconciler) (ps : Package Service) (adbs : URL → Service)
    (srcs srcs₂ : EventSource) (us : URL) (objss : List Service)
    (hd : SuccessivePasses rd rd₂ pd adbd srcd srcd₂ ud objsd
      (GenericDeploymentReconciler.ReconcileSource rd pd adbd ⟨srcd, []⟩))
    (hs : SuccessivePasses rs rs₂ ps adbs srcs srcs₂ us objss
      (GenericServiceReconciler.ReconcileSource rs ps adbs ⟨srcs, []⟩)) :
    (∀ c ∈ (GenericDeploymentReconciler.ReconcileSource rd₂ pd adbd ⟨srcd₂, []⟩).2.trace,
      c.isCreate = false ∧ c.isUpdate = false) ∧
    (∀ c ∈ (GenericServiceReconciler.ReconcileSource rs₂ ps adbs ⟨srcs₂, []⟩).2.trace,
      c.isCreate = false ∧ c.isUpdate = false) :=
  ⟨ReconcileSource_second_pass rd rd₂ pd .Deployment syncAdapterDeployment adbd srcd srcd₂ ud
      objsd (syncAdapterDeployment_outcomes rd pd) (syncAdapterDeployment_outcomes rd₂ pd) hd,
   ReconcileSource_second_pass rs rs₂ ps .Service syncAdapterService adbs srcs srcs₂ us
      objss (syncAdapterService_outcomes rs ps) (syncAdapterService_outcomes rs₂ ps) hs⟩

/-- C12 at the example source.  The first Deployment pass finds the example
Deployment in the store and updates it, the first Service pass finds an empty
store and creates the Service; each second pass runs on the source as the first
left it, over the store as the first left it, and writes nothing. -/
theorem ReconcileSource_idempotent_witness :
    storeAfter (storeDeploymentBase [exampleDeployment]).Client [exampleDeployment]
        (GenericDeploymentReconciler.ReconcileSource (storeDeploymentBase [exampleDeployment])
          (examplePackage Deployment sameUpToServerFields) desiredDeployment
          ⟨exampleSource.asEventSource, []⟩).2.trace =
      [{ desiredDeployment exampleSinkURL with
          ObjectMeta := { (desiredDeployment exampleSinkURL).ObjectMeta with
            UID := "uid-7", ResourceVersion := "42" }
          Status := ⟨1, true⟩ }] ∧
    storeAfter (storeServiceBase []).Client []
        (GenericServiceReconciler.ReconcileSource (storeServiceBase [])
          (examplePackage Service sameUpToServerFields) desiredService
          ⟨exampleSource.asEventSource, []⟩).2.trace =
      [{ desiredService exampleSinkURL with
          ObjectMeta := { (desiredService exampleSinkURL).ObjectMeta with
            UID := "uid-7", ResourceVersion := "42" } }] ∧
    (∀ c ∈ (GenericDeploymentReconciler.ReconcileSource
        (storeDeploymentBase
          (storeAfter (storeDeploymentBase [exampleDeployment]).Client [exampleDeployment]
            (GenericDeploymentReconciler.ReconcileSource (storeDeploymentBase [exampleDeployment])
              (examplePackage Deployment sameUpToServerFields) desiredDeployment
              ⟨exampleSource.asEventSource, []⟩).2.trace))
        (examplePackage Deployment sameUpToServerFields) desiredDeployment
        ⟨(GenericDeploymentReconciler.ReconcileSource (storeDeploymentBase [exampleDeployment])
          (examplePackage Deployment sameUpToServerFields) desiredDeployment
          ⟨exampleSource.asEventSource, []⟩).2.src, []⟩).2.trace,
      c.isCreate = false ∧ c.isUpdate = false) ∧
    (∀ c ∈ (GenericServiceReconciler.ReconcileSource
        (storeServiceBase
          (storeAfter (storeServiceBase []).Client []
            (GenericServiceReconciler.ReconcileSource (storeServiceBase [])
              (examplePackage Service sameUpToServerFields) desiredService
              ⟨exampleSource.asEventSource, []⟩).2.trace))
        (examplePackage Service sameUpToServerFields) desiredService
        ⟨(GenericServiceReconciler.ReconcileSource (storeServiceBase [])
          (examplePackage Service sameUpToServerFields) desiredService
          ⟨exampleSource.asEventSource, []⟩).2.src, []⟩).2.trace,
      c.isCreate = false ∧ c.isUpdate = false) :=
  ⟨rfl, rfl,
   ReconcileSource_idempotent
    (storeDeploymentBase [exampleDeployment])
    (storeDeploymentBase
      (storeAfter (storeDeploymentBase [exampleDeployment]).Client [exampleDeployment]
        (GenericDeploymentReconciler.ReconcileSource (storeDeploymentBase [exampleDeployment])
          (examplePackage Deployment sameUpToServerFields) desiredDeployment
          ⟨exampleSource.asEventSource, []⟩).2.trace))
    (examplePackage Deployment sameUpToServerFields) desiredDeployment
    exampleSource.asEventSource
    (GenericDeploymentReconciler.ReconcileSource (storeDeploymentBase [exampleDeployment])
      (examplePackage Deployment sameUpToServerFields) desiredDeployment
      ⟨exampleSource.asEventSource, []⟩).2.src
    exampleSinkURL [exampleDeployment]
    (storeServiceBase [])
    (storeServiceBase
      (storeAfter (storeServiceBase []).Client []
        (GenericServiceReconciler.ReconcileSource (storeServiceBase [])
          (examplePackage Service sameUpToServerFields) desiredService
          ⟨exampleSource.asEventSource, []⟩).2.trace))
    (examplePackage Service sameUpToServerFields) desiredService
    exampleSource.asEventSource
    (GenericServiceReconciler.ReconcileSource (storeServiceBase [])
      (examplePackage Service sameUpToServerFields) desiredService
      ⟨exampleSource.asEventSource, []⟩).2.src
    exampleSinkURL []
    ⟨rfl, rfl, rfl, rfl, rfl, rfl,
      (fun _ obj a h => by
        cases h; simp [sameUpToServerFields, specSemanticDeepEqual, assignMeta]),
      (fun _ obj a h => by
        cases h; simp [sameUpToServerFields, specSemanticDeepEqual, assignMeta]),
      (fun _ _ h => h), (by decide),
      (fun o ho _ => by simp at ho; subst ho; rfl)⟩
    ⟨rfl, rfl, rfl, rfl, rfl, rfl,
      (fun _ obj a h => by
        cases h; simp [sameUpToServerFields, specSemanticDeepEqual, assignMeta]),
      (fun _ obj a h => by
        cases h; simp [sameUpToServerFields, specSemanticDeepEqual, assignMeta]),
      (fun _ _ h => h), (by decide),
      (fun o ho _ => by simp at ho)⟩⟩

/-- C12, as stated, fails: the first pass finds an empty store and its create
call is rejected, so the store still holds nothing; the second pass, on the
source as the first left it and with the same lister, sink, builder and client,
issues the create call again. -/
theorem ReconcileSource_rejected_create_repeated :
    (GenericServiceReconciler.ReconcileSource rejectingBase
        (examplePackage Service specSemanticDeepEqual) desiredService
        ⟨exampleSource.asEventSource, []⟩).1.bind asEvent =
      some (.Warning, .ReasonFailedAdapterCreate) ∧
    storeAfter rejectingBase.Client []
        (GenericServiceReconciler.ReconcileSource rejectingBase
          (examplePackage Service specSemanticDeepEqual) desiredService
          ⟨exampleSource.asEventSource, []⟩).2.trace = [] ∧
    rejectingBase.Lister "default"
        [(AppNameLabel, "awssnssource"), (AppInstanceLabel, "sns")] = .ok [] ∧
    (GenericServiceReconciler.ReconcileSource rejectingBase
        (examplePackage Service specSemanticDeepEqual) desiredService
        ⟨(GenericServiceReconciler.ReconcileSource rejectingBase
          (examplePackage Service specSemanticDeepEqual) desiredService
          ⟨exampleSource.asEventSource, []⟩).2.src, []⟩).2.trace.filter Call.isCreate =
      [.create "default" (desiredService exampleSinkURL)] := by
  refine ⟨rfl, rfl, rfl, rfl⟩

/-! ## Resolving credentials -/

/-- The outcomes of `awsCredentials` when the access key is given inline. -/
theorem awsCredentials_inline_id (cli : String → Except Err Secret)
    (creds : AWSSecurityCredentials) (h₁ : creds.AccessKeyID.ValueFromSecret = none) :
    awsCredentials cli creds =
      match creds.SecretAccessKey.ValueFromSecret with
      | some vfs =>
        match cli vfs.Name with
        | .error err => (.error err, [.getSecret vfs.Name])
        | .ok secr =>
          (.ok ⟨creds.AccessKeyID.Value, secr.value vfs.Key⟩, [.getSecret vfs.Name])
      | none => (.ok ⟨creds.AccessKeyID.Value, creds.SecretAccessKey.Value⟩, []) := by
  simp only [awsCredentials, h₁]
  cases creds.SecretAccessKey.ValueFromSecret with
  | none => rfl
  | some vfs =>
    simp only [List.lookup]
    cases cli vfs.Name <;> rfl

/-- The outcomes of `awsCredentials` when the access key references a Secret. -/
theorem awsCredentials_secret_id (cli : String → Except Err Secret)
    (creds : AWSSecurityCredentials) (s₁ : SecretKeySelector)
    (h₁ : creds.AccessKeyID.ValueFromSecret = some s₁) :
    awsCredentials cli creds =
      match cli s₁.Name with
      | .error err => (.error err, [.getSecret s₁.Name])
      | .ok secr₁ =>
        match creds.SecretAccessKey.ValueFromSecret with
        | some vfs =>
          if vfs.Name = s₁.Name then
            (.ok ⟨secr₁.value s₁.Key, secr₁.value vfs.Key⟩, [.getSecret s₁.Name])
          else
            match cli vfs.Name with
            | .error err => (.error err, [.getSecret s₁.Name, .getSecret vfs.Name])
            | .ok secr =>
              (.ok ⟨secr₁.value s₁.Key, secr.value vfs.Key⟩,
                [.getSecret s₁.Name, .getSecret vfs.Name])
        | none => (.ok ⟨secr₁.value s₁.Key, creds.SecretAccessKey.Value⟩, [.getSecret s₁.Name]) := by
  simp only [awsCredentials, h₁]
  cases cli s₁.Name with
  | error err => rfl
  | ok secr₁ =>
    simp only
    cases creds.SecretAccessKey.ValueFromSecret with
    | none => rfl
    | some vfs =>
      simp only [List.lookup]
      by_cases hn : vfs.Name = s₁.Name
      · simp [hn]
      · have hb : (vfs.Name == s₁.Name) = false := by simpa using hn
        simp only [hb, hn, if_false]
        cases cli vfs.Name <;> rfl

/-- C15: when the access key and the secret key reference the same named
Secret, `awsCredentials` fetches it exactly once, whatever the lookup answers,
and on success reads both values from the one fetched object; when they
reference Secrets of different names, the first is fetched once and, the first
lookup having succeeded, the second is fetched once (after a failed first
lookup the function returns at once). -/
theorem awsCredentials_single_fetch (cli : String → Except Err Secret)
    (creds : AWSSecurityCredentials) (s₁ s₂ : SecretKeySelector)
    (h₁ : creds.AccessKeyID.ValueFromSecret = some s₁)
    (h₂ : creds.SecretAccessKey.ValueFromSecret = some s₂) :
    (s₁.Name = s₂.Name →
      (awsCredentials cli creds).2 = [.getSecret s₁.Name] ∧
      ∀ secr, cli s₁.Name = .ok secr →
        (awsCredentials cli creds).1 = .ok ⟨secr.value s₁.Key, secr.value s₂.Key⟩) ∧
    (s₁.Name ≠ s₂.Name →
      (∀ secr, cli s₁.Name = .ok secr →
        (awsCredentials cli creds).2 = [.getSecret s₁.Name, .getSecret s₂.Name]) ∧
      (∀ e, cli s₁.Name = .error e →
        (awsCredentials cli creds).2 = [.getSecret s₁.Name])) := by
  rw [awsCredentials_secret_id cli creds s₁ h₁, h₂]
  constructor
  · intro hn
    cases hc : cli s₁.Name with
    | error e => exact ⟨rfl, fun secr h => by cases h⟩
    | ok secr₁ =>
      refine ⟨?_, ?_⟩
      · simp [hn.symm]
      · intro secr h
        cases h
        simp [hn.symm]
  · intro hn
    have hn' : ¬ s₂.Name = s₁.Name := fun h => hn h.symm
    constructor
    · intro secr hc
      simp only [hc, hn', if_false]
      cases cli s₂.Name <;> rfl
    · intro e hc
      simp only [hc]

/-- C15 at a specification whose two fields reference keys of the Secret
`aws-creds`. -/
theorem awsCredentials_single_fetch_witness :
    (awsCredentials credsCli sharedSecretCreds).2 = [.getSecret "aws-creds"] ∧
    (awsCredentials credsCli sharedSecretCreds).1 = .ok ⟨"AKIA", "s3cr3t"⟩ :=
  ⟨((awsCredentials_single_fetch credsCli sharedSecretCreds ⟨"aws-creds", "keyId"⟩
      ⟨"aws-creds", "secret"⟩ rfl rfl).1 rfl).1,
   ((awsCredentials_single_fetch credsCli sharedSecretCreds ⟨"aws-creds", "keyId"⟩
      ⟨"aws-creds", "secret"⟩ rfl rfl).1 rfl).2 ⟨[("keyId", "AKIA"), ("secret", "s3cr3t")]⟩ rfl⟩

/-- C16: when the secret lookups a credential specification needs succeed,
`awsCredentials` returns the resolved pair: a field with a secret reference is
the value the data of the fetched Secret binds to the referenced key, whatever
its inline literal, and the empty string when the data has no such key; a field
without reference is its inline literal; with no secret reference at all no
lookup is made. -/
theorem awsCredentials_resolved (cli : String → Except Err Secret)
    (creds : AWSSecurityCredentials)
    (h₁ : ∀ s, creds.AccessKeyID.ValueFromSecret = some s → ∃ secr, cli s.Name = .ok secr)
    (h₂ : ∀ s, creds.SecretAccessKey.ValueFromSecret = some s → ∃ secr, cli s.Name = .ok secr) :
    ∃ v, (awsCredentials cli creds).1 = .ok v ∧
      (∀ s secr, creds.AccessKeyID.ValueFromSecret = some s → cli s.Name = .ok secr →
        (∀ val, List.lookup s.Key secr.Data = some val → v.AccessKeyID = val) ∧
        (List.lookup s.Key secr.Data = none → v.AccessKeyID = "")) ∧
      (creds.AccessKeyID.ValueFromSecret = none → v.AccessKeyID = creds.AccessKeyID.Value) ∧
      (∀ s secr, creds.SecretAccessKey.ValueFromSecret = some s → cli s.Name = .ok secr →
        (∀ val, List.lookup s.Key secr.Data = some val → v.SecretAccessKey = val) ∧
        (List.lookup s.Key secr.Data = none → v.SecretAccessKey = "")) ∧
      (creds.SecretAccessKey.ValueFromSecret = none →
        v.SecretAccessKey = creds.SecretAccessKey.Value) ∧
      (creds.AccessKeyID.ValueFromSecret = none →
        creds.SecretAccessKey.ValueFromSecret = none → (awsCredentials cli creds).2 = []) := by
  have hval : ∀ (secr : Secret) (key : String),
      (∀ val, List.lookup key secr.Data = some val → secr.value key = val) ∧
      (List.lookup key secr.Data = none → secr.value key = "") := by
    intro secr key
    constructor
    · intro val h
      simp [Secret.value, mapGet, h]
    · intro h
      simp [Secret.value, mapGet, h]
  cases ha : creds.AccessKeyID.ValueFromSecret with
  | none =>
    rw [awsCredentials_inline_id cli creds ha]
    cases hs : creds.SecretAccessKey.ValueFromSecret with
    | none =>
      exact ⟨_, rfl, (fun s secr h => by cases h), fun _ => rfl, (fun s secr h => by cases h),
        fun _ => rfl, fun _ _ => rfl⟩
    | some s₂ =>
      obtain ⟨secr₂, hc₂⟩ := h₂ s₂ hs
      simp only [hc₂]
      refine ⟨_, rfl, (fun s secr h => by cases h), fun _ => rfl, ?_, (fun h => by cases h),
        (fun _ h => by cases h)⟩
      intro s secr h hc
      cases h
      rw [hc₂] at hc
      cases hc
      exact hval _ _
  | some s₁ =>
    rw [awsCredentials_secret_id cli creds s₁ ha]
    obtain ⟨secr₁, hc₁⟩ := h₁ s₁ ha
    have hid : ∀ s secr, some s₁ = some s → cli s.Name = .ok secr →
        (∀ val, List.lookup s.Key secr.Data = some val → secr₁.value s₁.Key = val) ∧
        (List.lookup s.Key secr.Data = none → secr₁.value s₁.Key = "") := by
      intro s secr h hc
      cases h
      rw [hc₁] at hc
      cases hc
      exact hval _ _
    simp only [hc₁]
    cases hs : creds.SecretAccessKey.ValueFromSecret with
    | none =>
      exact ⟨_, rfl, hid, (fun h => by cases h), (fun s secr h => by cases h), fun _ => rfl,
        (fun h => by cases h)⟩
    | some s₂ =>
      simp only
      by_cases hn : s₂.Name = s₁.Name
      · rw [if_pos hn]
        refine ⟨_, rfl, hid, (fun h => by cases h), ?_, (fun h => by cases h),
          (fun h => by cases h)⟩
        intro s secr h hc
        cases h
        rw [hn, hc₁] at hc
        cases hc
        exact hval _ _
      · rw [if_neg hn]
        obtain ⟨secr₂, hc₂⟩ := h₂ s₂ hs
        simp only [hc₂]
        refine ⟨_, rfl, hid, (fun h => by cases h), ?_, (fun h => by cases h),
          (fun h => by cases h)⟩
        intro s secr h hc
        cases h
        rw [hc₂] at hc
        cases hc
        exact hval _ _

/-- C16 at a specification whose two fields reference the keys `keyId` and
`secret` of the Secret `aws-creds` and also carry inline literals: the pair
holds the two values of the Secret, not the literals; and at a specification
whose access key references a key the Secret does not hold: the access key is
the empty string. -/
theorem awsCredentials_resolved_witness :
    (∃ v, (awsCredentials credsCli sharedSecretCreds).1 = .ok v ∧
      v.AccessKeyID = "AKIA" ∧ v.SecretAccessKey = "s3cr3t") ∧
    (∃ v, (awsCredentials credsCli
        ⟨⟨"inline-id", some ⟨"aws-creds", "absent"⟩⟩, ⟨"inline-key", none⟩⟩).1 = .ok v ∧
      v.AccessKeyID = "" ∧ v.SecretAccessKey = "inline-key") :=
  ⟨(awsCredentials_resolved credsCli sharedSecretCreds
      (fun s h => by cases h; exact ⟨_, rfl⟩) (fun s h => by cases h; exact ⟨_, rfl⟩)).elim
      (fun v h => ⟨v, h.1,
        (h.2.1 ⟨"aws-creds", "keyId"⟩ ⟨[("keyId", "AKIA"), ("secret", "s3cr3t")]⟩ rfl rfl).1
          "AKIA" rfl,
        (h.2.2.2.1 ⟨"aws-creds", "secret"⟩ ⟨[("keyId", "AKIA"), ("secret", "s3cr3t")]⟩ rfl
          rfl).1 "s3cr3t" rfl⟩),
   (awsCredentials_resolved credsCli
      ⟨⟨"inline-id", some ⟨"aws-creds", "absent"⟩⟩, ⟨"inline-key", none⟩⟩
      (fun s h => by cases h; exact ⟨_, rfl⟩) (fun s h => by cases h)).elim
      (fun v h => ⟨v, h.1,
        (h.2.1 ⟨"aws-creds", "absent"⟩ ⟨[("keyId", "AKIA"), ("secret", "s3cr3t")]⟩ rfl rfl).2
          rfl,
        h.2.2.2.2.1 rfl⟩)⟩

/-- The five shapes of a run of `awsCredentials`: no lookup; one lookup that
succeeds or fails; two lookups of Secrets of different names, the first of
which succeeded. -/
theorem awsCredentials_shape (cli : String → Except Err Secret)
    (creds : AWSSecurityCredentials) :
    (∃ v, awsCredentials cli creds = (.ok v, [])) ∨
    (∃ n secr v, cli n = .ok secr ∧ awsCredentials cli creds = (.ok v, [.getSecret n])) ∨
    (∃ n e, cli n = .error e ∧ awsCredentials cli creds = (.error e, [.getSecret n])) ∨
    (∃ n₁ n₂ secr₁ secr₂ v, n₁ ≠ n₂ ∧ cli n₁ = .ok secr₁ ∧ cli n₂ = .ok secr₂ ∧
      awsCredentials cli creds = (.ok v, [.getSecret n₁, .getSecret n₂])) ∨
    (∃ n₁ n₂ secr₁ e, n₁ ≠ n₂ ∧ cli n₁ = .ok secr₁ ∧ cli n₂ = .error e ∧
      awsCredentials cli creds = (.error e, [.getSecret n₁, .getSecret n₂])) := by
  cases ha : creds.AccessKeyID.ValueFromSecret with
  | none =>
    rw [awsCredentials_inline_id cli creds ha]
    cases hs : creds.SecretAccessKey.ValueFromSecret with
    | none => exact Or.inl ⟨_, rfl⟩
    | some s₂ =>
      simp only
      cases hc₂ : cli s₂.Name with
      | error e₂ => exact Or.inr (Or.inr (Or.inl ⟨s₂.Name, e₂, hc₂, rfl⟩))
      | ok secr₂ => exact Or.inr (Or.inl ⟨s₂.Name, secr₂, _, hc₂, rfl⟩)
  | some s₁ =>
    rw [awsCredentials_secret_id cli creds s₁ ha]
    cases hc₁ : cli s₁.Name with
    | error e₁ => exact Or.inr (Or.inr (Or.inl ⟨s₁.Name, e₁, hc₁, rfl⟩))
    | ok secr₁ =>
      cases hs : creds.SecretAccessKey.ValueFromSecret with
      | none => exact Or.inr (Or.inl ⟨s₁.Name, secr₁, _, hc₁, rfl⟩)
      | some s₂ =>
        simp only
        by_cases hn : s₂.Name = s₁.Name
        · rw [if_pos hn]
          exact Or.inr (Or.inl ⟨s₁.Name, secr₁, _, hc₁, rfl⟩)
        · rw [if_neg hn]
          have hn' : s₁.Name ≠ s₂.Name := fun h => hn h.symm
          cases hc₂ : cli s₂.Name with
          | error e₂ =>
            exact Or.inr (Or.inr (Or.inr (Or.inr ⟨s₁.Name, s₂.Name, secr₁, e₂, hn', hc₁, hc₂, rfl⟩)))
          | ok secr₂ =>
            exact Or.inr (Or.inr (Or.inr (Or.inl
              ⟨s₁.Name, s₂.Name, secr₁, secr₂, _, hn', hc₁, hc₂, rfl⟩)))

/-- C17: `awsCredentials` fails with an error exactly when a lookup it performs
fails with that error; no Secret is looked up twice, the failed lookup is the
last call and every lookup before it succeeded.  `newSNSClient` surfaces the
error wrapped, which leaves its classification by `isNotFound` unchanged: a
lookup that reported that the Secret does not exist is classified as
not-found, and a lookup error of the Kubernetes client (which carries no AWS
error) is classified as not-found only in that case. -/
theorem awsCredentials_failure (cli : String → Except Err Secret)
    (creds : AWSSecurityCredentials) (region : String) :
    (∀ e, (awsCredentials cli creds).1 = .error e ↔
      ∃ name, .getSecret name ∈ (awsCredentials cli creds).2 ∧ cli name = .error e) ∧
    (awsCredentials cli creds).2.Nodup ∧
    (awsCredentials cli creds).2.length ≤ 2 ∧
    (∀ e, (awsCredentials cli creds).1 = .error e →
      ∃ pre name, (awsCredentials cli creds).2 = pre ++ [.getSecret name] ∧
        cli name = .error e ∧
        ∀ n, .getSecret n ∈ pre → ∃ secr, cli n = .ok secr) ∧
    (newSNSClient cli region creds).2 = (awsCredentials cli creds).2 ∧
    (∀ e, (awsCredentials cli creds).1 = .error e →
      (newSNSClient cli region creds).1 =
        .error (.wrapped "reading AWS security credentials: " e) ∧
      isNotFound (.wrapped "reading AWS security credentials: " e) = isNotFound e ∧
      (apiIsNotFound e = true →
        isNotFound (.wrapped "reading AWS security credentials: " e) = true) ∧
      (asAWSError e = none →
        (isNotFound (.wrapped "reading AWS security credentials: " e) = true ↔
          apiIsNotFound e = true))) := by
  have hclass : ∀ e, (awsCredentials cli creds).1 = .error e →
      (newSNSClient cli region creds).1 =
        .error (.wrapped "reading AWS security credentials: " e) ∧
      isNotFound (.wrapped "reading AWS security credentials: " e) = isNotFound e ∧
      (apiIsNotFound e = true →
        isNotFound (.wrapped "reading AWS security credentials: " e) = true) ∧
      (asAWSError e = none →
        (isNotFound (.wrapped "reading AWS security credentials: " e) = true ↔
          apiIsNotFound e = true)) := by
    intro e he
    refine ⟨?_, rfl, fun h => isNotFound_of_apiIsNotFound e h, ?_⟩
    · rcases hc : awsCredentials cli creds with ⟨res, cs⟩
      rw [hc] at he
      simp only at he
      subst he
      simp [newSNSClient, hc]
    · intro haws
      rw [isNotFound_wrapped]
      simp only [isNotFound, apiIsNotFound, haws]
  have hcalls : (newSNSClient cli region creds).2 = (awsCredentials cli creds).2 := by
    rcases hc : awsCredentials cli creds with ⟨res, cs⟩
    cases res <;> simp [newSNSClient, hc]
  rcases awsCredentials_shape cli creds with ⟨v, h⟩ | ⟨n, secr, v, hc, h⟩ | ⟨n, e, hc, h⟩ |
    ⟨n₁, n₂, secr₁, secr₂, v, hn, hc₁, hc₂, h⟩ | ⟨n₁, n₂, secr₁, e, hn, hc₁, hc₂, h⟩
  · refine ⟨?_, ?_, ?_, ?_, hcalls, hclass⟩ <;> simp [h]
  · refine ⟨?_, ?_, ?_, ?_, hcalls, hclass⟩ <;> simp [h, hc]
  · refine ⟨?_, ?_, ?_, ?_, hcalls, hclass⟩
    · simp [h, hc]
    · simp [h]
    · simp [h]
    · intro e' he'
      rw [h] at he'
      cases he'
      exact ⟨[], n, by rw [h]; rfl, hc, by simp⟩
  · refine ⟨?_, ?_, ?_, ?_, hcalls, hclass⟩
    · intro e'
      simp only [h]
      constructor
      · intro he'; cases he'
      · rintro ⟨name, hmem, hfail⟩
        simp at hmem
        rcases hmem with rfl | rfl
        · rw [hc₁] at hfail; cases hfail
        · rw [hc₂] at hfail; cases hfail
    · simp [h, hn]
    · simp [h]
    · intro e' he'
      rw [h] at he'
      cases he'
  · refine ⟨?_, ?_, ?_, ?_, hcalls, hclass⟩
    · intro e'
      simp only [h]
      constructor
      · intro he'
        cases he'
        exact ⟨n₂, by simp, hc₂⟩
      · rintro ⟨name, hmem, hfail⟩
        simp at hmem
        rcases hmem with rfl | rfl
        · rw [hc₁] at hfail; cases hfail
        · rw [hc₂] at hfail; cases hfail; rfl
    · simp [h, hn]
    · simp [h]
    · intro e' he'
      rw [h] at he'
      cases he'
      refine ⟨[.getSecret n₁], n₂, by rw [h]; rfl, hc₂, ?_⟩
      intro n hmem
      simp at hmem
      subst hmem
      exact ⟨secr₁, hc₁⟩

/-! ## Error texts and the Subscribe call -/

/-- C18: for an AWS error, `toErrMsg` returns the text `awserr.SprintError`
builds from the code, the message and the original cause alone, so two AWS
errors that differ only in the HTTP status and the request identifier yield the
same text (and the same subscribe error event); for an error that is not an
AWS error it returns the text of the error itself. -/
theorem toErrMsg_condensed :
    (∀ (code message : String) (origErr : Option String) (req₁ req₂ : Option (Nat × String)),
      toErrMsg (.aws ⟨code, message, origErr, req₁⟩) =
        toErrMsg (.aws ⟨code, message, origErr, req₂⟩)) ∧
    (∀ (err : Err) (a : AWSError), asAWSError err = some a →
      toErrMsg err = SprintError a.code a.message "" a.origErr) ∧
    (∀ err : Err, asAWSError err = none → toErrMsg err = err.Error) ∧
    (∀ (url : URL) (topicARN code message : String) (origErr : Option String)
        (req₁ req₂ : Option (Nat × String)),
      susbscribeErrorEvent url topicARN (.aws ⟨code, message, origErr, req₁⟩) =
        susbscribeErrorEvent url topicARN (.aws ⟨code, message, origErr, req₂⟩)) := by
  refine ⟨fun _ _ _ _ _ => rfl, ?_, ?_, fun _ _ _ _ _ _ _ => rfl⟩
  · intro err a h
    simp [toErrMsg, h]
  · intro err h
    simp [toErrMsg, h]

/-- The calls of `newSNSClient` are secret lookups. -/
theorem newSNSClient_calls (cli : String → Except Err Secret) (region : String)
    (creds : AWSSecurityCredentials) :
    ∀ c ∈ (newSNSClient cli region creds).2, c.isGetSecret = true := by
  have h : (newSNSClient cli region creds).2 = (awsCredentials cli creds).2 := by
    rcases hc : awsCredentials cli creds with ⟨res, cs⟩
    cases res <;> simp [newSNSClient, hc]
  rw [h]
  exact awsCredentials_calls cli creds

/-- C19, as stated, fails when the adapter workload does not exist: the source
was marked Subscribed by an earlier pass, the lister holds no adapter, and
`ensureSubscribed` returns nil with the status still marked Subscribed, not
NotSubscribed with the reason that the URL is not known. -/
theorem ensureSubscribed_missing_adapter_keeps_status :
    (ensureSubscribed { exampleReconciler with base := listingBase [] }
        (examplePackage Service specSemanticDeepEqual) acceptingAPI false
        ⟨markedSource, []⟩).1 = none ∧
    (ensureSubscribed { exampleReconciler with base := listingBase [] }
        (examplePackage Service specSemanticDeepEqual) acceptingAPI false
        ⟨markedSource, []⟩).2.src.Status.Subscribed = some ⟨.True, none, ""⟩ ∧
    (ensureSubscribed { exampleReconciler with base := listingBase [] }
        (examplePackage Service specSemanticDeepEqual) acceptingAPI false
        ⟨markedSource, []⟩).2.src.Status.Subscribed ≠
      some ⟨.False, some .AWSSNSReasonNoURL,
        "The receive adapter did not report its public URL yet"⟩ := by
  refine ⟨by decide, by decide, by decide⟩

/-- C19, amended: when the adapter workload is found but is not ready or
reports no URL, `ensureSubscribed` returns nil, issues no call beyond the
lookup (no secret lookup, no Subscribe call) and leaves the status marked
NotSubscribed with the reason that the adapter URL is not known; when the
lookup reports that the adapter does not exist, it returns nil and issues no
call beyond the lookup, and leaves the source as it was. -/
theorem ensureSubscribed_no_address (r : Reconciler) (p : Package Service) (api : SNSAPI)
    (st : SNSRun) (res : Except Err Service) (cs : List (Call Service))
    (hfind : r.base.FindAdapter p st.src.asEventSource = (res, cs)) :
    (∀ c ∈ cs, c.isGetSecret = false ∧ c.isSubscribe = false) ∧
    (∀ adapter, res = .ok adapter →
      (adapter.IsReady = false ∨ adapter.Status.URL = none) →
      (ensureSubscribed r p api false st).1 = none ∧
      (ensureSubscribed r p api false st).2.trace = st.trace ++ cs ∧
      (ensureSubscribed r p api false st).2.src.Status.Subscribed =
        some ⟨.False, some .AWSSNSReasonNoURL,
          "The receive adapter did not report its public URL yet"⟩) ∧
    (∀ e, res = .error e → isNotFound e = true →
      (ensureSubscribed r p api false st).1 = none ∧
      (ensureSubscribed r p api false st).2.trace = st.trace ++ cs ∧
      (ensureSubscribed r p api false st).2.src = st.src) := by
  refine ⟨?_, ?_, ?_⟩
  · have h := congrArg Prod.snd hfind
    simp only [GenericServiceReconciler.FindAdapter, findAdapter_eq] at h
    rw [← h]
    intro c hc
    simp at hc
    simp [hc, Call.isGetSecret, Call.isSubscribe]
  · intro adapter hres hnot
    subst hres
    simp only [ensureSubscribed, hfind]
    rcases hnot with hnr | hnu
    · simp [hnr, SNSRun.calls, SNSRun.setStatus, subscribed_markNotSubscribed]
    · cases hr : adapter.IsReady <;>
        simp [hr, hnu, SNSRun.calls, SNSRun.setStatus, subscribed_markNotSubscribed]
  · intro e hres hnf
    subst hres
    simp [ensureSubscribed, hfind, hnf, SNSRun.calls]

/-- C19 amended, at the example source with an adapter that is not ready. -/
theorem ensureSubscribed_no_address_witness :
    (ensureSubscribed { exampleReconciler with base := listingBase [pendingAdapter] }
        (examplePackage Service specSemanticDeepEqual) acceptingAPI false
        ⟨exampleSource, []⟩).1 = none ∧
    (ensureSubscribed { exampleReconciler with base := listingBase [pendingAdapter] }
        (examplePackage Service specSemanticDeepEqual) acceptingAPI false
        ⟨exampleSource, []⟩).2.trace =
      [] ++ [.list "default" [(AppNameLabel, "awssnssource"), (AppInstanceLabel, "sns")]] ∧
    (ensureSubscribed { exampleReconciler with base := listingBase [pendingAdapter] }
        (examplePackage Service specSemanticDeepEqual) acceptingAPI false
        ⟨exampleSource, []⟩).2.src.Status.Subscribed =
      some ⟨.False, some .AWSSNSReasonNoURL,
        "The receive adapter did not report its public URL yet"⟩ :=
  (ensureSubscribed_no_address { exampleReconciler with base := listingBase [pendingAdapter] }
    (examplePackage Service specSemanticDeepEqual) acceptingAPI ⟨exampleSource, []⟩
    (.ok pendingAdapter)
    [.list "default" [(AppNameLabel, "awssnssource"), (AppInstanceLabel, "sns")]]
    rfl).2.1 pendingAdapter rfl (Or.inl rfl)

/-- C20: in a pass where the adapter is ready with URL `url` and the client is
built, `ensureSubscribed` issues exactly one Subscribe call, after the lookup
and the secret lookups and whatever the call answers; its endpoint is the text
of `url`, its protocol the scheme of `url`, its topic the text of the ARN of
the source, its attributes the subscription attributes of the source, and it
requests that the subscription ARN be returned. -/
theorem ensureSubscribed_subscribe_call (r : Reconciler) (p : Package Service)
    (api : SNSAPI) (st : SNSRun) (adapter : Service) (url : URL) (client : SNSClient)
    (cs₁ cs₂ : List (Call Service))
    (hfind : r.base.FindAdapter p st.src.asEventSource = (.ok adapter, cs₁))
    (hready : adapter.IsReady = true) (hurl : adapter.Status.URL = some url)
    (hcli : newSNSClient (r.secretsCli st.src.ObjectMeta.Namespace) st.src.Spec.ARN.Region
      st.src.Spec.Credentials = (.ok client, cs₂)) :
    (ensureSubscribed r p api false st).2.trace =
      st.trace ++ cs₁ ++ cs₂ ++ [.subscribe
        { Endpoint := url.String
          Protocol := url.Scheme
          TopicArn := st.src.Spec.ARN.String
          Attributes := st.src.Spec.SubscriptionAttributes
          ReturnSubscriptionArn := true }] ∧
    (∀ c ∈ cs₁ ++ cs₂, c.isSubscribe = false) ∧
    ((cs₁ ++ cs₂ ++ [Call.subscribe
        { Endpoint := url.String
          Protocol := url.Scheme
          TopicArn := st.src.Spec.ARN.String
          Attributes := st.src.Spec.SubscriptionAttributes
          ReturnSubscriptionArn := true }]).filter Call.isSubscribe).length = 1 := by
  have hno : ∀ c ∈ cs₁ ++ cs₂, c.isSubscribe = false := by
    intro c hc
    rcases List.mem_append.mp hc with h | h
    · have h₁ := congrArg Prod.snd hfind
      simp only [GenericServiceReconciler.FindAdapter, findAdapter_eq] at h₁
      rw [← h₁] at h
      simp at h
      simp [h, Call.isSubscribe]
    · have h₂ := newSNSClient_calls (r.secretsCli st.src.ObjectMeta.Namespace)
        st.src.Spec.ARN.Region st.src.Spec.Credentials c (by rw [hcli]; exact h)
      cases c <;> simp_all [Call.isGetSecret, Call.isSubscribe]
  refine ⟨?_, hno, ?_⟩
  · rw [ensureSubscribed_ready r p api st adapter url client cs₁ cs₂ hfind hready hurl hcli]
    simp only [subscribeInput]
    cases hsub : api.SubscribeWithContext client
        { Endpoint := url.String
          Protocol := url.Scheme
          TopicArn := st.src.Spec.ARN.String
          Attributes := st.src.Spec.SubscriptionAttributes
          ReturnSubscriptionArn := true } with
    | error err =>
      cases haws : isAWSError err <;> simp [haws, SNSRun.calls, SNSRun.setStatus]
    | ok resp => simp [SNSRun.calls, SNSRun.setStatus]
  · rw [List.filter_append, List.length_append]
    have hz : (cs₁ ++ cs₂).filter Call.isSubscribe = [] := by
      rw [List.filter_eq_nil_iff]
      intro c hc
      simp [hno c hc]
    simp [hz, Call.isSubscribe]

/-- C20 at the example cluster: the Subscribe call of the pass. -/
theorem ensureSubscribed_subscribe_call_witness :
    (ensureSubscribed exampleReconciler (examplePackage Service specSemanticDeepEqual)
        acceptingAPI false ⟨exampleSource, []⟩).2.trace =
      [] ++ [.list "default" [(AppNameLabel, "awssnssource"), (AppInstanceLabel, "sns")]] ++ []
        ++ [.subscribe
        { Endpoint := exampleURL.String
          Protocol := exampleURL.Scheme
          TopicArn := exampleSource.Spec.ARN.String
          Attributes := exampleSource.Spec.SubscriptionAttributes
          ReturnSubscriptionArn := true }] :=
  (ensureSubscribed_subscribe_call exampleReconciler
    (examplePackage Service specSemanticDeepEqual) acceptingAPI
    ⟨exampleSource, []⟩ exampleAdapter exampleURL
    ⟨"us-west-2", ⟨"AKIA", "s3cr3t"⟩⟩
    [.list "default" [(AppNameLabel, "awssnssource"), (AppInstanceLabel, "sns")]] []
    rfl rfl rfl rfl).1

/-! ## Defaulting the namespace of the sink -/

/-- The namespace defaulting of `resolveSinkURL`, for any workload kind. -/
theorem resolveSinkURL_defaulting {W : Type} (r : GenericReconciler W) (st : Run W) :
    SinkNamespaceDefaulting r st := by
  obtain ⟨src, trace⟩ := st
  obtain ⟨m, kind, sink, types, status⟩ := src
  obtain ⟨ref, uri⟩ := sink
  refine ⟨?_, ?_, ?_⟩
  · intro ref' href hns
    simp only at href
    subst href
    simp [resolveSinkURL, hns]
  · intro ref' href hns
    simp only at href
    subst href
    simp [resolveSinkURL, hns]
  · intro href
    simp only at href
    subst href
    simp [resolveSinkURL]

/-- C22: `resolveSinkURL` of the Deployment reconciler and of the Service
reconciler: for a sink that is an object reference with an empty namespace, the
destination passed to the sink resolver carries the namespace of the source in
its reference, and the sink reference of the source itself is set to that
namespace; a reference with a non-empty namespace, and a sink without an
object reference, are passed unchanged and the source is left as it was. -/
theorem resolveSinkURL_namespace (rd : GenericDeploymentReconciler) (std : Run Deployment)
    (rs : GenericServiceReconciler) (sts : Run Service) :
    SinkNamespaceDefaulting rd std ∧ SinkNamespaceDefaulting rs sts :=
  ⟨resolveSinkURL_defaulting rd std, resolveSinkURL_defaulting rs sts⟩

/-! ## The stored subscription identifier -/

/-- C21: `ensureSubscribed` does not read the stored subscription identifier.
For two sources that differ only in `Status.SubscriptionARN`, with the adapter
ready and the client built, it issues the same calls, ending with the same
Subscribe call, and returns the same value; when the call succeeds the stored
identifier of both becomes the returned one; when the call fails each source
keeps the identifier it had. -/
theorem ensureSubscribed_ignores_stored (r : Reconciler) (p : Package Service)
    (api : SNSAPI) (st : SNSRun) (adapter : Service) (url : URL) (client : SNSClient)
    (cs₁ cs₂ : List (Call Service)) (stored : Option String)
    (hfind : r.base.FindAdapter p st.src.asEventSource = (.ok adapter, cs₁))
    (hready : adapter.IsReady = true) (hurl : adapter.Status.URL = some url)
    (hcli : newSNSClient (r.secretsCli st.src.ObjectMeta.Namespace) st.src.Spec.ARN.Region
      st.src.Spec.Credentials = (.ok client, cs₂)) :
    (ensureSubscribed r p api false st).2.trace =
      st.trace ++ cs₁ ++ cs₂ ++ [.subscribe (subscribeInput st.src.Spec url)] ∧
    (ensureSubscribed r p api false (withStoredARN st stored)).2.trace =
      st.trace ++ cs₁ ++ cs₂ ++ [.subscribe (subscribeInput st.src.Spec url)] ∧
    (ensureSubscribed r p api false (withStoredARN st stored)).1 =
      (ensureSubscribed r p api false st).1 ∧
    (ensureSubscribed r p api false (withStoredARN st stored)).2.src.Status.EventSourceStatus =
      (ensureSubscribed r p api false st).2.src.Status.EventSourceStatus ∧
    (∀ resp, api.SubscribeWithContext client (subscribeInput st.src.Spec url) = .ok resp →
      (ensureSubscribed r p api false st).2.src.Status.SubscriptionARN = resp.SubscriptionArn ∧
      (ensureSubscribed r p api false (withStoredARN st stored)).2.src.Status.SubscriptionARN =
        resp.SubscriptionArn) ∧
    (∀ err, api.SubscribeWithContext client (subscribeInput st.src.Spec url) = .error err →
      (ensureSubscribed r p api false st).2.src.Status.SubscriptionARN =
        st.src.Status.SubscriptionARN ∧
      (ensureSubscribed r p api false (withStoredARN st stored)).2.src.Status.SubscriptionARN =
        stored) := by
  have h₁ := ensureSubscribed_ready r p api st adapter url client cs₁ cs₂ hfind hready hurl hcli
  have h₂ := ensureSubscribed_ready r p api (withStoredARN st stored) adapter url client cs₁ cs₂
    hfind hready hurl hcli
  have hspec : (withStoredARN st stored).src.Spec = st.src.Spec := rfl
  rw [h₁, h₂, hspec]
  cases hsub : api.SubscribeWithContext client (subscribeInput st.src.Spec url) with
  | error err =>
    cases haws : isAWSError err <;>
      simp [haws, withStoredARN, SNSRun.calls, SNSRun.setStatus,
        AWSSNSSourceStatus.MarkNotSubscribed]
  | ok resp =>
    simp [withStoredARN, SNSRun.calls, SNSRun.setStatus, AWSSNSSourceStatus.MarkSubscribed]

/-- C21 at the example source, without and with a stored subscription, and an
SNS API that accepts the subscription. -/
theorem ensureSubscribed_ignores_stored_witness :
    (ensureSubscribed exampleReconciler (examplePackage Service specSemanticDeepEqual)
        acceptingAPI false
        (withStoredARN ⟨exampleSource, []⟩ (some "arn:aws:sns:us-west-2:123456789012:topic:0"))).1 =
      (ensureSubscribed exampleReconciler (examplePackage Service specSemanticDeepEqual)
        acceptingAPI false ⟨exampleSource, []⟩).1 ∧
    (ensureSubscribed exampleReconciler (examplePackage Service specSemanticDeepEqual)
        acceptingAPI false
        (withStoredARN ⟨exampleSource, []⟩
          (some "arn:aws:sns:us-west-2:123456789012:topic:0"))).2.src.Status.SubscriptionARN =
      (⟨some ("arn:aws:sns:us-west-2:123456789012:topic" ++ ":1")⟩ :
        SubscribeOutput).SubscriptionArn :=
  ⟨(ensureSubscribed_ignores_stored exampleReconciler
      (examplePackage Service specSemanticDeepEqual) acceptingAPI ⟨exampleSource, []⟩
      exampleAdapter exampleURL ⟨"us-west-2", ⟨"AKIA", "s3cr3t"⟩⟩
      [.list "default" [(AppNameLabel, "awssnssource"), (AppInstanceLabel, "sns")]] []
      (some "arn:aws:sns:us-west-2:123456789012:topic:0") rfl rfl rfl rfl).2.2.1,
   ((ensureSubscribed_ignores_stored exampleReconciler
      (examplePackage Service specSemanticDeepEqual) acceptingAPI ⟨exampleSource, []⟩
      exampleAdapter exampleURL ⟨"us-west-2", ⟨"AKIA", "s3cr3t"⟩⟩
      [.list "default" [(AppNameLabel, "awssnssource"), (AppInstanceLabel, "sns")]] []
      (some "arn:aws:sns:us-west-2:123456789012:topic:0") rfl rfl rfl rfl).2.2.2.2.1
      ⟨some ("arn:aws:sns:us-west-2:123456789012:topic" ++ ":1")⟩ rfl).2⟩

/-! ## Type assertions of the notification handler -/

/-- The type assertion succeeds exactly on a string. -/
theorem assertString_eq_some (v : Option awssnssource.JSONValue) (s : String) :
    awssnssource.assertString v = some s ↔ v = some (.string s) := by
  cases v with
  | none => simp [awssnssource.assertString]
  | some j => cases j <;> simp [awssnssource.assertString]

/-- The type assertion fails exactly when the value is not a string. -/
theorem assertString_eq_none (v : Option awssnssource.JSONValue) :
    awssnssource.assertString v = none ↔ ∀ s, v ≠ some (.string s) := by
  cases v with
  | none => simp [awssnssource.assertString]
  | some j => cases j <;> simp [awssnssource.assertString]

/-- C23: for a request body that parses as a JSON object, `handleNotification`
completes without a failed type assertion if and only if "Type" is present and
a string and, for a SubscriptionConfirmation, "TopicArn" and "Token" are
strings, and, for a Notification, "MessageId" is a string and "Subject" is
absent or a string; for a string Type other than those two the handler does
nothing: it confirms nothing and sends no event. -/
theorem handleNotification_assertions (a : awssnssource.adapter) (lib : awssnssource.Library)
    (body : String) (data : awssnssource.JSONObject)
    (hparse : lib.Unmarshal body = .ok data) :
    ((awssnssource.handleNotification a lib (.ok body)).panicked = false ↔
      ∃ typ, List.lookup "Type" data = some (.string typ) ∧
        (typ = "SubscriptionConfirmation" →
          (∃ t, List.lookup "TopicArn" data = some (.string t)) ∧
          (∃ k, List.lookup "Token" data = some (.string k))) ∧
        (typ = "Notification" →
          (∃ m, List.lookup "MessageId" data = some (.string m)) ∧
          (List.lookup "Subject" data = none ∨
            ∃ s, List.lookup "Subject" data = some (.string s)))) ∧
    (∀ typ, List.lookup "Type" data = some (.string typ) →
      typ ≠ "SubscriptionConfirmation" → typ ≠ "Notification" →
      awssnssource.handleNotification a lib (.ok body) = ⟨false, []⟩) := by
  have hsome := assertString_eq_some
  have hnone := assertString_eq_none
  simp only [awssnssource.handleNotification, hparse]
  constructor
  · cases hT : awssnssource.assertString (List.lookup "Type" data) with
    | none =>
      have h := (hnone _).mp hT
      simp only [Bool.true_eq_false, false_iff]
      rintro ⟨typ, hty, _⟩
      exact h typ hty
    | some typ =>
      have hty := (hsome _ _).mp hT
      have hrhs : ∀ P : String → Prop,
          (∃ typ', List.lookup "Type" data = some (.string typ') ∧ P typ') ↔ P typ := by
        intro P
        constructor
        · rintro ⟨typ', hty', hP⟩
          rw [hty] at hty'
          cases hty'
          exact hP
        · intro hP
          exact ⟨typ, hty, hP⟩
      rw [hrhs (fun typ =>
        (typ = "SubscriptionConfirmation" →
          (∃ t, List.lookup "TopicArn" data = some (.string t)) ∧
          (∃ k, List.lookup "Token" data = some (.string k))) ∧
        (typ = "Notification" →
          (∃ m, List.lookup "MessageId" data = some (.string m)) ∧
          (List.lookup "Subject" data = none ∨
            ∃ s, List.lookup "Subject" data = some (.string s))))]
      simp only
      by_cases hsc : typ = "SubscriptionConfirmation"
      · subst hsc
        simp only [if_true, true_implies]
        have hne : ¬ ("SubscriptionConfirmation" = "Notification") := by decide
        simp only [hne, false_implies, and_true]
        cases hA : awssnssource.assertString (List.lookup "TopicArn" data) with
        | none =>
          have h := (hnone _).mp hA
          simp only [Bool.true_eq_false, false_iff]
          rintro ⟨⟨t, ht⟩, _⟩
          exact h t ht
        | some topicArn =>
          have hA' := (hsome _ _).mp hA
          simp only
          cases hK : awssnssource.assertString (List.lookup "Token" data) with
          | none =>
            have h := (hnone _).mp hK
            simp only [Bool.true_eq_false, false_iff]
            rintro ⟨_, ⟨k, hk⟩⟩
            exact h k hk
          | some token =>
            have hK' := (hsome _ _).mp hK
            have hgoal : (∃ t, List.lookup "TopicArn" data = some (.string t)) ∧
                (∃ k, List.lookup "Token" data = some (.string k)) :=
              ⟨⟨_, hA'⟩, ⟨_, hK'⟩⟩
            simp only
            cases hC : a.ConfirmSubscription topicArn token <;> simp [hgoal]
      · simp only [hsc, if_false, false_implies, true_and]
        by_cases hn : typ = "Notification"
        · subst hn
          simp only [if_true, true_implies]
          cases hM : awssnssource.assertString (List.lookup "MessageId" data) with
          | none =>
            have h := (hnone _).mp hM
            simp only [Bool.true_eq_false, false_iff]
            rintro ⟨⟨m, hm⟩, _⟩
            exact h m hm
          | some messageId =>
            have hM' := (hsome _ _).mp hM
            simp only
            cases hS : List.lookup "Subject" data with
            | none =>
              have hgoal : (∃ m, List.lookup "MessageId" data = some (.string m)) :=
                ⟨_, hM'⟩
              simp only
              cases hD : lib.SetDataError body with
              | some err => simp [hgoal]
              | none =>
                simp only
                split <;> simp [hgoal]
            | some subjectAttr =>
              simp only
              cases hS' : awssnssource.assertString (some subjectAttr) with
              | none =>
                have h := (hnone _).mp hS'
                simp only [Bool.true_eq_false, false_iff]
                rintro ⟨_, hsub | ⟨s, hs⟩⟩
                · cases hsub
                · exact h s hs
              | some subject =>
                have hS'' := (hsome _ _).mp hS'
                have hgoal : (∃ m, List.lookup "MessageId" data = some (.string m)) ∧
                    (some subjectAttr = none ∨
                      ∃ s, some subjectAttr = some (awssnssource.JSONValue.string s)) :=
                  ⟨⟨_, hM'⟩, Or.inr ⟨_, hS''⟩⟩
                have hsub : ∃ s, subjectAttr = awssnssource.JSONValue.string s :=
                  ⟨_, Option.some.inj hS''⟩
                simp only
                cases hD : lib.SetDataError body with
                | some err => simp [hgoal, hsub]
                | none =>
                  simp only
                  split <;> simp [hgoal, hsub]
        · simp [hn]
  · intro typ hty hsc hn
    have hT : awssnssource.assertString (List.lookup "Type" data) = some typ :=
      (hsome _ _).mpr hty
    simp [hT, hsc, hn]

/-- C23 at the example decoder: the notification body carries string "Type",
"MessageId" and "Subject", and the handler completes. -/
theorem handleNotification_assertions_witness :
    awssnssource.exampleLibrary.Unmarshal "notification" =
        .ok [("Type", .string "Notification"), ("MessageId", .string "m-1"),
          ("Subject", .string "hello"), ("Message", .string "world")] ∧
      (awssnssource.handleNotification awssnssource.exampleSNSAdapter
        awssnssource.exampleLibrary (.ok "notification")).panicked = false :=
  ⟨rfl,
   (handleNotification_assertions awssnssource.exampleSNSAdapter awssnssource.exampleLibrary
      "notification"
      [("Type", .string "Notification"), ("MessageId", .string "m-1"),
        ("Subject", .string "hello"), ("Message", .string "world")] rfl).1.mpr
      ⟨"Notification", rfl, (fun h => absurd h (by decide)),
        (fun _ => ⟨⟨"m-1", rfl⟩, Or.inr ⟨"hello", rfl⟩⟩)⟩⟩

/-- A notification whose "Subject" is present but null fails the assertion. -/
theorem handleNotification_null_subject :
    (awssnssource.handleNotification awssnssource.exampleSNSAdapter
      awssnssource.exampleLibrary (.ok "null-subject")).panicked = true := by
  rfl

/-- The example notification is forwarded as one event carrying the subject. -/
theorem handleNotification_example_send :
    (awssnssource.handleNotification awssnssource.exampleSNSAdapter
      awssnssource.exampleLibrary (.ok "notification")).effects =
      [.send ⟨"1.0", "com.amazon.sns.notification", "arn:aws:sns:us-west-2:123456789012:topic",
        "m-1", some "hello", some "application/json", some "notification"⟩] := by
  rfl

end AwsEventSources
